import Mathlib

/-! The alias (name-claim) commands of `rpcwallet.cpp`

A shallow embedding of the alias/data RPC commands of `src/rpcwallet.cpp`
(`aliasnew`, `aliasactivate`, `aliasupdate`, `dataactivate`, `dataupdate`)
as state-passing functions, followed by theorems about them.

Conventions of the embedding:

* `vector<unsigned char>` and `std::string` payloads are byte lists (`Bytes`);
  `vchFromValue`, `vchFromString` and `stringFromVch` only change the static
  type of such a value and are the identity here.
* the globals `mapNamePending`, `mapMyNames`, `pwalletMain->mapWallet`, the
  key pool, the wallet lock and `pindexBest->nHeight` are the fields of
  `State`; a command maps a `State` to a result and a `State`.
* a C++ `throw` is the `Except.error` result; state changes made before the
  throw stay in the returned state.
* the wallet's transaction construction (`SendMoney`,
  `SendMoneyWithInputTx`) is an external collaborator: what it answers is
  the `SendOracle` argument of a command, and every call of it is appended
  to the call log `State.sendLog`.
* the number of JSON parameters is carried by the types: an optional
  parameter is an `Option`.
-/

namespace Syscoin

/-! ## Bytes, identifiers, errors -/

/-- One `unsigned char`. -/
abbrev Byte := Fin 256

/-- A `vector<unsigned char>` or the bytes of a `std::string`. -/
abbrev Bytes := List Byte

/-- A transaction hash (`uint256`). -/
abbrev uint256 := Nat

/-- The RPC error codes used by the alias commands (`bitcoinrpc.h`). -/
inductive RPCErrorCode
  | RPC_WALLET_ERROR
  | RPC_WALLET_UNLOCK_NEEDED
  | RPC_INVALID_PARAMETER
  | RPC_TYPE_ERROR
  | RPC_INVALID_ADDRESS_OR_KEY
  deriving DecidableEq, Repr

/-- What a command throws: `throw runtime_error(msg)` or
`throw JSONRPCError(code, msg)`. -/
inductive RpcError
  | runtime (msg : String)
  | json (code : RPCErrorCode) (msg : String)
  deriving DecidableEq, Repr

/-! ## `std::map` as an association list -/

/-- The `find` member of `std::map`: the value stored under the key, if any. -/
def mapFind {K V : Type} [DecidableEq K] (m : List (K × V)) (k : K) : Option V :=
  match m with
  | [] => none
  | (k1, v) :: rest => if k = k1 then some v else mapFind rest k

/-- The `count` member of `std::map`: 1 when the key is present, else 0. -/
def mapCount {K V : Type} [DecidableEq K] (m : List (K × V)) (k : K) : Nat :=
  match mapFind m k with
  | some _ => 1
  | none => 0

/-- The `operator[]` of `std::map`: the value stored under the key; a key that
is absent is first inserted with a default-constructed value. Returns the
value and the map after the access. -/
def mapIndex {K V : Type} [DecidableEq K] (dflt : V) (m : List (K × V)) (k : K) :
    V × List (K × V) :=
  match mapFind m k with
  | some v => (v, m)
  | none => (dflt, (k, dflt) :: m)

/-- The assignment `m[k] = v` of `std::map`. -/
def mapAssign {K V : Type} [DecidableEq K] (m : List (K × V)) (k : K) (v : V) :
    List (K × V) :=
  (k, v) :: m.filter (fun p => decide (p.1 ≠ k))

/-- The `insert` member of `std::set`: no duplicate is stored. -/
def setInsert (set : List uint256) (h : uint256) : List uint256 :=
  if h ∈ set then set else set ++ [h]

/-! ## Hex encoding of the nonce -/

/-- Modelled from the spec: the table `hexmap` of `HexStr` (util.h is not
under src/), the sixteen lower-case hex digits as character codes. -/
def hexmap (n : Nat) : Byte :=
  if n < 10 then Fin.ofNat (48 + n) else Fin.ofNat (87 + n)

/-- Modelled from the spec: `HexStr` (util.h is not under src/), the hex text
of a byte string, two digits a byte, high nibble first. The spec calls the
result `nonceHex`. -/
def HexStr : Bytes → Bytes
  | [] => []
  | b :: rest => hexmap (b.val / 16) :: hexmap (b.val % 16) :: HexStr rest

/-- Modelled from the spec: the table `phexdigit` of `ParseHex` (util.cpp is
not under src/): the value of a hex digit, `none` for any other character. -/
def phexdigit (c : Byte) : Option Nat :=
  if 48 ≤ c.val ∧ c.val ≤ 57 then some (c.val - 48)
  else if 97 ≤ c.val ∧ c.val ≤ 102 then some (c.val - 87)
  else if 65 ≤ c.val ∧ c.val ≤ 70 then some (c.val - 55)
  else none

/-- The C `isspace` on a character code. -/
def isspace (c : Byte) : Bool :=
  c.val = 32 || (9 ≤ c.val && c.val ≤ 13)

/-- Modelled from the spec: `ParseHex` (util.cpp is not under src/), the
inverse of `HexStr`: reads pairs of hex digits, skipping white space before a
pair, and stops at the first character that is no hex digit. -/
def ParseHex : Bytes → Bytes
  | [] => []
  | c :: rest =>
    if isspace c then ParseHex rest
    else
      match phexdigit c with
      | none => []
      | some hi =>
        match rest with
        | [] => []
        | d :: rest2 =>
          match phexdigit d with
          | none => []
          | some lo => Fin.ofNat (hi * 16 + lo) :: ParseHex rest2

/-! ## Scripts and transactions -/

/-- A destination (`CTxDestination`). -/
inductive CTxDestination
  | CNoDestination
  | CKeyID (id : Nat)
  | CScriptID (id : Nat)
  deriving DecidableEq, Repr

/-- One element of a `CScript`, as the alias commands build it. -/
inductive ScriptOp
  | opN (n : Nat)                  -- `CScript::EncodeOP_N(n)`
  | push (data : Bytes)            -- `<< vector` or `<< uint160`
  | OP_2DROP
  | OP_DROP
  | payTo (dest : CTxDestination)  -- the script `SetDestination` makes
  deriving DecidableEq, Repr

/-- A script (`CScript`). -/
abbrev CScript := List ScriptOp

/-- Modelled from the spec: the opcode enum `{RESERVE, ACTIVATE, UPDATE}`
(alias.h is not under src/). -/
def OP_ALIAS_NEW : Nat := 1

/-- Modelled from the spec: the opcode enum `{RESERVE, ACTIVATE, UPDATE}`
(alias.h is not under src/). -/
def OP_ALIAS_ACTIVATE : Nat := 2

/-- Modelled from the spec: the opcode enum `{RESERVE, ACTIVATE, UPDATE}`
(alias.h is not under src/). -/
def OP_ALIAS_UPDATE : Nat := 3

/-- The script `CScript::SetDestination` makes for a destination. -/
def SetDestination (dest : CTxDestination) : CScript := [ScriptOp.payTo dest]

/-- A transaction output (`CTxOut`). -/
structure CTxOut where
  nValue : Int
  scriptPubKey : CScript
  deriving DecidableEq, Repr

/-- A transaction (`CTransaction`, `CWalletTx`), with the hash `GetHash()`
returns. -/
structure CTransaction where
  hash : uint256
  nVersion : Int
  vout : List CTxOut
  deriving DecidableEq, Repr

/-- A wallet transaction. -/
abbrev CWalletTx := CTransaction

/-- Modelled from the spec: the pushed data of a name script up to the first
drop opcode (part of `DecodeNameScript`, alias.cpp is not under src/). -/
def decodePushes : CScript → Option (List Bytes)
  | [] => none
  | ScriptOp.push d :: rest =>
    match decodePushes rest with
    | some vvch => some (d :: vvch)
    | none => none
  | ScriptOp.OP_2DROP :: _ => some []
  | ScriptOp.OP_DROP :: _ => some []
  | ScriptOp.opN _ :: _ => none
  | ScriptOp.payTo _ :: _ => none

/-- Modelled from the spec: `DecodeNameScript` (alias.cpp is not under src/).
The spec's encoding contract: a tagged output is an opcode of
`{RESERVE, ACTIVATE, UPDATE}` followed by the operation's pushed data
(`commitment` for RESERVE; `name, nonce, value` for ACTIVATE; `name, value`
for UPDATE), followed by drop opcodes, followed by a normal script. -/
def DecodeNameScript : CScript → Option (Nat × List Bytes)
  | ScriptOp.opN op :: rest =>
    match decodePushes rest with
    | some vvch =>
      if (op = OP_ALIAS_NEW ∧ vvch.length = 1) ∨
         (op = OP_ALIAS_ACTIVATE ∧ vvch.length = 3) ∨
         (op = OP_ALIAS_UPDATE ∧ vvch.length = 2) then some (op, vvch)
      else none
    | none => none
  | _ => none

/-! ## The state the commands run on -/

/-- One record of the name index (`CNameIndex`). -/
structure CNameIndex where
  txHash : uint256
  nHeight : Int
  vValue : Bytes
  deriving DecidableEq, Repr

/-- One call of the wallet's transaction construction, as logged. -/
structure SendCall where
  fWithInputTx : Bool          -- `SendMoneyWithInputTx` (true) or `SendMoney`
  scriptPubKey : CScript
  nValue : Int
  nNetFee : Int
  wtxIn : Option uint256       -- the hash of the input transaction
  txdata : Bytes
  deriving DecidableEq, Repr

/-- The globals the alias commands read and write. -/
structure State where
  mapNamePending : List (Bytes × List uint256)  -- `map<vector<unsigned char>, set<uint256> >`
  mapMyNames : List (Bytes × uint256)           -- `map<vector<unsigned char>, uint256>`
  mapWallet : List (uint256 × CWalletTx)        -- `pwalletMain->mapWallet`
  fLocked : Bool                                -- `pwalletMain->IsLocked()`
  nKeyPool : Nat                                -- the next key of the key pool
  nBestHeight : Int                             -- `pindexBest->nHeight`
  nameDB : List (Bytes × List CNameIndex)       -- `pnamedb`
  txDisk : List (uint256 × CTransaction)        -- the transactions on disk
  mapAddressBook : List (CTxDestination × Bytes)  -- `pwalletMain->mapAddressBook`
  sendLog : List SendCall                       -- the calls of transaction construction so far
  deriving DecidableEq, Repr

/-- The constants and pure helpers the commands use that are declared outside
`rpcwallet.cpp`; they are parameters of the embedding. -/
structure Env where
  Hash160 : Bytes → Bytes                 -- the 20 bytes of `Hash160(vch)`
  getvch : Nat → Bytes                    -- `CBigNum(rand).getvch()`
  GetAliasNetworkFee : Int → Int
  GetExpirationDepth : Int → Int
  CENT : Int
  MIN_AMOUNT : Int
  MAX_TX_DATA_SIZE : Nat
  SYSCOIN_TX_VERSION : Int
  AddressToHash160 : Bytes → Bool         -- whether the address text is valid
  addressGet : Bytes → CTxDestination     -- `CBitcoinAddress(strAddress).Get()`
  IsMine : CTxDestination → Bool
  GetKeyID : CTxDestination → Option Nat  -- `address.GetKeyID(keyID)`
  GetKey : Nat → Option Nat               -- `pwalletMain->GetKey(keyID, key)`
  MessageHash : Bytes → uint256           -- the hash of `strMessageMagic` and `txdata`
  SignCompact : Nat → uint256 → Option Bytes
  EncodeBase64 : Bytes → Bytes

/-- What the wallet answers when asked to build and send a transaction: the
error text (empty on success), the hash of the new transaction and its change
outputs. -/
structure SendOracle where
  strError : String
  hash : uint256
  vchange : List CTxOut
  deriving DecidableEq, Repr

/-- The result of a send: the error text, the new transaction, the state. -/
structure SendResult where
  strError : String
  wtx : CWalletTx
  state : State

/-- The function `EnsureWalletIsUnlocked` (rpcwallet.cpp, 42-46): the error it
throws, if any. -/
def EnsureWalletIsUnlocked (s : State) : Option RpcError :=
  if s.fLocked then
    some (RpcError.json RPCErrorCode.RPC_WALLET_UNLOCK_NEEDED
      "Error: Please enter the wallet passphrase with walletpassphrase first.")
  else none

/-- Modelled from the spec: `CWallet::GetKeyFromPool` (wallet.cpp is not under
src/), the wallet's key derivation for default destinations: hands out the
next key of the pool. -/
def GetKeyFromPool (s : State) : Nat × State :=
  (s.nKeyPool, { s with nKeyPool := s.nKeyPool + 1 })

/-- Modelled from the spec: `GetTxOfName` (alias.cpp is not under src/): the
transaction of the active claim of a name. A claim is active iff a record
exists and `height + expirationDepth(height) - currentHeight > 0`; the current
record is the last of the history. -/
def GetTxOfName (env : Env) (s : State) (vchName : Bytes) : Option CTransaction :=
  match mapFind s.nameDB vchName with
  | none => none
  | some vtxPos =>
    match vtxPos.getLast? with
    | none => none
    | some txPos =>
      if txPos.nHeight + env.GetExpirationDepth txPos.nHeight - s.nBestHeight > 0 then
        mapFind s.txDisk txPos.txHash
      else none

/-- Modelled from the spec: `PendingSet.Add(name, txId)`, that is
`mapNamePending[name].insert(txId)`. -/
def pendingAdd (m : List (Bytes × List uint256)) (vchName : Bytes) (h : uint256) :
    List (Bytes × List uint256) :=
  mapAssign m vchName (setInsert (mapIndex [] m vchName).1 h)

/-- Modelled from the spec: the pending registration of an emitted
transaction (done below transaction construction, not in rpcwallet.cpp): an
ACTIVATE or UPDATE transaction is added to the pending set of its name, a
RESERVE transaction is not tracked as pending. -/
def registerPending (m : List (Bytes × List uint256)) (scriptPubKey : CScript)
    (h : uint256) : List (Bytes × List uint256) :=
  match DecodeNameScript scriptPubKey with
  | some (op, vvch) =>
    if op ≠ OP_ALIAS_NEW then pendingAdd m (vvch.headD []) h else m
  | none => m

/-- Modelled from the spec: the wallet's transaction construction (wallet.cpp
and alias.cpp are not under src/), shared by `SendMoney` and
`SendMoneyWithInputTx`. The call is logged. On failure the wallet answers an
error text and nothing else changes. On success one transaction is emitted: it
carries the tagged output, then the change outputs; it is stored in the
wallet and registered as pending. -/
def sendTx (s : State) (o : SendOracle) (call : SendCall) (nVersion : Int) : SendResult :=
  let s1 : State := { s with sendLog := s.sendLog ++ [call] }
  let wtx : CWalletTx :=
    { hash := o.hash, nVersion := nVersion,
      vout := { nValue := call.nValue, scriptPubKey := call.scriptPubKey } :: o.vchange }
  if o.strError ≠ "" then
    { strError := o.strError, wtx := wtx, state := s1 }
  else
    { strError := "", wtx := wtx,
      state := { s1 with
        mapWallet := mapAssign s1.mapWallet o.hash wtx,
        mapNamePending := registerPending s1.mapNamePending call.scriptPubKey o.hash } }

/-- The call `pwalletMain->SendMoney(scriptPubKey, nValue, wtx, false)`. -/
def SendMoney (s : State) (o : SendOracle) (scriptPubKey : CScript) (nValue : Int)
    (nVersion : Int) : SendResult :=
  sendTx s o { fWithInputTx := false, scriptPubKey := scriptPubKey, nValue := nValue,
               nNetFee := 0, wtxIn := none, txdata := [] } nVersion

/-- The call
`SendMoneyWithInputTx(scriptPubKey, nValue, nNetFee, wtxIn, wtx, false, txdata)`. -/
def SendMoneyWithInputTx (s : State) (o : SendOracle) (scriptPubKey : CScript)
    (nValue nNetFee : Int) (wtxIn : CWalletTx) (nVersion : Int) (txdata : Bytes) :
    SendResult :=
  sendTx s o { fWithInputTx := true, scriptPubKey := scriptPubKey, nValue := nValue,
               nNetFee := nNetFee, wtxIn := some wtxIn.hash, txdata := txdata } nVersion

/-- A value of type `int64` after an arithmetic step (two's complement). -/
def wrap64 (x : Int) : Int := (x + 2 ^ 63) % 2 ^ 64 - 2 ^ 63

/-- The statements `nNetFee += CENT - 1; nNetFee = (nNetFee / CENT) * CENT;`
on an `int64` (`/` truncates toward zero). -/
def roundUpToCENT (env : Env) (nNetFee : Int) : Int :=
  wrap64 (Int.tdiv (wrap64 (nNetFee + (env.CENT - 1))) env.CENT * env.CENT)

/-- The condition `mapNamePending.count(vchName) && mapNamePending[vchName].size()`:
`&&` evaluates `operator[]` only when `count` is non-zero. The truth value
and the map after the evaluation. -/
def pendingCond (m : List (Bytes × List uint256)) (vchName : Bytes) :
    Bool × List (Bytes × List uint256) :=
  if mapCount m vchName ≠ 0 then
    (decide ((mapIndex [] m vchName).1.length ≠ 0), (mapIndex [] m vchName).2)
  else (false, m)

/-- What the loop over `wtxIn.vout` of the activate commands finds. -/
inductive VoutScan
  | notNew                   -- the first name output is not a RESERVE: a throw
  | found (vchHash : Bytes)  -- `vchHash = vvch[0]; found = true; break;`
  | notFound                 -- no output decodes as a name script
  deriving DecidableEq, Repr

/-- The loop `BOOST_FOREACH(CTxOut& out, wtxIn.vout)` of `aliasactivate` and
`dataactivate`. -/
def scanVout : List CTxOut → VoutScan
  | [] => VoutScan.notFound
  | out :: rest =>
    match DecodeNameScript out.scriptPubKey with
    | some (op, vvch) =>
      if op ≠ OP_ALIAS_NEW then VoutScan.notNew else VoutScan.found (vvch.headD [])
    | none => scanVout rest

/-- Modelled from the spec: the test `uint160(vchHash) != hash` (the type
`uint160` is declared in uint256.h, not under src/). The spec's `Verify`
compares the stored commitment with the raw hash byte for byte, not on a
prefix. -/
def commitmentDiffers (vchHash hash : Bytes) : Bool := decide (vchHash ≠ hash)

/-! ## The commands -/

/-- The command `aliasnew <name>` (rpcwallet.cpp, 1199-1239). `rand` is what
`GetRand` returns; the result is the pair (transaction id, hex of the
nonce). -/
def aliasnew (env : Env) (s : State) (vchName : Bytes) (rand : Nat) (o : SendOracle) :
    Except RpcError (uint256 × Bytes) × State :=
  let vchRand := env.getvch rand
  let vchToHash := vchRand ++ vchName
  let hash := env.Hash160 vchToHash
  let newDefaultKey := (GetKeyFromPool s).1
  let s1 := (GetKeyFromPool s).2
  let scriptPubKeyOrig := SetDestination (CTxDestination.CKeyID newDefaultKey)
  let scriptPubKey : CScript :=
    [ScriptOp.opN OP_ALIAS_NEW, ScriptOp.push hash, ScriptOp.OP_2DROP] ++ scriptPubKeyOrig
  match EnsureWalletIsUnlocked s1 with
  | some e => (Except.error e, s1)
  | none =>
    let r := SendMoney s1 o scriptPubKey env.MIN_AMOUNT env.SYSCOIN_TX_VERSION
    if r.strError ≠ "" then
      (Except.error (RpcError.json RPCErrorCode.RPC_WALLET_ERROR r.strError), r.state)
    else
      let s2 : State :=
        { r.state with mapMyNames := mapAssign r.state.mapMyNames vchName r.wtx.hash }
      (Except.ok (r.wtx.hash, HexStr vchRand), s2)

/-- The command `aliasactivate <alias> <rand> [<tx>] <value>` (rpcwallet.cpp,
1242-1336). `txParam` is the optional `<tx>`; the result is the id of the
transaction sent. -/
def aliasactivate (env : Env) (s : State) (vchName : Bytes) (strRand : Bytes)
    (txParam : Option uint256) (vchValue : Bytes) (o : SendOracle) :
    Except RpcError uint256 × State :=
  let vchRand := ParseHex strRand
  let c := pendingCond s.mapNamePending vchName
  let s1 : State := { s with mapNamePending := c.2 }
  if c.1 then
    (Except.error (RpcError.runtime "there are pending operations on that alias"), s1)
  else
  match GetTxOfName env s1 vchName with
  | some _ => (Except.error (RpcError.runtime "this alias is already active"), s1)
  | none =>
  match EnsureWalletIsUnlocked s1 with
  | some e => (Except.error e, s1)
  | none =>
  -- the previous aliasnew transaction: `wtxInHash`
  if txParam = none ∧ mapCount s1.mapMyNames vchName = 0 then
    (Except.error (RpcError.runtime
      "could not find a coin with this alias, try specifying the aliasnew transaction id"), s1)
  else
  let wtxInHash : uint256 :=
    match txParam with
    | none => (mapIndex 0 s1.mapMyNames vchName).1
    | some h => h
  let s2 : State :=
    match txParam with
    | none => { s1 with mapMyNames := (mapIndex 0 s1.mapMyNames vchName).2 }
    | some _ => s1
  if mapCount s2.mapWallet wtxInHash = 0 then
    (Except.error (RpcError.runtime "previous transaction is not in the wallet"), s2)
  else
  let newDefaultKey := (GetKeyFromPool s2).1
  let s3 := (GetKeyFromPool s2).2
  let scriptPubKeyOrig := SetDestination (CTxDestination.CKeyID newDefaultKey)
  let scriptPubKey : CScript :=
    [ScriptOp.opN OP_ALIAS_ACTIVATE, ScriptOp.push vchName, ScriptOp.push vchRand,
     ScriptOp.push vchValue, ScriptOp.OP_2DROP, ScriptOp.OP_2DROP] ++ scriptPubKeyOrig
  let dfltTx : CWalletTx := { hash := 0, nVersion := 0, vout := [] }
  let wtxIn := (mapIndex dfltTx s3.mapWallet wtxInHash).1
  let s4 : State := { s3 with mapWallet := (mapIndex dfltTx s3.mapWallet wtxInHash).2 }
  match scanVout wtxIn.vout with
  | VoutScan.notNew =>
    (Except.error (RpcError.runtime "previous transaction wasn't a aliasnew"), s4)
  | VoutScan.notFound =>
    (Except.error (RpcError.runtime "previous tx on alias name is not an alias tx"), s4)
  | VoutScan.found vchHash =>
  let vchToHash := vchRand ++ vchName
  let hash := env.Hash160 vchToHash
  if commitmentDiffers vchHash hash then
    (Except.error (RpcError.runtime "previous tx used a different random value"), s4)
  else
  let nNetFee := roundUpToCENT env (env.GetAliasNetworkFee s4.nBestHeight)
  let r := SendMoneyWithInputTx s4 o scriptPubKey env.MIN_AMOUNT nNetFee wtxIn
    env.SYSCOIN_TX_VERSION []
  if r.strError ≠ "" then
    (Except.error (RpcError.json RPCErrorCode.RPC_WALLET_ERROR r.strError), r.state)
  else (Except.ok r.wtx.hash, r.state)

/-- The command `aliasupdate <alias> <value> [<toaddress>]` (rpcwallet.cpp,
1338-1406). `toAddress` is the third parameter when exactly three are given. -/
def aliasupdate (env : Env) (s : State) (vchName : Bytes) (vchValue : Bytes)
    (toAddress : Option Bytes) (o : SendOracle) : Except RpcError uint256 × State :=
  if (match toAddress with
      | some strAddress => !env.AddressToHash160 strAddress
      | none => false) then
    (Except.error (RpcError.json RPCErrorCode.RPC_INVALID_ADDRESS_OR_KEY
      "Invalid syscoin address"), s)
  else
  let scriptPubKeyOrig : CScript :=
    match toAddress with
    | some strAddress => SetDestination (env.addressGet strAddress)
    | none => SetDestination (CTxDestination.CKeyID (GetKeyFromPool s).1)
  let s0 : State :=
    match toAddress with
    | some _ => s
    | none => (GetKeyFromPool s).2
  let scriptPubKey : CScript :=
    [ScriptOp.opN OP_ALIAS_UPDATE, ScriptOp.push vchName, ScriptOp.push vchValue,
     ScriptOp.OP_2DROP, ScriptOp.OP_DROP] ++ scriptPubKeyOrig
  let c := pendingCond s0.mapNamePending vchName
  let s1 : State := { s0 with mapNamePending := c.2 }
  if c.1 then
    (Except.error (RpcError.runtime "there are pending operations on that alias"), s1)
  else
  match EnsureWalletIsUnlocked s1 with
  | some e => (Except.error e, s1)
  | none =>
  match GetTxOfName env s1 vchName with
  | none => (Except.error (RpcError.runtime "could not find an alias with this name"), s1)
  | some tx =>
  let wtxInHash := tx.hash
  if mapCount s1.mapWallet wtxInHash = 0 then
    (Except.error (RpcError.runtime "this alias is not in your wallet"), s1)
  else
  let nNetFee := roundUpToCENT env (env.GetAliasNetworkFee s1.nBestHeight)
  let dfltTx : CWalletTx := { hash := 0, nVersion := 0, vout := [] }
  let wtxIn := (mapIndex dfltTx s1.mapWallet wtxInHash).1
  let s2 : State := { s1 with mapWallet := (mapIndex dfltTx s1.mapWallet wtxInHash).2 }
  let r := SendMoneyWithInputTx s2 o scriptPubKey env.MIN_AMOUNT nNetFee wtxIn
    env.SYSCOIN_TX_VERSION []
  if r.strError ≠ "" then
    (Except.error (RpcError.json RPCErrorCode.RPC_WALLET_ERROR r.strError), r.state)
  else (Except.ok r.wtx.hash, r.state)

/-- The command `datanew <alias>` (rpcwallet.cpp, 1903-1943). -/
def datanew (env : Env) (s : State) (vchName : Bytes) (rand : Nat) (o : SendOracle) :
    Except RpcError (uint256 × Bytes) × State :=
  let vchRand := env.getvch rand
  let vchToHash := vchRand ++ vchName
  let hash := env.Hash160 vchToHash
  let newDefaultKey := (GetKeyFromPool s).1
  let s1 := (GetKeyFromPool s).2
  let scriptPubKeyOrig := SetDestination (CTxDestination.CKeyID newDefaultKey)
  let scriptPubKey : CScript :=
    [ScriptOp.opN OP_ALIAS_NEW, ScriptOp.push hash, ScriptOp.OP_2DROP] ++ scriptPubKeyOrig
  match EnsureWalletIsUnlocked s1 with
  | some e => (Except.error e, s1)
  | none =>
    let r := SendMoney s1 o scriptPubKey env.MIN_AMOUNT env.SYSCOIN_TX_VERSION
    if r.strError ≠ "" then
      (Except.error (RpcError.json RPCErrorCode.RPC_WALLET_ERROR r.strError), r.state)
    else
      let s2 : State :=
        { r.state with mapMyNames := mapAssign r.state.mapMyNames vchName r.wtx.hash }
      (Except.ok (r.wtx.hash, HexStr vchRand), s2)

/-- The body of the signing loops of `dataactivate` and `dataupdate` for one
own address: the base64 text of the signature of `txdata`, or the throw. -/
def signEntry (env : Env) (txdata : Bytes) (dest : CTxDestination) : Except RpcError Bytes :=
  match env.GetKeyID dest with
  | none => Except.error (RpcError.json RPCErrorCode.RPC_TYPE_ERROR
      "Address does not refer to key")
  | some keyID =>
    match env.GetKey keyID with
    | none => Except.error (RpcError.json RPCErrorCode.RPC_WALLET_ERROR
        "Private key not available")
    | some key =>
      match env.SignCompact key (env.MessageHash txdata) with
      | none => Except.error (RpcError.json RPCErrorCode.RPC_INVALID_ADDRESS_OR_KEY
          "Sign failed")
      | some vchSig => Except.ok (env.EncodeBase64 vchSig)

/-- The signing loop of `dataactivate` (1969-1990): it ends with `break` at
the first own address. The result is `baSig`, which is also `vchValue`. -/
def signLoopActivate (env : Env) (txdata : Bytes) :
    List (CTxDestination × Bytes) → Except RpcError Bytes
  | [] => Except.ok []
  | entry :: rest =>
    if env.IsMine entry.1 then signEntry env txdata entry.1
    else signLoopActivate env txdata rest

/-- The signing loop of `dataupdate` (2092-2112): it has no `break`, every own
address signs in turn and overwrites `baSig`. -/
def signLoopUpdate (env : Env) (txdata : Bytes) :
    List (CTxDestination × Bytes) → Bytes → Except RpcError Bytes
  | [], baSig => Except.ok baSig
  | entry :: rest, baSig =>
    if env.IsMine entry.1 then
      match signEntry env txdata entry.1 with
      | Except.error e => Except.error e
      | Except.ok sig => signLoopUpdate env txdata rest sig
    else signLoopUpdate env txdata rest baSig

/-- The command `dataactivate <name> <rand> [<tx>] <data>` (rpcwallet.cpp,
1945-2072). The result is the pair (`baSig`, transaction id) that the
command joins with a line break. -/
def dataactivate (env : Env) (s : State) (vchName : Bytes) (strRand : Bytes)
    (txParam : Option uint256) (txdata : Bytes) (o : SendOracle) :
    Except RpcError (Bytes × uint256) × State :=
  let vchRand := ParseHex strRand
  if txdata.length > env.MAX_TX_DATA_SIZE then
    (Except.error (RpcError.json RPCErrorCode.RPC_INVALID_PARAMETER
      "Data chunk is too long.  Split the payload to several transactions."), s)
  else
  match signLoopActivate env txdata s.mapAddressBook with
  | Except.error e => (Except.error e, s)
  | Except.ok baSig =>
  let vchValue := baSig
  let c := pendingCond s.mapNamePending vchName
  let s1 : State := { s with mapNamePending := c.2 }
  if c.1 then
    (Except.error (RpcError.runtime "there are pending operations on that data"), s1)
  else
  match GetTxOfName env s1 vchName with
  | some _ => (Except.error (RpcError.runtime "this data is already active"), s1)
  | none =>
  match EnsureWalletIsUnlocked s1 with
  | some e => (Except.error e, s1)
  | none =>
  if txParam = none ∧ mapCount s1.mapMyNames vchName = 0 then
    (Except.error (RpcError.runtime
      "could not find any data with this name, try specifying the datanew transaction id"), s1)
  else
  let wtxInHash : uint256 :=
    match txParam with
    | none => (mapIndex 0 s1.mapMyNames vchName).1
    | some h => h
  let s2 : State :=
    match txParam with
    | none => { s1 with mapMyNames := (mapIndex 0 s1.mapMyNames vchName).2 }
    | some _ => s1
  if mapCount s2.mapWallet wtxInHash = 0 then
    (Except.error (RpcError.runtime "previous transaction is not in the wallet"), s2)
  else
  let newDefaultKey := (GetKeyFromPool s2).1
  let s3 := (GetKeyFromPool s2).2
  let scriptPubKeyOrig := SetDestination (CTxDestination.CKeyID newDefaultKey)
  let scriptPubKey : CScript :=
    [ScriptOp.opN OP_ALIAS_ACTIVATE, ScriptOp.push vchName, ScriptOp.push vchRand,
     ScriptOp.push vchValue, ScriptOp.OP_2DROP, ScriptOp.OP_2DROP] ++ scriptPubKeyOrig
  let dfltTx : CWalletTx := { hash := 0, nVersion := 0, vout := [] }
  let wtxIn := (mapIndex dfltTx s3.mapWallet wtxInHash).1
  let s4 : State := { s3 with mapWallet := (mapIndex dfltTx s3.mapWallet wtxInHash).2 }
  match scanVout wtxIn.vout with
  | VoutScan.notNew =>
    (Except.error (RpcError.runtime "previous transaction wasn't a datanew"), s4)
  | VoutScan.notFound =>
    (Except.error (RpcError.runtime "previous tx on this data is not a syscoin tx"), s4)
  | VoutScan.found vchHash =>
  let vchToHash := vchRand ++ vchName
  let hash := env.Hash160 vchToHash
  if commitmentDiffers vchHash hash then
    (Except.error (RpcError.runtime "previous tx used a different random value"), s4)
  else
  let nNetFee := roundUpToCENT env (env.GetAliasNetworkFee s4.nBestHeight)
  let r := SendMoneyWithInputTx s4 o scriptPubKey env.MIN_AMOUNT nNetFee wtxIn
    env.SYSCOIN_TX_VERSION txdata
  if r.strError ≠ "" then
    (Except.error (RpcError.json RPCErrorCode.RPC_WALLET_ERROR r.strError), r.state)
  else (Except.ok (baSig, r.wtx.hash), r.state)

/-- The command `dataupdate <name> <data> [<toaddress>]` (rpcwallet.cpp,
2074-2170). The result is the pair (`baSig`, transaction id). -/
def dataupdate (env : Env) (s : State) (vchName : Bytes) (txdata : Bytes)
    (toAddress : Option Bytes) (o : SendOracle) :
    Except RpcError (Bytes × uint256) × State :=
  if txdata.length > env.MAX_TX_DATA_SIZE then
    (Except.error (RpcError.json RPCErrorCode.RPC_INVALID_PARAMETER
      "Data chunk is too long.  Split the payload to several transactions."), s)
  else
  match signLoopUpdate env txdata s.mapAddressBook [] with
  | Except.error e => (Except.error e, s)
  | Except.ok baSig =>
  let vchValue := baSig
  if (match toAddress with
      | some strAddress => !env.AddressToHash160 strAddress
      | none => false) then
    (Except.error (RpcError.json RPCErrorCode.RPC_INVALID_ADDRESS_OR_KEY
      "Invalid syscoin address"), s)
  else
  let scriptPubKeyOrig : CScript :=
    match toAddress with
    | some strAddress => SetDestination (env.addressGet strAddress)
    | none => SetDestination (CTxDestination.CKeyID (GetKeyFromPool s).1)
  let s0 : State :=
    match toAddress with
    | some _ => s
    | none => (GetKeyFromPool s).2
  let scriptPubKey : CScript :=
    [ScriptOp.opN OP_ALIAS_UPDATE, ScriptOp.push vchName, ScriptOp.push vchValue,
     ScriptOp.OP_2DROP, ScriptOp.OP_DROP] ++ scriptPubKeyOrig
  let c := pendingCond s0.mapNamePending vchName
  let s1 : State := { s0 with mapNamePending := c.2 }
  if c.1 then
    (Except.error (RpcError.runtime "there are pending operations on that data"), s1)
  else
  match EnsureWalletIsUnlocked s1 with
  | some e => (Except.error e, s1)
  | none =>
  match GetTxOfName env s1 vchName with
  | none => (Except.error (RpcError.runtime "could not find this data+-in your wallet"), s1)
  | some tx =>
  let wtxInHash := tx.hash
  if mapCount s1.mapWallet wtxInHash = 0 then
    (Except.error (RpcError.runtime "this data is not in your wallet"), s1)
  else
  let dfltTx : CWalletTx := { hash := 0, nVersion := 0, vout := [] }
  let wtxIn := (mapIndex dfltTx s1.mapWallet wtxInHash).1
  let s2 : State := { s1 with mapWallet := (mapIndex dfltTx s1.mapWallet wtxInHash).2 }
  let r := SendMoneyWithInputTx s2 o scriptPubKey env.MIN_AMOUNT 0 wtxIn
    env.SYSCOIN_TX_VERSION []
  if r.strError ≠ "" then
    (Except.error (RpcError.json RPCErrorCode.RPC_WALLET_ERROR r.strError), r.state)
  else (Except.ok (baSig, r.wtx.hash), r.state)

/-- The outcome of the checks an activate command makes before it sends. -/
inductive ActivateCheck
  | pending
  | alreadyActive
  | locked
  | noReservation
  | notInWallet
  | notNew
  | notAlias
  | mismatch
  | pass (wtxIn : CWalletTx)
  deriving DecidableEq, Repr

/-- The reservation transaction id an activate command works on: the `<tx>`
parameter, or else the record of `mapMyNames`. -/
def resolveWtxIn (s : State) (vchName : Bytes) : Option uint256 → Option uint256
  | some h => some h
  | none => mapFind s.mapMyNames vchName

/-- The checks of `aliasactivate` and `dataactivate` in the order the code
makes them, read off the state without the map accesses. -/
def activateCheck (env : Env) (s : State) (vchName vchRand : Bytes)
    (txParam : Option uint256) : ActivateCheck :=
  if (pendingCond s.mapNamePending vchName).1 then ActivateCheck.pending
  else
  match GetTxOfName env s vchName with
  | some _ => ActivateCheck.alreadyActive
  | none =>
  if s.fLocked then ActivateCheck.locked
  else
  match resolveWtxIn s vchName txParam with
  | none => ActivateCheck.noReservation
  | some h =>
  match mapFind s.mapWallet h with
  | none => ActivateCheck.notInWallet
  | some wtxIn =>
  match scanVout wtxIn.vout with
  | VoutScan.notNew => ActivateCheck.notNew
  | VoutScan.notFound => ActivateCheck.notAlias
  | VoutScan.found vchHash =>
    if vchHash ≠ env.Hash160 (vchRand ++ vchName) then ActivateCheck.mismatch
    else ActivateCheck.pass wtxIn

/-- The script `aliasactivate` and `dataactivate` build. -/
def activateScript (vchName vchRand vchValue : Bytes) (key : Nat) : CScript :=
  [ScriptOp.opN OP_ALIAS_ACTIVATE, ScriptOp.push vchName, ScriptOp.push vchRand,
   ScriptOp.push vchValue, ScriptOp.OP_2DROP, ScriptOp.OP_2DROP,
   ScriptOp.payTo (CTxDestination.CKeyID key)]

/-- The send of an activate command once the checks have passed: a key is
drawn from the pool for the destination, the fee is the network fee at the
best height rounded up to CENT. -/
def activateSend (env : Env) (s : State) (vchName vchRand vchValue : Bytes)
    (wtxIn : CWalletTx) (txdata : Bytes) (o : SendOracle) : SendResult :=
  SendMoneyWithInputTx (GetKeyFromPool s).2 o
    (activateScript vchName vchRand vchValue s.nKeyPool) env.MIN_AMOUNT
    (roundUpToCENT env (env.GetAliasNetworkFee s.nBestHeight)) wtxIn
    env.SYSCOIN_TX_VERSION txdata

/-- The end of a command after its send: the throw on an error text, else the
id of the transaction. -/
def sendOutcome (r : SendResult) : Except RpcError uint256 × State :=
  if r.strError ≠ "" then
    (Except.error (RpcError.json RPCErrorCode.RPC_WALLET_ERROR r.strError), r.state)
  else (Except.ok r.wtx.hash, r.state)

/-- The outcome of the checks an update command makes before it sends. -/
inductive UpdateCheck
  | pending
  | locked
  | noClaim
  | notInWallet
  | pass (wtxIn : CWalletTx)
  deriving DecidableEq, Repr

/-- The checks of `aliasupdate` and `dataupdate` in the order the code makes
them, read off the state without the map accesses. -/
def updateCheck (env : Env) (s : State) (vchName : Bytes) : UpdateCheck :=
  if (pendingCond s.mapNamePending vchName).1 then UpdateCheck.pending
  else
  if s.fLocked then UpdateCheck.locked
  else
  match GetTxOfName env s vchName with
  | none => UpdateCheck.noClaim
  | some tx =>
  match mapFind s.mapWallet tx.hash with
  | none => UpdateCheck.notInWallet
  | some wtxIn => UpdateCheck.pass wtxIn

/-- The state of an update command after its destination is chosen: a key is
drawn from the pool when no address is given. -/
def updateKeyState (s : State) : Option Bytes → State
  | some _ => s
  | none => (GetKeyFromPool s).2

/-- The destination of an update command. -/
def updateDest (env : Env) (s : State) : Option Bytes → CTxDestination
  | some strAddress => env.addressGet strAddress
  | none => CTxDestination.CKeyID s.nKeyPool

/-- The script `aliasupdate` and `dataupdate` build. -/
def updateScript (vchName vchValue : Bytes) (dest : CTxDestination) : CScript :=
  [ScriptOp.opN OP_ALIAS_UPDATE, ScriptOp.push vchName, ScriptOp.push vchValue,
   ScriptOp.OP_2DROP, ScriptOp.OP_DROP, ScriptOp.payTo dest]

/-- Whether an update command is given an address that is not valid. -/
def badAddress (env : Env) : Option Bytes → Bool
  | some strAddress => !env.AddressToHash160 strAddress
  | none => false

/-- The error an alias command throws on pending operations. -/
def pendingErrorAlias : RpcError :=
  RpcError.runtime "there are pending operations on that alias"

/-- The error a data command throws on pending operations. -/
def pendingErrorData : RpcError :=
  RpcError.runtime "there are pending operations on that data"

/-- Whether an error is a pending-operations error. -/
def isPendingError (e : RpcError) : Bool :=
  decide (e = pendingErrorAlias) || decide (e = pendingErrorData)

/-- The spec's `HasPending(name)`: the pending set recorded for the name is
non-empty. -/
def HasPending (s : State) (vchName : Bytes) : Bool :=
  match mapFind s.mapNamePending vchName with
  | some set => !set.isEmpty
  | none => false

/-- The call of transaction construction an activate command makes once its
checks have passed. -/
def activateCall (env : Env) (s : State) (vchName vchRand vchValue : Bytes)
    (wtxIn : CWalletTx) (txdata : Bytes) : SendCall :=
  { fWithInputTx := true,
    scriptPubKey := activateScript vchName vchRand vchValue s.nKeyPool,
    nValue := env.MIN_AMOUNT,
    nNetFee := roundUpToCENT env (env.GetAliasNetworkFee s.nBestHeight),
    wtxIn := some wtxIn.hash,
    txdata := txdata }

/-- The script `aliasnew` and `datanew` build. -/
def reserveScript (hash : Bytes) (key : Nat) : CScript :=
  [ScriptOp.opN OP_ALIAS_NEW, ScriptOp.push hash, ScriptOp.OP_2DROP,
   ScriptOp.payTo (CTxDestination.CKeyID key)]

/-- The call of transaction construction `aliasnew` makes. -/
def reserveCall (env : Env) (s : State) (vchName : Bytes) (rand : Nat) : SendCall :=
  { fWithInputTx := false,
    scriptPubKey := reserveScript (env.Hash160 (env.getvch rand ++ vchName)) s.nKeyPool,
    nValue := env.MIN_AMOUNT,
    nNetFee := 0,
    wtxIn := none,
    txdata := [] }

/-! ## A small concrete world for worked examples -/

/-- A stand-in for `Hash160` with 20-byte results (not collision free). -/
def exHash160 (v : Bytes) : Bytes :=
  Fin.ofNat (v.foldl (fun a b => 3 * a + b.val) v.length) :: List.replicate 19 0

/-- A stand-in for `CBigNum(rand).getvch()`: the two low bytes, little-endian. -/
def exGetvch (n : Nat) : Bytes := [Fin.ofNat n, Fin.ofNat (n / 256)]

/-- An environment for the examples. -/
def exEnv : Env where
  Hash160 := exHash160
  getvch := exGetvch
  GetAliasNetworkFee := fun h => 2500000 + h
  GetExpirationDepth := fun _ => 100
  CENT := 1000000
  MIN_AMOUNT := 10000
  MAX_TX_DATA_SIZE := 4
  SYSCOIN_TX_VERSION := 29696
  AddressToHash160 := fun a => decide (a.length = 2)
  addressGet := fun a => CTxDestination.CKeyID a.length
  IsMine := fun d => decide (d ≠ CTxDestination.CNoDestination)
  GetKeyID := fun d =>
    match d with
    | CTxDestination.CKeyID k => some k
    | _ => none
  GetKey := fun k => some (k + 1000)
  MessageHash := fun v => v.length
  SignCompact := fun k h => some [Fin.ofNat k, Fin.ofNat h]
  EncodeBase64 := fun v => v

/-- The name `"bob"`. -/
def exName : Bytes := [98, 111, 98]

/-- A nonce. -/
def exRand : Bytes := [7, 171]

/-- The hex text of `exRand`: `"07ab"`. -/
def exRandHex : Bytes := [48, 55, 97, 98]

/-- The reservation transaction `aliasnew` sends for `exName` and `exRand`. -/
def exReserveTx : CWalletTx :=
  { hash := 11, nVersion := 29696,
    vout := [{ nValue := 10000,
               scriptPubKey := [ScriptOp.opN OP_ALIAS_NEW,
                 ScriptOp.push (exHash160 (exRand ++ exName)), ScriptOp.OP_2DROP,
                 ScriptOp.payTo (CTxDestination.CKeyID 0)] }] }

/-- A claim transaction for `exName`. -/
def exClaimTx : CWalletTx :=
  { hash := 12, nVersion := 29696,
    vout := [{ nValue := 10000,
               scriptPubKey := [ScriptOp.opN OP_ALIAS_ACTIVATE, ScriptOp.push exName,
                 ScriptOp.push exRand, ScriptOp.push [1], ScriptOp.OP_2DROP, ScriptOp.OP_2DROP,
                 ScriptOp.payTo (CTxDestination.CKeyID 1)] }] }

/-- A wallet that holds a reservation for `exName`, nothing pending, no claim. -/
def exReserved : State :=
  { mapNamePending := [], mapMyNames := [(exName, 11)], mapWallet := [(11, exReserveTx)],
    fLocked := false, nKeyPool := 1, nBestHeight := 50, nameDB := [], txDisk := [],
    mapAddressBook := [(CTxDestination.CKeyID 0, [])], sendLog := [] }

/-- The state `exReserved` with an operation pending on `exName`. -/
def exPending : State := { exReserved with mapNamePending := [(exName, [12])] }

/-- The state `exReserved` with an active claim of `exName` in the wallet. -/
def exClaimed : State :=
  { exReserved with
    mapWallet := [(11, exReserveTx), (12, exClaimTx)],
    nameDB := [(exName, [{ txHash := 12, nHeight := 40, vValue := [1] }])],
    txDisk := [(12, exClaimTx)] }

/-- A wallet answer: success, the new transaction has hash 21. -/
def exSendOk : SendOracle := { strError := "", hash := 21, vchange := [] }

/-- A wallet answer: failure. -/
def exSendFail : SendOracle := { strError := "Insufficient funds", hash := 0, vchange := [] }

/-- A reservation-like transaction whose pushed commitment is only the first
ten bytes of the hash. -/
def exPrefixTx : CWalletTx :=
  { hash := 13, nVersion := 29696,
    vout := [{ nValue := 10000,
               scriptPubKey := [ScriptOp.opN OP_ALIAS_NEW,
                 ScriptOp.push ((exHash160 (exRand ++ exName)).take 10), ScriptOp.OP_2DROP,
                 ScriptOp.payTo (CTxDestination.CKeyID 0)] }] }

/-- A wallet whose reservation for `exName` is `exPrefixTx`. -/
def exPrefixState : State :=
  { exReserved with mapMyNames := [(exName, 13)], mapWallet := [(13, exPrefixTx)] }

/-- The state `exClaimed` with an operation pending on `exName` as well. -/
def exPendingClaimed : State := { exClaimed with mapNamePending := [(exName, [12])] }

/-- A wallet with no reservation record. -/
def exNoRecord : State := { exReserved with mapMyNames := [] }

/-- A wallet whose reservation record points to a transaction it does not hold. -/
def exNotHeld : State := { exReserved with mapWallet := [] }

/-- A transaction without a name output. -/
def exPlainTx : CWalletTx :=
  { hash := 14, nVersion := 1,
    vout := [{ nValue := 5, scriptPubKey := [ScriptOp.payTo (CTxDestination.CKeyID 3)] }] }

/-- A wallet whose reservation record points to `exPlainTx`. -/
def exPlainState : State :=
  { exReserved with mapMyNames := [(exName, 14)], mapWallet := [(14, exPlainTx)] }

/-- A wallet whose reservation record points to the claim `exClaimTx`. -/
def exNotNewState : State :=
  { exReserved with mapMyNames := [(exName, 12)], mapWallet := [(12, exClaimTx)] }

/-- The hex text `"07ac"` of another nonce. -/
def exOtherHex : Bytes := [48, 55, 97, 99]

/-! ## The read-only commands -/

/-- A JSON value as the read-only commands build it (`json_spirit::Value`). -/
inductive Value
  | str (s : Bytes)       -- a string
  | int (n : Int)         -- an `int`
  | hex (h : uint256)     -- `GetHex()` of a hash
  deriving DecidableEq, Repr

/-- A JSON object (`json_spirit::Object`): the pairs in the order they were
pushed. -/
abbrev Object := List (String × Value)

/-- The helpers of the read-only commands that are declared outside
`rpcwallet.cpp`; they are parameters of the embedding. -/
structure ReadEnv where
  GetNameDisplayExpirationDepth : Int → Int
  -- `GetValueOfNameTxHash(txHash, vchValue, hash, nHeight)`: value, hash, height
  GetValueOfNameTxHash : uint256 → Option (Bytes × uint256 × Int)
  -- the address text `GetNameAddress(tx, strAddress)` leaves in `strAddress`
  GetNameAddress : CTransaction → Bytes
  -- `regex_search(name, nameparts, sregex::compile(strRegexp))`: name, then pattern
  regex_search : Bytes → Bytes → Bool
  -- `pnamedb->ScanNames(vchName, nMax, nameScan)`: `none` when the scan fails
  ScanNames : List (Bytes × List CNameIndex) → Bytes → Int → Option (List (Bytes × CNameIndex))

/-- The call `pnamedb->ReadName(vchName, vtxPos)`: the stored history, `none`
when the index has no entry to read for the name. -/
def ReadName (s : State) (vchName : Bytes) : Option (List CNameIndex) :=
  mapFind s.nameDB vchName

/-- The call `GetTransaction(txHash, tx, blockHash, true)`: the transaction,
`none` when it cannot be read. -/
def GetTransaction (s : State) (txHash : uint256) : Option CTransaction :=
  mapFind s.txDisk txHash

/-- The value `nHeight + GetNameDisplayExpirationDepth(nHeight) - pindexBest->nHeight`
the read-only commands compute (in `int`; heights are far from the overflow of
`int`, which is not modelled). -/
def expiresIn (renv : ReadEnv) (s : State) (nHeight : Int) : Int :=
  nHeight + renv.GetNameDisplayExpirationDepth nHeight - s.nBestHeight

/-- The object `aliasshow` (1531-1541) and `aliashistory` (1588-1598) build
for a record: name, value, txid, address, expires_in, and the expired flag
when `expires_in <= 0`. -/
def nameObject (renv : ReadEnv) (s : State) (vchName : Bytes) (tx : CTransaction)
    (vchValue : Bytes) (nHeight : Int) : Object :=
  [("name", Value.str vchName), ("value", Value.str vchValue), ("txid", Value.hex tx.hash),
   ("address", Value.str (renv.GetNameAddress tx)),
   ("expires_in", Value.int (expiresIn renv s nHeight))] ++
  (if expiresIn renv s nHeight ≤ 0 then [("expired", Value.int 1)] else [])

/-- The command `aliasshow <name>` (rpcwallet.cpp, 1497-1546). -/
def aliasshow (renv : ReadEnv) (s : State) (vchName : Bytes) : Except RpcError Object :=
  match ReadName s vchName with
  | none => Except.error (RpcError.json RPCErrorCode.RPC_WALLET_ERROR
      "failed to read from alias DB")
  | some vtxPos =>
    if vtxPos.length < 1 then
      Except.error (RpcError.json RPCErrorCode.RPC_WALLET_ERROR "no result returned")
    else
      let txHash := (vtxPos.getLastD { txHash := 0, nHeight := 0, vValue := [] }).txHash
      match GetTransaction s txHash with
      | none => Except.error (RpcError.json RPCErrorCode.RPC_WALLET_ERROR
          "failed to read transaction from disk")
      | some tx =>
        match renv.GetValueOfNameTxHash txHash with
        | some (vchValue, _, nHeight) => Except.ok (nameObject renv s vchName tx vchValue nHeight)
        | none => Except.ok []

/-- The loop `BOOST_FOREACH(txPos2, vtxPos)` of `aliashistory`: a record whose
transaction or value cannot be read adds nothing. -/
def aliashistoryLoop (renv : ReadEnv) (s : State) (vchName : Bytes) :
    List CNameIndex → List Object
  | [] => []
  | txPos2 :: rest =>
    match GetTransaction s txPos2.txHash with
    | none => aliashistoryLoop renv s vchName rest
    | some tx =>
      match renv.GetValueOfNameTxHash txPos2.txHash with
      | some (vchValue, _, nHeight) =>
        nameObject renv s vchName tx vchValue nHeight :: aliashistoryLoop renv s vchName rest
      | none => aliashistoryLoop renv s vchName rest

/-- The command `aliashistory <name>` (rpcwallet.cpp, 1554-1604). -/
def aliashistory (renv : ReadEnv) (s : State) (vchName : Bytes) :
    Except RpcError (List Object) :=
  match ReadName s vchName with
  | none => Except.error (RpcError.json RPCErrorCode.RPC_WALLET_ERROR
      "failed to read from alias DB")
  | some vtxPos => Except.ok (aliashistoryLoop renv s vchName vtxPos)

/-- The object `aliasfilter` (1685-1701) and `aliasscan` (1760-1785) build for
a scanned record: the name, then either the expired flag or the value and
expires_in. -/
def scanObject (renv : ReadEnv) (s : State) (vchName : Bytes) (txName : CNameIndex) : Object :=
  ("name", Value.str vchName) ::
  (if expiresIn renv s txName.nHeight ≤ 0 ∨ GetTransaction s txName.txHash = none then
    [("expired", Value.int 1)]
   else
    [("value", Value.str txName.vValue),
     ("expires_in", Value.int (expiresIn renv s txName.nHeight))])

/-- The help text `aliasscan` throws. -/
def aliasscanHelp : String :=
  "aliasscan [<start-name>] [<max-returned>]\nscan all aliases, starting at start-name and returning a maximum number of entries (default 500)\n"

/-- The command `aliasscan [<start-name>] [<max-returned>]` (rpcwallet.cpp,
1728-1790). `params.size()` is the number of parameters given. -/
def aliasscan (renv : ReadEnv) (s : State) (startName : Option Bytes)
    (maxReturned : Option Int) : Except RpcError (List Object) :=
  let nParams : Nat :=
    (match startName with
     | some _ => 1
     | none => 0) +
    (match maxReturned with
     | some _ => 1
     | none => 0)
  if 2 > nParams then Except.error (RpcError.runtime aliasscanHelp)
  else
    let vchName : Bytes := startName.getD []
    let nMax : Int := maxReturned.getD 500
    match renv.ScanNames s.nameDB vchName nMax with
    | none => Except.error (RpcError.json RPCErrorCode.RPC_WALLET_ERROR "scan failed")
    | some nameScan =>
      Except.ok (nameScan.map (fun pairScan => scanObject renv s pairScan.1 pairScan.2))

/-! ## A small concrete world for the read-only commands -/

/-- Helpers for the examples: the expiration depth is 100 at every height; the
value and height of a transaction are known for the hashes 12 and 15. -/
def exReadEnv : ReadEnv where
  GetNameDisplayExpirationDepth := fun _ => 100
  GetValueOfNameTxHash := fun h =>
    if h = 12 then some ([1], 12, 40) else if h = 15 then some ([2], 15, 60) else none
  GetNameAddress := fun _ => [65]
  regex_search := fun name pattern => pattern.isPrefixOf name
  ScanNames := fun db start nMax =>
    if nMax < 0 then none
    else some ((db.filterMap (fun p =>
      match p.2.getLast? with
      | some r => if start ≤ p.1 then some (p.1, r) else none
      | none => none)).take nMax.toNat)

/-- A second claim transaction for `exName`. -/
def exClaimTx2 : CWalletTx :=
  { hash := 15, nVersion := 29696,
    vout := [{ nValue := 10000,
               scriptPubKey := [ScriptOp.opN OP_ALIAS_UPDATE, ScriptOp.push exName,
                 ScriptOp.push [2], ScriptOp.OP_2DROP, ScriptOp.OP_DROP,
                 ScriptOp.payTo (CTxDestination.CKeyID 1)] }] }

/-- The name `"al"`. -/
def exAl : Bytes := [97, 108]

/-- The name `"bo"`. -/
def exBo : Bytes := [98, 111]

/-- The name `"cy"`. -/
def exCy : Bytes := [99, 121]

/-- A name index at best height 150 with four names: `"al"` (height 149),
`"bo"` (height 50: expired), `"bob"` (heights 40 then 60), and `"cy"` (height
148, its transaction 17 is not readable). -/
def exIndex : State :=
  { exReserved with
    nBestHeight := 150,
    nameDB := [(exAl, [{ txHash := 16, nHeight := 149, vValue := [9] }]),
               (exBo, [{ txHash := 18, nHeight := 50, vValue := [8] }]),
               (exName, [{ txHash := 12, nHeight := 40, vValue := [1] },
                         { txHash := 15, nHeight := 60, vValue := [2] }]),
               (exCy, [{ txHash := 17, nHeight := 148, vValue := [7] }])],
    txDisk := [(12, exClaimTx), (15, exClaimTx2), (16, exClaimTx), (18, exClaimTx)] }

/-- The state `exClaimed` with the claim transaction missing from the wallet:
the claim of `exName` is active, but it belongs to someone else. -/
def exClaimedElsewhere : State := { exClaimed with mapWallet := [(11, exReserveTx)] }

/-- The state `exClaimed` at height 140, where the claim made at height 40 with
expiration depth 100 has run out. -/
def exExpired : State := { exClaimed with nBestHeight := 140 }

/-- What `exReadEnv.ScanNames` enumerates on `exIndex` from the empty name: the
last record of each of the four names. -/
def exScan : List (Bytes × CNameIndex) :=
  [(exAl, { txHash := 16, nHeight := 149, vValue := [9] }),
   (exBo, { txHash := 18, nHeight := 50, vValue := [8] }),
   (exName, { txHash := 15, nHeight := 60, vValue := [2] }),
   (exCy, { txHash := 17, nHeight := 148, vValue := [7] })]

/-- The collaborators of `aliaslist` that are not under src/: the block tree's
transaction index, the height of a disk position, the ownership test, and the
version and hash of a default-constructed `CTransaction`. -/
structure ListEnv where
  ReadTxIndex : uint256 → Option Nat
  GetOfferTxPosHeight : Nat → Int
  IsAliasMine : CTransaction → Bool
  CURRENT_VERSION : Int
  nullHash : uint256

/-- The transaction `CTransaction tx;` as its constructor leaves it: the
current version, no inputs and no outputs. -/
def nullTx (lenv : ListEnv) : CTransaction :=
  { hash := lenv.nullHash, nVersion := lenv.CURRENT_VERSION, vout := [] }

/-- The first output of a transaction that decodes as a name script. -/
def nameOutput : List CTxOut → Option (Nat × List Bytes)
  | [] => none
  | out :: rest =>
    match DecodeNameScript out.scriptPubKey with
    | some r => some r
    | none => nameOutput rest

/-- Modelled from the spec: `GetNameOfTx` (alias.cpp is not under src/): the
name an ACTIVATE or UPDATE output carries as its first pushed datum; a RESERVE
output carries only the commitment, so it names nothing. -/
def GetNameOfTx (tx : CTransaction) : Option Bytes :=
  match nameOutput tx.vout with
  | some (op, vvch) => if op = OP_ALIAS_NEW then none else some (vvch.headD [])
  | none => none

/-- Modelled from the spec: `GetValueOfNameTx` (alias.cpp is not under src/):
the value of an ACTIVATE output (third datum) or of an UPDATE output (second
datum). -/
def GetValueOfNameTx (tx : CTransaction) : Option Bytes :=
  match nameOutput tx.vout with
  | some (op, vvch) =>
    if op = OP_ALIAS_ACTIVATE then some (vvch.getD 2 [])
    else if op = OP_ALIAS_UPDATE then some (vvch.getD 1 [])
    else none
  | none => none

/-- The variables the loop of `aliaslist` carries from one wallet entry to the
next: the two maps and the wallet (`mapWallet[...]` may insert). -/
structure ListAcc where
  vNamesI : List (Bytes × Int)
  vNamesO : List (Bytes × Object)
  mapWallet : List (uint256 × CWalletTx)

/-- One pass of the loop `BOOST_FOREACH(item, pwalletMain->mapWallet)` of
`aliaslist` (1439-1483). The variable `tx` is declared before the loop and is
never assigned: every test reads the default-constructed transaction. -/
def aliaslistStep (lenv : ListEnv) (renv : ReadEnv) (env : Env) (s : State)
    (vchNameUniq : Bytes) (acc : ListAcc) (item : uint256 × CWalletTx) : ListAcc :=
  let tx := nullTx lenv
  let hash := item.2.hash
  match lenv.ReadTxIndex hash with
  | none => acc
  | some txindex =>
    if tx.nVersion ≠ env.SYSCOIN_TX_VERSION then acc
    else
      match GetNameOfTx tx with
      | none => acc
      | some vchName =>
        if vchNameUniq.length > 0 ∧ vchNameUniq ≠ vchName then acc
        else
          match GetValueOfNameTx tx with
          | none => acc
          | some vchValue =>
            let nHeight := lenv.GetOfferTxPosHeight txindex
            let wtx := mapIndex (nullTx lenv) acc.mapWallet tx.hash
            let oName : Object :=
              [("name", Value.str vchName), ("value", Value.str vchValue)] ++
              (if lenv.IsAliasMine wtx.1 then [] else [("transferred", Value.int 1)]) ++
              [("address", Value.str (renv.GetNameAddress tx)),
               ("expires_in", Value.int (expiresIn renv s nHeight))] ++
              (if expiresIn renv s nHeight ≤ 0 then [("expired", Value.int 1)] else [])
            -- get last active name only
            if mapFind acc.vNamesI vchName ≠ none ∧
                (mapIndex 0 acc.vNamesI vchName).1 > nHeight then
              { acc with mapWallet := wtx.2 }
            else
              { vNamesI := mapAssign acc.vNamesI vchName nHeight,
                vNamesO := mapAssign acc.vNamesO vchName oName,
                mapWallet := wtx.2 }

/-- The help text `aliaslist` throws. -/
def aliaslistHelp : String := "aliaslist [<name>]\nlist my own aliases"

/-- The command `aliaslist [<name>]` (rpcwallet.cpp, 1408-1489). The entries
of `vNamesO` are returned in the order of their keys. -/
def aliaslist (lenv : ListEnv) (renv : ReadEnv) (env : Env) (s : State)
    (name : Option Bytes) : Except RpcError (List Object) × State :=
  match name with
  | none => (Except.error (RpcError.runtime aliaslistHelp), s)
  | some vchNameUniq =>
    let acc := s.mapWallet.foldl (aliaslistStep lenv renv env s vchNameUniq)
      { vNamesI := [], vNamesO := [], mapWallet := s.mapWallet }
    (Except.ok ((acc.vNamesO.insertionSort (fun a b => a.1 ≤ b.1)).map (fun p => p.2)),
      { s with mapWallet := acc.mapWallet })

/-- A block tree that indexes every transaction at the position of its hash,
with the height equal to the position. -/
def exListEnv : ListEnv where
  ReadTxIndex := fun h => some h
  GetOfferTxPosHeight := fun p => p
  IsAliasMine := fun _ => true
  CURRENT_VERSION := 1
  nullHash := 0

/-- A name of 256 bytes, one more than the 255 the help of `aliasnew` allows. -/
def exLongName : Bytes := List.replicate 256 97

/-- The error `aliasactivate` throws for each failed check (none when the
checks pass). -/
def activateErrorAlias : ActivateCheck → Option RpcError
  | ActivateCheck.pending => some (RpcError.runtime "there are pending operations on that alias")
  | ActivateCheck.alreadyActive => some (RpcError.runtime "this alias is already active")
  | ActivateCheck.locked => some (RpcError.json RPCErrorCode.RPC_WALLET_UNLOCK_NEEDED
      "Error: Please enter the wallet passphrase with walletpassphrase first.")
  | ActivateCheck.noReservation => some (RpcError.runtime
      "could not find a coin with this alias, try specifying the aliasnew transaction id")
  | ActivateCheck.notInWallet => some (RpcError.runtime "previous transaction is not in the wallet")
  | ActivateCheck.notNew => some (RpcError.runtime "previous transaction wasn't a aliasnew")
  | ActivateCheck.notAlias => some (RpcError.runtime "previous tx on alias name is not an alias tx")
  | ActivateCheck.mismatch => some (RpcError.runtime "previous tx used a different random value")
  | ActivateCheck.pass _ => none

/-- The error `dataactivate` throws for each failed check (none when the
checks pass). -/
def activateErrorData : ActivateCheck → Option RpcError
  | ActivateCheck.pending => some (RpcError.runtime "there are pending operations on that data")
  | ActivateCheck.alreadyActive => some (RpcError.runtime "this data is already active")
  | ActivateCheck.locked => some (RpcError.json RPCErrorCode.RPC_WALLET_UNLOCK_NEEDED
      "Error: Please enter the wallet passphrase with walletpassphrase first.")
  | ActivateCheck.noReservation => some (RpcError.runtime
      "could not find any data with this name, try specifying the datanew transaction id")
  | ActivateCheck.notInWallet => some (RpcError.runtime "previous transaction is not in the wallet")
  | ActivateCheck.notNew => some (RpcError.runtime "previous transaction wasn't a datanew")
  | ActivateCheck.notAlias => some (RpcError.runtime "previous tx on this data is not a syscoin tx")
  | ActivateCheck.mismatch => some (RpcError.runtime "previous tx used a different random value")
  | ActivateCheck.pass _ => none

/-- The call of transaction construction an update command makes once its
checks have passed, with the fee it hands over. -/
def updateCall (env : Env) (s : State) (vchName vchValue : Bytes) (toAddress : Option Bytes)
    (nNetFee : Int) (wtxIn : CWalletTx) : SendCall :=
  { fWithInputTx := true,
    scriptPubKey := updateScript vchName vchValue (updateDest env s toAddress),
    nValue := env.MIN_AMOUNT,
    nNetFee := nNetFee,
    wtxIn := some wtxIn.hash,
    txdata := [] }

/-- An address book with two own addresses, whose keys differ. -/
def exTwoBook : List (CTxDestination × Bytes) :=
  [(CTxDestination.CKeyID 0, []), (CTxDestination.CKeyID 1, [])]

/-- The wallet `exClaimed` with the address book `exTwoBook`. -/
def exTwoKeysClaimed : State := { exClaimed with mapAddressBook := exTwoBook }

/-- The wallet `exReserved` with the address book `exTwoBook`. -/
def exTwoKeysReserved : State := { exReserved with mapAddressBook := exTwoBook }

/-- A second wallet answer: success, the new transaction has hash 22. -/
def exSendOk2 : SendOracle := { strError := "", hash := 22, vchange := [] }

/-- The name made of the last byte of `exRand` followed by `exName`. -/
def exShiftedName : Bytes := [171, 98, 111, 98]

/-- The index `exIndex` seen at best height 160, where the record of height 60
has `expires_in = 0`. -/
def exIndexAt160 : State := { exIndex with nBestHeight := 160 }

/-- The index `exIndex` seen at best height 159, where the record of height 60
has `expires_in = 1`. -/
def exIndexAt159 : State := { exIndex with nBestHeight := 159 }

/-! ## Lemmas on the maps -/

theorem mapFind_filter_ne {K V : Type} [DecidableEq K] (m : List (K × V)) (k k2 : K)
    (h : k2 ≠ k) : mapFind (m.filter (fun p => decide (p.1 ≠ k))) k2 = mapFind m k2 := by
  induction m with
  | nil => rfl
  | cons p rest ih =>
    obtain ⟨k1, v1⟩ := p
    by_cases h1 : k1 = k
    · subst h1
      simp only [List.filter, ne_eq, not_true_eq_false, decide_False, mapFind, h, if_false]
      exact ih
    · simp only [List.filter, h1, ne_eq, not_false_eq_true, decide_True, mapFind]
      rw [ih]

theorem mapFind_mapAssign {K V : Type} [DecidableEq K] (m : List (K × V)) (k k2 : K) (v : V) :
    mapFind (mapAssign m k v) k2 = if k2 = k then some v else mapFind m k2 := by
  unfold mapAssign
  by_cases h : k2 = k
  · simp [mapFind, h]
  · simp only [mapFind, h, if_false]
    exact mapFind_filter_ne m k k2 h

theorem mapCount_ne_zero {K V : Type} [DecidableEq K] (m : List (K × V)) (k : K) :
    mapCount m k ≠ 0 ↔ ∃ v, mapFind m k = some v := by
  unfold mapCount
  cases h : mapFind m k <;> simp

theorem mapCount_eq_zero {K V : Type} [DecidableEq K] (m : List (K × V)) (k : K) :
    mapCount m k = 0 ↔ mapFind m k = none := by
  unfold mapCount
  cases h : mapFind m k <;> simp

theorem mapIndex_of_find {K V : Type} [DecidableEq K] (d : V) (m : List (K × V)) (k : K) (v : V)
    (h : mapFind m k = some v) : mapIndex d m k = (v, m) := by
  simp [mapIndex, h]

theorem mapIndex_snd_of_count {K V : Type} [DecidableEq K] (d : V) (m : List (K × V)) (k : K)
    (h : mapCount m k ≠ 0) : (mapIndex d m k).2 = m := by
  obtain ⟨v, hv⟩ := (mapCount_ne_zero m k).1 h
  simp [mapIndex, hv]

theorem pendingCond_snd (m : List (Bytes × List uint256)) (k : Bytes) :
    (pendingCond m k).2 = m := by
  unfold pendingCond
  split
  · rename_i h
    exact mapIndex_snd_of_count _ m k h
  · rfl

/-! ## The commands as their checks followed by the send -/

theorem aliasactivate_eq (env : Env) (s : State) (vchName strRand : Bytes)
    (txParam : Option uint256) (vchValue : Bytes) (o : SendOracle) :
    aliasactivate env s vchName strRand txParam vchValue o =
      match activateCheck env s vchName (ParseHex strRand) txParam with
      | ActivateCheck.pending =>
        (Except.error (RpcError.runtime "there are pending operations on that alias"), s)
      | ActivateCheck.alreadyActive =>
        (Except.error (RpcError.runtime "this alias is already active"), s)
      | ActivateCheck.locked =>
        (Except.error (RpcError.json RPCErrorCode.RPC_WALLET_UNLOCK_NEEDED
          "Error: Please enter the wallet passphrase with walletpassphrase first."), s)
      | ActivateCheck.noReservation =>
        (Except.error (RpcError.runtime
          "could not find a coin with this alias, try specifying the aliasnew transaction id"), s)
      | ActivateCheck.notInWallet =>
        (Except.error (RpcError.runtime "previous transaction is not in the wallet"), s)
      | ActivateCheck.notNew =>
        (Except.error (RpcError.runtime "previous transaction wasn't a aliasnew"),
          (GetKeyFromPool s).2)
      | ActivateCheck.notAlias =>
        (Except.error (RpcError.runtime "previous tx on alias name is not an alias tx"),
          (GetKeyFromPool s).2)
      | ActivateCheck.mismatch =>
        (Except.error (RpcError.runtime "previous tx used a different random value"),
          (GetKeyFromPool s).2)
      | ActivateCheck.pass wtxIn =>
        sendOutcome (activateSend env s vchName (ParseHex strRand) vchValue wtxIn [] o) := by
  unfold aliasactivate activateCheck
  simp only [pendingCond_snd]
  by_cases hp : (pendingCond s.mapNamePending vchName).1 = true
  · simp only [if_pos hp]
  simp only [if_neg hp]
  cases hg : GetTxOfName env s vchName
  swap
  · simp only
  simp only [EnsureWalletIsUnlocked]
  by_cases hl : s.fLocked = true
  · simp only [if_pos hl]
  simp only [if_neg hl]
  cases txParam with
  | none =>
    simp only [resolveWtxIn, true_and]
    cases hm : mapFind s.mapMyNames vchName with
    | none =>
      have hc : mapCount s.mapMyNames vchName = 0 := (mapCount_eq_zero _ _).2 hm
      simp only [if_pos hc]
    | some h =>
      have hc : ¬ (mapCount s.mapMyNames vchName = 0) := by
        rw [mapCount_eq_zero, hm]; simp
      simp only [if_neg hc, mapIndex_of_find 0 s.mapMyNames vchName h hm]
      cases hw : mapFind s.mapWallet h with
      | none =>
        have hcw : mapCount s.mapWallet h = 0 := (mapCount_eq_zero _ _).2 hw
        simp only [hcw, if_true]
      | some wtxIn =>
        have hcw : ¬ (mapCount s.mapWallet h = 0) := by
          rw [mapCount_eq_zero, hw]; simp
        have hiw := mapIndex_of_find { hash := 0, nVersion := 0, vout := [] } s.mapWallet h wtxIn hw
        simp only [hcw, if_false, GetKeyFromPool, hiw]
        cases hs : scanVout wtxIn.vout with
        | notNew => simp only
        | notFound => simp only
        | found vchHash =>
          simp only [commitmentDiffers, decide_eq_true_eq]
          by_cases hh : vchHash = env.Hash160 (ParseHex strRand ++ vchName)
          · simp only [hh, ne_eq, not_true_eq_false, if_false, activateScript, SetDestination,
              List.cons_append, List.nil_append, sendOutcome, activateSend, GetKeyFromPool]
          · simp only [hh, ne_eq, not_false_eq_true, if_true]
  | some h =>
    have hn : ¬ (some h = none ∧ mapCount s.mapMyNames vchName = 0) := by simp
    simp only [resolveWtxIn, if_neg hn]
    cases hw : mapFind s.mapWallet h with
    | none =>
      have hcw : mapCount s.mapWallet h = 0 := (mapCount_eq_zero _ _).2 hw
      simp only [hcw, if_true]
    | some wtxIn =>
      have hcw : ¬ (mapCount s.mapWallet h = 0) := by
        rw [mapCount_eq_zero, hw]; simp
      have hiw := mapIndex_of_find { hash := 0, nVersion := 0, vout := [] } s.mapWallet h wtxIn hw
      simp only [hcw, if_false, GetKeyFromPool, hiw]
      cases hs : scanVout wtxIn.vout with
      | notNew => simp only
      | notFound => simp only
      | found vchHash =>
        simp only [commitmentDiffers, decide_eq_true_eq]
        by_cases hh : vchHash = env.Hash160 (ParseHex strRand ++ vchName)
        · simp only [hh, ne_eq, not_true_eq_false, if_false, activateScript, SetDestination,
            List.cons_append, List.nil_append, sendOutcome, activateSend, GetKeyFromPool]
        · simp only [hh, ne_eq, not_false_eq_true, if_true]

theorem sendOutcome_pair (r : SendResult) (b : Bytes) :
    (if r.strError ≠ "" then
        ((Except.error (RpcError.json RPCErrorCode.RPC_WALLET_ERROR r.strError) :
            Except RpcError (Bytes × uint256)), r.state)
      else (Except.ok (b, r.wtx.hash), r.state)) =
      ((sendOutcome r).1.map (fun h => (b, h)), (sendOutcome r).2) := by
  unfold sendOutcome
  split <;> rfl

theorem dataactivate_eq (env : Env) (s : State) (vchName strRand : Bytes)
    (txParam : Option uint256) (txdata : Bytes) (o : SendOracle) :
    dataactivate env s vchName strRand txParam txdata o =
      if txdata.length > env.MAX_TX_DATA_SIZE then
        (Except.error (RpcError.json RPCErrorCode.RPC_INVALID_PARAMETER
          "Data chunk is too long.  Split the payload to several transactions."), s)
      else
      match signLoopActivate env txdata s.mapAddressBook with
      | Except.error e => (Except.error e, s)
      | Except.ok baSig =>
      match activateCheck env s vchName (ParseHex strRand) txParam with
      | ActivateCheck.pending =>
        (Except.error (RpcError.runtime "there are pending operations on that data"), s)
      | ActivateCheck.alreadyActive =>
        (Except.error (RpcError.runtime "this data is already active"), s)
      | ActivateCheck.locked =>
        (Except.error (RpcError.json RPCErrorCode.RPC_WALLET_UNLOCK_NEEDED
          "Error: Please enter the wallet passphrase with walletpassphrase first."), s)
      | ActivateCheck.noReservation =>
        (Except.error (RpcError.runtime
          "could not find any data with this name, try specifying the datanew transaction id"), s)
      | ActivateCheck.notInWallet =>
        (Except.error (RpcError.runtime "previous transaction is not in the wallet"), s)
      | ActivateCheck.notNew =>
        (Except.error (RpcError.runtime "previous transaction wasn't a datanew"),
          (GetKeyFromPool s).2)
      | ActivateCheck.notAlias =>
        (Except.error (RpcError.runtime "previous tx on this data is not a syscoin tx"),
          (GetKeyFromPool s).2)
      | ActivateCheck.mismatch =>
        (Except.error (RpcError.runtime "previous tx used a different random value"),
          (GetKeyFromPool s).2)
      | ActivateCheck.pass wtxIn =>
        ((sendOutcome (activateSend env s vchName (ParseHex strRand) baSig wtxIn txdata o)).1.map
            (fun h => (baSig, h)),
         (sendOutcome (activateSend env s vchName (ParseHex strRand) baSig wtxIn txdata o)).2) := by
  unfold dataactivate activateCheck
  by_cases hlen : txdata.length > env.MAX_TX_DATA_SIZE
  · simp only [if_pos hlen]
  simp only [if_neg hlen]
  cases hsig : signLoopActivate env txdata s.mapAddressBook with
  | error e => simp only
  | ok baSig =>
  simp only [pendingCond_snd]
  by_cases hp : (pendingCond s.mapNamePending vchName).1 = true
  · simp only [if_pos hp]
  simp only [if_neg hp]
  cases hg : GetTxOfName env s vchName
  swap
  · simp only
  simp only [EnsureWalletIsUnlocked]
  by_cases hl : s.fLocked = true
  · simp only [if_pos hl]
  simp only [if_neg hl]
  cases txParam with
  | none =>
    simp only [resolveWtxIn, true_and]
    cases hm : mapFind s.mapMyNames vchName with
    | none =>
      have hc : mapCount s.mapMyNames vchName = 0 := (mapCount_eq_zero _ _).2 hm
      simp only [if_pos hc]
    | some h =>
      have hc : ¬ (mapCount s.mapMyNames vchName = 0) := by
        rw [mapCount_eq_zero, hm]; simp
      simp only [if_neg hc, mapIndex_of_find 0 s.mapMyNames vchName h hm]
      cases hw : mapFind s.mapWallet h with
      | none =>
        have hcw : mapCount s.mapWallet h = 0 := (mapCount_eq_zero _ _).2 hw
        simp only [hcw, if_true]
      | some wtxIn =>
        have hcw : ¬ (mapCount s.mapWallet h = 0) := by
          rw [mapCount_eq_zero, hw]; simp
        have hiw := mapIndex_of_find { hash := 0, nVersion := 0, vout := [] } s.mapWallet h wtxIn hw
        simp only [hcw, if_false, GetKeyFromPool, hiw]
        cases hs : scanVout wtxIn.vout with
        | notNew => simp only
        | notFound => simp only
        | found vchHash =>
          simp only [commitmentDiffers, decide_eq_true_eq]
          by_cases hh : vchHash = env.Hash160 (ParseHex strRand ++ vchName)
          · simp only [hh, ne_eq, not_true_eq_false, if_false, activateScript, SetDestination,
              List.cons_append, List.nil_append, activateSend, GetKeyFromPool]
            exact sendOutcome_pair _ _
          · simp only [hh, ne_eq, not_false_eq_true, if_true]
  | some h =>
    have hn : ¬ (some h = none ∧ mapCount s.mapMyNames vchName = 0) := by simp
    simp only [resolveWtxIn, if_neg hn]
    cases hw : mapFind s.mapWallet h with
    | none =>
      have hcw : mapCount s.mapWallet h = 0 := (mapCount_eq_zero _ _).2 hw
      simp only [hcw, if_true]
    | some wtxIn =>
      have hcw : ¬ (mapCount s.mapWallet h = 0) := by
        rw [mapCount_eq_zero, hw]; simp
      have hiw := mapIndex_of_find { hash := 0, nVersion := 0, vout := [] } s.mapWallet h wtxIn hw
      simp only [hcw, if_false, GetKeyFromPool, hiw]
      cases hs : scanVout wtxIn.vout with
      | notNew => simp only
      | notFound => simp only
      | found vchHash =>
        simp only [commitmentDiffers, decide_eq_true_eq]
        by_cases hh : vchHash = env.Hash160 (ParseHex strRand ++ vchName)
        · simp only [hh, ne_eq, not_true_eq_false, if_false, activateScript, SetDestination,
            List.cons_append, List.nil_append, activateSend, GetKeyFromPool]
          exact sendOutcome_pair _ _
        · simp only [hh, ne_eq, not_false_eq_true, if_true]

theorem GetTxOfName_updateKeyState (env : Env) (s : State) (a : Option Bytes) (vchName : Bytes) :
    GetTxOfName env (updateKeyState s a) vchName = GetTxOfName env s vchName := by
  cases a <;> rfl

theorem aliasupdate_eq (env : Env) (s : State) (vchName vchValue : Bytes)
    (toAddress : Option Bytes) (o : SendOracle) :
    aliasupdate env s vchName vchValue toAddress o =
      if badAddress env toAddress then
        (Except.error (RpcError.json RPCErrorCode.RPC_INVALID_ADDRESS_OR_KEY
          "Invalid syscoin address"), s)
      else
      match updateCheck env (updateKeyState s toAddress) vchName with
      | UpdateCheck.pending =>
        (Except.error (RpcError.runtime "there are pending operations on that alias"),
          updateKeyState s toAddress)
      | UpdateCheck.locked =>
        (Except.error (RpcError.json RPCErrorCode.RPC_WALLET_UNLOCK_NEEDED
          "Error: Please enter the wallet passphrase with walletpassphrase first."),
          updateKeyState s toAddress)
      | UpdateCheck.noClaim =>
        (Except.error (RpcError.runtime "could not find an alias with this name"),
          updateKeyState s toAddress)
      | UpdateCheck.notInWallet =>
        (Except.error (RpcError.runtime "this alias is not in your wallet"),
          updateKeyState s toAddress)
      | UpdateCheck.pass wtxIn =>
        sendOutcome (SendMoneyWithInputTx (updateKeyState s toAddress) o
          (updateScript vchName vchValue (updateDest env s toAddress)) env.MIN_AMOUNT
          (roundUpToCENT env (env.GetAliasNetworkFee s.nBestHeight)) wtxIn
          env.SYSCOIN_TX_VERSION []) := by
  unfold aliasupdate updateCheck
  cases toAddress with
  | some a =>
    simp only [badAddress, updateKeyState, updateDest]
    by_cases hb : (!env.AddressToHash160 a) = true
    · simp only [if_pos hb]
    simp only [if_neg hb, pendingCond_snd]
    by_cases hp : (pendingCond s.mapNamePending vchName).1 = true
    · simp only [if_pos hp]
    simp only [if_neg hp, EnsureWalletIsUnlocked]
    by_cases hl : s.fLocked = true
    · simp only [if_pos hl]
    simp only [if_neg hl]
    cases hg : GetTxOfName env s vchName with
    | none => simp only
    | some tx =>
      simp only
      cases hw : mapFind s.mapWallet tx.hash with
      | none =>
        have hcw : mapCount s.mapWallet tx.hash = 0 := (mapCount_eq_zero _ _).2 hw
        simp only [hcw, if_true]
      | some wtxIn =>
        have hcw : ¬ (mapCount s.mapWallet tx.hash = 0) := by
          rw [mapCount_eq_zero, hw]; simp
        have hiw := mapIndex_of_find { hash := 0, nVersion := 0, vout := [] } s.mapWallet
          tx.hash wtxIn hw
        simp only [hcw, if_false, hiw, sendOutcome, updateScript, SetDestination,
          List.cons_append, List.nil_append]
  | none =>
    have hg0 : ∀ n, GetTxOfName env (GetKeyFromPool s).2 n = GetTxOfName env s n := fun _ => rfl
    simp only [badAddress, updateKeyState, updateDest, Bool.false_eq_true, if_false,
      pendingCond_snd, hg0]
    by_cases hp : (pendingCond (GetKeyFromPool s).2.mapNamePending vchName).1 = true
    · simp only [if_pos hp]
    simp only [if_neg hp, EnsureWalletIsUnlocked]
    by_cases hl : (GetKeyFromPool s).2.fLocked = true
    · simp only [if_pos hl]
    simp only [if_neg hl]
    cases hg : GetTxOfName env s vchName with
    | none => simp only
    | some tx =>
      simp only
      cases hw : mapFind (GetKeyFromPool s).2.mapWallet tx.hash with
      | none =>
        have hcw : mapCount (GetKeyFromPool s).2.mapWallet tx.hash = 0 :=
          (mapCount_eq_zero _ _).2 hw
        simp only [hcw, if_true]
      | some wtxIn =>
        have hcw : ¬ (mapCount (GetKeyFromPool s).2.mapWallet tx.hash = 0) := by
          rw [mapCount_eq_zero, hw]; simp
        have hiw := mapIndex_of_find { hash := 0, nVersion := 0, vout := [] }
          (GetKeyFromPool s).2.mapWallet tx.hash wtxIn hw
        simp only [hcw, if_false, hiw, sendOutcome, updateScript, SetDestination,
          List.cons_append, List.nil_append]
        rfl

theorem dataupdate_eq (env : Env) (s : State) (vchName txdata : Bytes)
    (toAddress : Option Bytes) (o : SendOracle) :
    dataupdate env s vchName txdata toAddress o =
      if txdata.length > env.MAX_TX_DATA_SIZE then
        (Except.error (RpcError.json RPCErrorCode.RPC_INVALID_PARAMETER
          "Data chunk is too long.  Split the payload to several transactions."), s)
      else
      match signLoopUpdate env txdata s.mapAddressBook [] with
      | Except.error e => (Except.error e, s)
      | Except.ok baSig =>
      if badAddress env toAddress then
        (Except.error (RpcError.json RPCErrorCode.RPC_INVALID_ADDRESS_OR_KEY
          "Invalid syscoin address"), s)
      else
      match updateCheck env (updateKeyState s toAddress) vchName with
      | UpdateCheck.pending =>
        (Except.error (RpcError.runtime "there are pending operations on that data"),
          updateKeyState s toAddress)
      | UpdateCheck.locked =>
        (Except.error (RpcError.json RPCErrorCode.RPC_WALLET_UNLOCK_NEEDED
          "Error: Please enter the wallet passphrase with walletpassphrase first."),
          updateKeyState s toAddress)
      | UpdateCheck.noClaim =>
        (Except.error (RpcError.runtime "could not find this data+-in your wallet"),
          updateKeyState s toAddress)
      | UpdateCheck.notInWallet =>
        (Except.error (RpcError.runtime "this data is not in your wallet"),
          updateKeyState s toAddress)
      | UpdateCheck.pass wtxIn =>
        ((sendOutcome (SendMoneyWithInputTx (updateKeyState s toAddress) o
            (updateScript vchName baSig (updateDest env s toAddress)) env.MIN_AMOUNT
            0 wtxIn env.SYSCOIN_TX_VERSION [])).1.map (fun h => (baSig, h)),
         (sendOutcome (SendMoneyWithInputTx (updateKeyState s toAddress) o
            (updateScript vchName baSig (updateDest env s toAddress)) env.MIN_AMOUNT
            0 wtxIn env.SYSCOIN_TX_VERSION [])).2) := by
  unfold dataupdate updateCheck
  by_cases hlen : txdata.length > env.MAX_TX_DATA_SIZE
  · simp only [if_pos hlen]
  simp only [if_neg hlen]
  cases hsig : signLoopUpdate env txdata s.mapAddressBook [] with
  | error e => simp only
  | ok baSig =>
  cases toAddress with
  | some a =>
    simp only [badAddress, updateKeyState, updateDest]
    by_cases hb : (!env.AddressToHash160 a) = true
    · simp only [if_pos hb]
    simp only [if_neg hb, pendingCond_snd]
    by_cases hp : (pendingCond s.mapNamePending vchName).1 = true
    · simp only [if_pos hp]
    simp only [if_neg hp, EnsureWalletIsUnlocked]
    by_cases hl : s.fLocked = true
    · simp only [if_pos hl]
    simp only [if_neg hl]
    cases hg : GetTxOfName env s vchName with
    | none => simp only
    | some tx =>
      simp only
      cases hw : mapFind s.mapWallet tx.hash with
      | none =>
        have hcw : mapCount s.mapWallet tx.hash = 0 := (mapCount_eq_zero _ _).2 hw
        simp only [hcw, if_true]
      | some wtxIn =>
        have hcw : ¬ (mapCount s.mapWallet tx.hash = 0) := by
          rw [mapCount_eq_zero, hw]; simp
        have hiw := mapIndex_of_find { hash := 0, nVersion := 0, vout := [] } s.mapWallet
          tx.hash wtxIn hw
        simp only [hcw, if_false, hiw, updateScript, SetDestination,
          List.cons_append, List.nil_append]
        exact sendOutcome_pair _ _
  | none =>
    have hg0 : ∀ n, GetTxOfName env (GetKeyFromPool s).2 n = GetTxOfName env s n := fun _ => rfl
    simp only [badAddress, updateKeyState, updateDest, Bool.false_eq_true, if_false,
      pendingCond_snd, hg0]
    by_cases hp : (pendingCond (GetKeyFromPool s).2.mapNamePending vchName).1 = true
    · simp only [if_pos hp]
    simp only [if_neg hp, EnsureWalletIsUnlocked]
    by_cases hl : (GetKeyFromPool s).2.fLocked = true
    · simp only [if_pos hl]
    simp only [if_neg hl]
    cases hg : GetTxOfName env s vchName with
    | none => simp only
    | some tx =>
      simp only
      cases hw : mapFind (GetKeyFromPool s).2.mapWallet tx.hash with
      | none =>
        have hcw : mapCount (GetKeyFromPool s).2.mapWallet tx.hash = 0 :=
          (mapCount_eq_zero _ _).2 hw
        simp only [hcw, if_true]
      | some wtxIn =>
        have hcw : ¬ (mapCount (GetKeyFromPool s).2.mapWallet tx.hash = 0) := by
          rw [mapCount_eq_zero, hw]; simp
        have hiw := mapIndex_of_find { hash := 0, nVersion := 0, vout := [] }
          (GetKeyFromPool s).2.mapWallet tx.hash wtxIn hw
        simp only [hcw, if_false, hiw, updateScript, SetDestination,
          List.cons_append, List.nil_append]
        exact sendOutcome_pair _ _

/-! ## What a send does to the state -/

theorem sendTx_sendLog (s : State) (o : SendOracle) (call : SendCall) (v : Int) :
    (sendTx s o call v).state.sendLog = s.sendLog ++ [call] := by
  unfold sendTx
  split <;> rfl

theorem sendTx_mapMyNames (s : State) (o : SendOracle) (call : SendCall) (v : Int) :
    (sendTx s o call v).state.mapMyNames = s.mapMyNames := by
  unfold sendTx
  split <;> rfl

theorem sendTx_strError (s : State) (o : SendOracle) (call : SendCall) (v : Int) :
    (sendTx s o call v).strError = o.strError := by
  unfold sendTx
  split
  · rfl
  · rename_i h
    simp only [ne_eq, not_not] at h
    exact h.symm

theorem sendTx_hash (s : State) (o : SendOracle) (call : SendCall) (v : Int) :
    (sendTx s o call v).wtx.hash = o.hash := by
  unfold sendTx
  split <;> rfl

theorem sendTx_pending_of_error (s : State) (o : SendOracle) (call : SendCall) (v : Int)
    (h : o.strError ≠ "") :
    (sendTx s o call v).state.mapNamePending = s.mapNamePending := by
  unfold sendTx
  rw [if_pos h]

theorem sendTx_pending_of_ok (s : State) (o : SendOracle) (call : SendCall) (v : Int)
    (h : o.strError = "") :
    (sendTx s o call v).state.mapNamePending =
      registerPending s.mapNamePending call.scriptPubKey o.hash := by
  unfold sendTx
  rw [if_neg (by simpa using h)]

/-! ## The pending gate -/

theorem pendingCond_eq_HasPending (s : State) (vchName : Bytes) :
    (pendingCond s.mapNamePending vchName).1 = HasPending s vchName := by
  unfold pendingCond HasPending
  cases h : mapFind s.mapNamePending vchName with
  | none =>
    have hc : mapCount s.mapNamePending vchName = 0 := (mapCount_eq_zero _ _).2 h
    simp [hc]
  | some set =>
    have hc : mapCount s.mapNamePending vchName ≠ 0 := by
      rw [mapCount_ne_zero]; exact ⟨set, h⟩
    simp only [hc, ne_eq, not_false_eq_true, if_true, mapIndex_of_find [] _ _ set h]
    cases set <;> simp

theorem HasPending_updateKeyState (s : State) (a : Option Bytes) (vchName : Bytes) :
    HasPending (updateKeyState s a) vchName = HasPending s vchName := by
  cases a <;> rfl

theorem sendLog_updateKeyState (s : State) (a : Option Bytes) :
    (updateKeyState s a).sendLog = s.sendLog := by
  cases a <;> rfl

theorem activateCheck_of_pending (env : Env) (s : State) (vchName vchRand : Bytes)
    (txParam : Option uint256) (h : HasPending s vchName = true) :
    activateCheck env s vchName vchRand txParam = ActivateCheck.pending := by
  unfold activateCheck
  rw [pendingCond_eq_HasPending, if_pos h]

theorem activateCheck_ne_pending (env : Env) (s : State) (vchName vchRand : Bytes)
    (txParam : Option uint256) (h : HasPending s vchName = false) :
    activateCheck env s vchName vchRand txParam ≠ ActivateCheck.pending := by
  unfold activateCheck
  rw [pendingCond_eq_HasPending, h]
  simp only [Bool.false_eq_true, if_false]
  repeat' split
  all_goals simp

theorem updateCheck_of_pending (env : Env) (s : State) (vchName : Bytes)
    (h : HasPending s vchName = true) :
    updateCheck env s vchName = UpdateCheck.pending := by
  unfold updateCheck
  rw [pendingCond_eq_HasPending, if_pos h]

theorem updateCheck_ne_pending (env : Env) (s : State) (vchName : Bytes)
    (h : HasPending s vchName = false) :
    updateCheck env s vchName ≠ UpdateCheck.pending := by
  unfold updateCheck
  rw [pendingCond_eq_HasPending, h]
  simp only [Bool.false_eq_true, if_false]
  repeat' split
  all_goals simp

theorem sendOutcome_not_pending (r : SendResult) (e : RpcError)
    (h : (sendOutcome r).1 = Except.error e) : isPendingError e = false := by
  unfold sendOutcome at h
  split at h
  · simp only [Except.error.injEq] at h
    subst h
    rfl
  · simp at h

theorem aliasactivate_pending_fails (env : Env) (s : State) (vchName strRand : Bytes)
    (txParam : Option uint256) (vchValue : Bytes) (o : SendOracle)
    (h : HasPending s vchName = true) :
    aliasactivate env s vchName strRand txParam vchValue o = (Except.error pendingErrorAlias, s) := by
  rw [aliasactivate_eq, activateCheck_of_pending env s vchName _ txParam h]
  rfl

theorem aliasactivate_not_pending_error (env : Env) (s : State) (vchName strRand : Bytes)
    (txParam : Option uint256) (vchValue : Bytes) (o : SendOracle)
    (h : HasPending s vchName = false) (e : RpcError)
    (he : (aliasactivate env s vchName strRand txParam vchValue o).1 = Except.error e) :
    isPendingError e = false := by
  rw [aliasactivate_eq] at he
  have hc := activateCheck_ne_pending env s vchName (ParseHex strRand) txParam h
  cases hk : activateCheck env s vchName (ParseHex strRand) txParam with
  | pending => exact absurd hk hc
  | pass wtxIn =>
    rw [hk] at he
    exact sendOutcome_not_pending _ e he
  | _ =>
    rw [hk] at he
    simp only [Except.error.injEq] at he
    subst he
    rfl

theorem aliasupdate_pending_fails (env : Env) (s : State) (vchName vchValue : Bytes)
    (toAddress : Option Bytes) (o : SendOracle) (h : HasPending s vchName = true) :
    (∃ e, (aliasupdate env s vchName vchValue toAddress o).1 = Except.error e) ∧
      (aliasupdate env s vchName vchValue toAddress o).2.sendLog = s.sendLog := by
  rw [aliasupdate_eq]
  by_cases hb : badAddress env toAddress = true
  · rw [if_pos hb]
    exact ⟨⟨_, rfl⟩, rfl⟩
  · rw [if_neg hb, updateCheck_of_pending env _ vchName
      ((HasPending_updateKeyState s toAddress vchName).trans h)]
    exact ⟨⟨_, rfl⟩, sendLog_updateKeyState s toAddress⟩

theorem aliasupdate_not_pending_error (env : Env) (s : State) (vchName vchValue : Bytes)
    (toAddress : Option Bytes) (o : SendOracle) (h : HasPending s vchName = false)
    (e : RpcError)
    (he : (aliasupdate env s vchName vchValue toAddress o).1 = Except.error e) :
    isPendingError e = false := by
  rw [aliasupdate_eq] at he
  by_cases hb : badAddress env toAddress = true
  · rw [if_pos hb] at he
    simp only [Except.error.injEq] at he
    subst he
    rfl
  rw [if_neg hb] at he
  have hc := updateCheck_ne_pending env (updateKeyState s toAddress) vchName
    ((HasPending_updateKeyState s toAddress vchName).trans h)
  cases hk : updateCheck env (updateKeyState s toAddress) vchName with
  | pending => exact absurd hk hc
  | pass wtxIn =>
    rw [hk] at he
    exact sendOutcome_not_pending _ e he
  | _ =>
    rw [hk] at he
    simp only [Except.error.injEq] at he
    subst he
    rfl

theorem sendOutcome_map_not_pending (r : SendResult) (b : Bytes) (e : RpcError)
    (h : (sendOutcome r).1.map (fun x => (b, x)) = Except.error e) :
    isPendingError e = false := by
  cases hr : (sendOutcome r).1 with
  | error e2 =>
    rw [hr] at h
    simp only [Except.map, Except.error.injEq] at h
    subst h
    exact sendOutcome_not_pending r e2 hr
  | ok v =>
    rw [hr] at h
    simp [Except.map] at h

theorem signEntry_not_pending (env : Env) (txdata : Bytes) (d : CTxDestination) (e : RpcError)
    (h : signEntry env txdata d = Except.error e) : isPendingError e = false := by
  unfold signEntry at h
  repeat' split at h
  all_goals first
    | (simp only [Except.error.injEq] at h; subst h; rfl)
    | simp at h

theorem signLoopActivate_not_pending (env : Env) (txdata : Bytes)
    (book : List (CTxDestination × Bytes)) (e : RpcError)
    (h : signLoopActivate env txdata book = Except.error e) : isPendingError e = false := by
  induction book with
  | nil => simp [signLoopActivate] at h
  | cons entry rest ih =>
    unfold signLoopActivate at h
    split at h
    · exact signEntry_not_pending env txdata entry.1 e h
    · exact ih h

theorem signLoopUpdate_not_pending (env : Env) (txdata : Bytes)
    (book : List (CTxDestination × Bytes)) (b : Bytes) (e : RpcError)
    (h : signLoopUpdate env txdata book b = Except.error e) : isPendingError e = false := by
  induction book generalizing b with
  | nil => simp [signLoopUpdate] at h
  | cons entry rest ih =>
    unfold signLoopUpdate at h
    split at h
    · split at h
      · rename_i e2 hs
        simp only [Except.error.injEq] at h
        subst h
        exact signEntry_not_pending env txdata entry.1 e2 hs
      · exact ih _ h
    · exact ih _ h

theorem dataactivate_pending_fails (env : Env) (s : State) (vchName strRand : Bytes)
    (txParam : Option uint256) (txdata : Bytes) (o : SendOracle)
    (h : HasPending s vchName = true) :
    (∃ e, (dataactivate env s vchName strRand txParam txdata o).1 = Except.error e) ∧
      (dataactivate env s vchName strRand txParam txdata o).2.sendLog = s.sendLog := by
  rw [dataactivate_eq]
  split
  · exact ⟨⟨_, rfl⟩, rfl⟩
  · split
    · exact ⟨⟨_, rfl⟩, rfl⟩
    · rw [activateCheck_of_pending env s vchName _ txParam h]
      exact ⟨⟨_, rfl⟩, rfl⟩

theorem dataactivate_not_pending_error (env : Env) (s : State) (vchName strRand : Bytes)
    (txParam : Option uint256) (txdata : Bytes) (o : SendOracle)
    (h : HasPending s vchName = false) (e : RpcError)
    (he : (dataactivate env s vchName strRand txParam txdata o).1 = Except.error e) :
    isPendingError e = false := by
  rw [dataactivate_eq] at he
  split at he
  · simp only [Except.error.injEq] at he
    subst he
    rfl
  split at he
  · rename_i e2 hs
    simp only [Except.error.injEq] at he
    subst he
    exact signLoopActivate_not_pending env txdata _ e2 hs
  rename_i baSig hs
  have hc := activateCheck_ne_pending env s vchName (ParseHex strRand) txParam h
  cases hk : activateCheck env s vchName (ParseHex strRand) txParam with
  | pending => exact absurd hk hc
  | pass wtxIn =>
    rw [hk] at he
    exact sendOutcome_map_not_pending _ baSig e he
  | _ =>
    rw [hk] at he
    simp only [Except.error.injEq] at he
    subst he
    rfl

theorem dataupdate_pending_fails (env : Env) (s : State) (vchName txdata : Bytes)
    (toAddress : Option Bytes) (o : SendOracle) (h : HasPending s vchName = true) :
    (∃ e, (dataupdate env s vchName txdata toAddress o).1 = Except.error e) ∧
      (dataupdate env s vchName txdata toAddress o).2.sendLog = s.sendLog := by
  rw [dataupdate_eq]
  split
  · exact ⟨⟨_, rfl⟩, rfl⟩
  · split
    · exact ⟨⟨_, rfl⟩, rfl⟩
    · split
      · exact ⟨⟨_, rfl⟩, rfl⟩
      · rw [updateCheck_of_pending env _ vchName
          ((HasPending_updateKeyState s toAddress vchName).trans h)]
        exact ⟨⟨_, rfl⟩, sendLog_updateKeyState s toAddress⟩

theorem dataupdate_not_pending_error (env : Env) (s : State) (vchName txdata : Bytes)
    (toAddress : Option Bytes) (o : SendOracle) (h : HasPending s vchName = false)
    (e : RpcError)
    (he : (dataupdate env s vchName txdata toAddress o).1 = Except.error e) :
    isPendingError e = false := by
  rw [dataupdate_eq] at he
  split at he
  · simp only [Except.error.injEq] at he
    subst he
    rfl
  split at he
  · rename_i e2 hs
    simp only [Except.error.injEq] at he
    subst he
    exact signLoopUpdate_not_pending env txdata _ _ e2 hs
  rename_i baSig hs
  split at he
  · simp only [Except.error.injEq] at he
    subst he
    rfl
  have hc := updateCheck_ne_pending env (updateKeyState s toAddress) vchName
    ((HasPending_updateKeyState s toAddress vchName).trans h)
  cases hk : updateCheck env (updateKeyState s toAddress) vchName with
  | pending => exact absurd hk hc
  | pass wtxIn =>
    rw [hk] at he
    exact sendOutcome_map_not_pending _ baSig e he
  | _ =>
    rw [hk] at he
    simp only [Except.error.injEq] at he
    subst he
    rfl

theorem HasPending_eq_true_iff (s : State) (vchName : Bytes) :
    HasPending s vchName = true ↔
      ∃ set, mapFind s.mapNamePending vchName = some set ∧ set ≠ [] := by
  unfold HasPending
  cases h : mapFind s.mapNamePending vchName with
  | none => simp
  | some set => cases set <;> simp

theorem HasPending_eq_false_iff (s : State) (vchName : Bytes) :
    HasPending s vchName = false ↔
      (mapFind s.mapNamePending vchName = none ∨
        mapFind s.mapNamePending vchName = some []) := by
  unfold HasPending
  cases h : mapFind s.mapNamePending vchName with
  | none => simp
  | some set => cases set <;> simp

/-- C1: while the pending set recorded for a name is non-empty, each of
aliasactivate, aliasupdate, dataactivate and dataupdate fails and the log of
calls of transaction construction is unchanged (no call); when the name has no
pending entry, or an entry whose set is empty, no error any of them raises is
a pending-operations error. -/
theorem pending_gate (env : Env) (s : State) (vchName strRand vchValue txdata : Bytes)
    (txParam : Option uint256) (toAddress : Option Bytes) (o : SendOracle) :
    ((∃ set, mapFind s.mapNamePending vchName = some set ∧ set ≠ []) →
      ((∃ e, (aliasactivate env s vchName strRand txParam vchValue o).1 = Except.error e) ∧
        (aliasactivate env s vchName strRand txParam vchValue o).2.sendLog = s.sendLog) ∧
      ((∃ e, (aliasupdate env s vchName vchValue toAddress o).1 = Except.error e) ∧
        (aliasupdate env s vchName vchValue toAddress o).2.sendLog = s.sendLog) ∧
      ((∃ e, (dataactivate env s vchName strRand txParam txdata o).1 = Except.error e) ∧
        (dataactivate env s vchName strRand txParam txdata o).2.sendLog = s.sendLog) ∧
      ((∃ e, (dataupdate env s vchName txdata toAddress o).1 = Except.error e) ∧
        (dataupdate env s vchName txdata toAddress o).2.sendLog = s.sendLog)) ∧
    ((mapFind s.mapNamePending vchName = none ∨
        mapFind s.mapNamePending vchName = some []) →
      (∀ e, (aliasactivate env s vchName strRand txParam vchValue o).1 = Except.error e →
        isPendingError e = false) ∧
      (∀ e, (aliasupdate env s vchName vchValue toAddress o).1 = Except.error e →
        isPendingError e = false) ∧
      (∀ e, (dataactivate env s vchName strRand txParam txdata o).1 = Except.error e →
        isPendingError e = false) ∧
      (∀ e, (dataupdate env s vchName txdata toAddress o).1 = Except.error e →
        isPendingError e = false)) := by
  constructor
  · intro hp
    have h := (HasPending_eq_true_iff s vchName).2 hp
    refine ⟨?_, aliasupdate_pending_fails env s vchName vchValue toAddress o h,
      dataactivate_pending_fails env s vchName strRand txParam txdata o h,
      dataupdate_pending_fails env s vchName txdata toAddress o h⟩
    rw [aliasactivate_pending_fails env s vchName strRand txParam vchValue o h]
    exact ⟨⟨_, rfl⟩, rfl⟩
  · intro hp
    have h := (HasPending_eq_false_iff s vchName).2 hp
    exact ⟨aliasactivate_not_pending_error env s vchName strRand txParam vchValue o h,
      aliasupdate_not_pending_error env s vchName vchValue toAddress o h,
      dataactivate_not_pending_error env s vchName strRand txParam txdata o h,
      dataupdate_not_pending_error env s vchName txdata toAddress o h⟩

/-- C1 at concrete inputs: with transaction 12 pending on the name the four
commands fail without a send; with nothing pending, the errors of a second
activation and of an update are not pending-operations errors. -/
theorem pending_gate_witness :
    (((∃ e, (aliasactivate exEnv exPending exName exRandHex none [1] exSendOk).1 =
          Except.error e) ∧
        (aliasactivate exEnv exPending exName exRandHex none [1] exSendOk).2.sendLog = []) ∧
      ((∃ e, (aliasupdate exEnv exPending exName [1] none exSendOk).1 = Except.error e) ∧
        (aliasupdate exEnv exPending exName [1] none exSendOk).2.sendLog = []) ∧
      ((∃ e, (dataactivate exEnv exPending exName exRandHex none [2] exSendOk).1 =
          Except.error e) ∧
        (dataactivate exEnv exPending exName exRandHex none [2] exSendOk).2.sendLog = []) ∧
      ((∃ e, (dataupdate exEnv exPending exName [2] none exSendOk).1 = Except.error e) ∧
        (dataupdate exEnv exPending exName [2] none exSendOk).2.sendLog = [])) ∧
    ((∀ e, (aliasactivate exEnv exClaimed exName exRandHex none [1] exSendOk).1 =
          Except.error e → isPendingError e = false) ∧
      (∀ e, (aliasupdate exEnv exClaimed exName [1] none exSendOk).1 = Except.error e →
          isPendingError e = false) ∧
      (∀ e, (dataactivate exEnv exClaimed exName exRandHex none [2] exSendOk).1 =
          Except.error e → isPendingError e = false) ∧
      (∀ e, (dataupdate exEnv exClaimed exName [2] none exSendOk).1 = Except.error e →
          isPendingError e = false)) :=
  ⟨(pending_gate exEnv exPending exName exRandHex [1] [2] none none exSendOk).1
      ⟨[12], by decide, by decide⟩,
   (pending_gate exEnv exClaimed exName exRandHex [1] [2] none none exSendOk).2
      (Or.inl (by decide))⟩

/-! ## What the checks of activation mean -/

theorem activateCheck_pass_iff (env : Env) (s : State) (vchName vchRand : Bytes)
    (txParam : Option uint256) (wtxIn : CWalletTx) :
    activateCheck env s vchName vchRand txParam = ActivateCheck.pass wtxIn ↔
      (HasPending s vchName = false ∧ GetTxOfName env s vchName = none ∧ s.fLocked = false ∧
        ∃ h, resolveWtxIn s vchName txParam = some h ∧ mapFind s.mapWallet h = some wtxIn ∧
          scanVout wtxIn.vout = VoutScan.found (env.Hash160 (vchRand ++ vchName))) := by
  constructor
  · intro hk
    unfold activateCheck at hk
    rw [pendingCond_eq_HasPending] at hk
    split at hk
    · cases hk
    rename_i hp
    split at hk
    · cases hk
    rename_i hg
    split at hk
    · cases hk
    rename_i hl
    split at hk
    · cases hk
    rename_i h hr
    split at hk
    · cases hk
    rename_i w hw
    split at hk
    · cases hk
    · cases hk
    rename_i c hs
    split at hk
    · cases hk
    rename_i hc
    cases hk
    simp only [ne_eq, not_not] at hc
    subst hc
    exact ⟨by simpa using hp, hg, by simpa using hl, h, hr, hw, hs⟩
  · rintro ⟨hp, hg, hl, h, hr, hw, hs⟩
    simp only [activateCheck, pendingCond_eq_HasPending, hp, hg, hl, hr, hw, hs,
      Bool.false_eq_true, if_false, ne_eq, not_true_eq_false]

theorem decodePushes_length_one (sc : CScript) (vvch : List Bytes)
    (h : DecodeNameScript sc = some (OP_ALIAS_NEW, vvch)) : vvch = [vvch.headD []] := by
  unfold DecodeNameScript at h
  split at h
  · split at h
    · split at h
      · rename_i op rest vv hd hcond
        simp only [Option.some.injEq, Prod.mk.injEq] at h
        obtain ⟨h1, h2⟩ := h
        subst h1 h2
        have hlen : vv.length = 1 := by
          rcases hcond with ⟨_, hl⟩ | ⟨ho, _⟩ | ⟨ho, _⟩
          · exact hl
          · exact absurd ho (by decide)
          · exact absurd ho (by decide)
        match vv, hlen with
        | [x], _ => rfl
      · simp at h
    · simp at h
  · simp at h

theorem scanVout_found (vout : List CTxOut) (c : Bytes)
    (h : scanVout vout = VoutScan.found c) :
    ∃ out, out ∈ vout ∧ DecodeNameScript out.scriptPubKey = some (OP_ALIAS_NEW, [c]) := by
  induction vout with
  | nil => simp [scanVout] at h
  | cons out rest ih =>
    unfold scanVout at h
    split at h
    · rename_i op vvch hd
      split at h
      · simp at h
      · rename_i hop
        simp only [ne_eq, not_not] at hop
        subst hop
        simp only [VoutScan.found.injEq] at h
        have := decodePushes_length_one _ _ hd
        rw [h] at this
        rw [this] at hd
        exact ⟨out, List.mem_cons_self _ _, hd⟩
    · obtain ⟨o2, hm, hd⟩ := ih h
      exact ⟨o2, List.mem_cons_of_mem _ hm, hd⟩

theorem sendOutcome_sendLog (s : State) (o : SendOracle) (call : SendCall) (v : Int) :
    (sendOutcome (sendTx s o call v)).2.sendLog = s.sendLog ++ [call] := by
  unfold sendOutcome
  split <;> exact sendTx_sendLog s o call v

theorem aliasactivate_sendLog (env : Env) (s : State) (vchName strRand : Bytes)
    (txParam : Option uint256) (vchValue : Bytes) (o : SendOracle) :
    (∃ wtxIn, activateCheck env s vchName (ParseHex strRand) txParam = ActivateCheck.pass wtxIn ∧
      (aliasactivate env s vchName strRand txParam vchValue o).2.sendLog =
        s.sendLog ++ [activateCall env s vchName (ParseHex strRand) vchValue wtxIn []]) ∨
    ((∀ wtxIn, activateCheck env s vchName (ParseHex strRand) txParam ≠
        ActivateCheck.pass wtxIn) ∧
      (∃ e, (aliasactivate env s vchName strRand txParam vchValue o).1 = Except.error e) ∧
      (aliasactivate env s vchName strRand txParam vchValue o).2.sendLog = s.sendLog) := by
  rw [aliasactivate_eq]
  cases hk : activateCheck env s vchName (ParseHex strRand) txParam with
  | pass wtxIn =>
    left
    refine ⟨wtxIn, rfl, ?_⟩
    exact sendOutcome_sendLog _ _ _ _
  | _ =>
    right
    exact ⟨fun _ => by simp, ⟨_, rfl⟩, rfl⟩

/-! ## The commitment check -/

/-- C2: aliasactivate reaches transaction construction (its call log grows)
only if the reservation transaction it resolved is in the wallet and has a
name output that is a RESERVE output whose pushed commitment equals
`Hash160(nonce ++ name)` byte for byte; a stored commitment that is any other
byte string (of another length, or a proper prefix) never reaches
transaction construction. -/
theorem activate_needs_commitment (env : Env) (s : State) (vchName strRand vchValue : Bytes)
    (txParam : Option uint256) (o : SendOracle) :
    ((aliasactivate env s vchName strRand txParam vchValue o).2.sendLog ≠ s.sendLog →
      ∃ h wtxIn out, resolveWtxIn s vchName txParam = some h ∧
        mapFind s.mapWallet h = some wtxIn ∧ out ∈ wtxIn.vout ∧
        DecodeNameScript out.scriptPubKey =
          some (OP_ALIAS_NEW, [env.Hash160 (ParseHex strRand ++ vchName)]) ∧
        scanVout wtxIn.vout = VoutScan.found (env.Hash160 (ParseHex strRand ++ vchName))) ∧
    (∀ h wtxIn c, resolveWtxIn s vchName txParam = some h →
      mapFind s.mapWallet h = some wtxIn → scanVout wtxIn.vout = VoutScan.found c →
      c ≠ env.Hash160 (ParseHex strRand ++ vchName) →
      (aliasactivate env s vchName strRand txParam vchValue o).2.sendLog = s.sendLog) := by
  have key : (aliasactivate env s vchName strRand txParam vchValue o).2.sendLog ≠ s.sendLog →
      ∃ h wtxIn, resolveWtxIn s vchName txParam = some h ∧
        mapFind s.mapWallet h = some wtxIn ∧
        scanVout wtxIn.vout = VoutScan.found (env.Hash160 (ParseHex strRand ++ vchName)) := by
    intro hne
    rcases aliasactivate_sendLog env s vchName strRand txParam vchValue o with
      ⟨wtxIn, hk, _⟩ | ⟨_, _, hsame⟩
    · obtain ⟨_, _, _, h, hr, hw, hs⟩ := (activateCheck_pass_iff _ _ _ _ _ _).1 hk
      exact ⟨h, wtxIn, hr, hw, hs⟩
    · exact absurd hsame hne
  constructor
  · intro hne
    obtain ⟨h, wtxIn, hr, hw, hs⟩ := key hne
    obtain ⟨out, hm, hd⟩ := scanVout_found _ _ hs
    exact ⟨h, wtxIn, out, hr, hw, hm, hd, hs⟩
  · intro h wtxIn c hr hw hs hc
    by_contra hne
    obtain ⟨h2, w2, hr2, hw2, hs2⟩ := key hne
    rw [hr] at hr2
    cases hr2
    rw [hw] at hw2
    cases hw2
    rw [hs] at hs2
    cases hs2
    exact hc rfl

/-- C2 at concrete inputs: the activation of `exReserved` sends, so its
reservation carries the commitment; the activation of `exPrefixState`, whose
stored commitment is a ten-byte prefix of the hash, sends nothing. -/
theorem activate_needs_commitment_witness :
    (∃ h wtxIn out, resolveWtxIn exReserved exName none = some h ∧
        mapFind exReserved.mapWallet h = some wtxIn ∧ out ∈ wtxIn.vout ∧
        DecodeNameScript out.scriptPubKey =
          some (OP_ALIAS_NEW, [exEnv.Hash160 (ParseHex exRandHex ++ exName)]) ∧
        scanVout wtxIn.vout =
          VoutScan.found (exEnv.Hash160 (ParseHex exRandHex ++ exName))) ∧
    (aliasactivate exEnv exPrefixState exName exRandHex none [1] exSendOk).2.sendLog = [] :=
  ⟨(activate_needs_commitment exEnv exReserved exName exRandHex [1] none exSendOk).1
      (by decide),
   (activate_needs_commitment exEnv exPrefixState exName exRandHex [1] none exSendOk).2
      13 exPrefixTx ((exHash160 (exRand ++ exName)).take 10) (by decide) (by decide)
      (by decide) (by decide)⟩

theorem scanVout_no_reserve (vout : List CTxOut)
    (h : ∀ out, out ∈ vout → ∀ vvch, DecodeNameScript out.scriptPubKey ≠
      some (OP_ALIAS_NEW, vvch)) :
    scanVout vout = VoutScan.notNew ∨ scanVout vout = VoutScan.notFound := by
  cases hs : scanVout vout with
  | notNew => exact Or.inl rfl
  | notFound => exact Or.inr rfl
  | found c =>
    obtain ⟨out, hm, hd⟩ := scanVout_found vout c hs
    exact absurd hd (h out hm [c])

/-! ## The order of the checks of aliasactivate -/

/-- C3: with the wallet unlocked, aliasactivate reports the first violated
precondition in the order (a) pending operations, (b) already active, (c)
reservation transaction not resolvable (no local record when no id is given,
or not in the wallet), (d) no RESERVE output, (e) commitment mismatch; in
particular a name that is pending and active gets the pending error. -/
theorem activate_error_order (env : Env) (s : State) (vchName strRand vchValue : Bytes)
    (txParam : Option uint256) (o : SendOracle) (hun : s.fLocked = false) :
    (HasPending s vchName = true →
      (aliasactivate env s vchName strRand txParam vchValue o).1 =
        Except.error pendingErrorAlias) ∧
    (HasPending s vchName = false → GetTxOfName env s vchName ≠ none →
      (aliasactivate env s vchName strRand txParam vchValue o).1 =
        Except.error (RpcError.runtime "this alias is already active")) ∧
    (HasPending s vchName = false → GetTxOfName env s vchName = none →
      txParam = none → mapFind s.mapMyNames vchName = none →
      (aliasactivate env s vchName strRand txParam vchValue o).1 =
        Except.error (RpcError.runtime
          "could not find a coin with this alias, try specifying the aliasnew transaction id")) ∧
    (HasPending s vchName = false → GetTxOfName env s vchName = none →
      ∀ h, resolveWtxIn s vchName txParam = some h → mapFind s.mapWallet h = none →
      (aliasactivate env s vchName strRand txParam vchValue o).1 =
        Except.error (RpcError.runtime "previous transaction is not in the wallet")) ∧
    (HasPending s vchName = false → GetTxOfName env s vchName = none →
      ∀ h wtxIn, resolveWtxIn s vchName txParam = some h →
      mapFind s.mapWallet h = some wtxIn →
      (∀ out, out ∈ wtxIn.vout → ∀ vvch, DecodeNameScript out.scriptPubKey ≠
        some (OP_ALIAS_NEW, vvch)) →
      ((aliasactivate env s vchName strRand txParam vchValue o).1 =
          Except.error (RpcError.runtime "previous transaction wasn't a aliasnew") ∨
        (aliasactivate env s vchName strRand txParam vchValue o).1 =
          Except.error (RpcError.runtime "previous tx on alias name is not an alias tx"))) ∧
    (HasPending s vchName = false → GetTxOfName env s vchName = none →
      ∀ h wtxIn c, resolveWtxIn s vchName txParam = some h →
      mapFind s.mapWallet h = some wtxIn → scanVout wtxIn.vout = VoutScan.found c →
      c ≠ env.Hash160 (ParseHex strRand ++ vchName) →
      (aliasactivate env s vchName strRand txParam vchValue o).1 =
        Except.error (RpcError.runtime "previous tx used a different random value")) ∧
    (HasPending s vchName = true → GetTxOfName env s vchName ≠ none →
      (aliasactivate env s vchName strRand txParam vchValue o).1 =
        Except.error pendingErrorAlias) := by
  have ha : HasPending s vchName = true →
      (aliasactivate env s vchName strRand txParam vchValue o).1 =
        Except.error pendingErrorAlias := by
    intro hp
    rw [aliasactivate_pending_fails env s vchName strRand txParam vchValue o hp]
  refine ⟨ha, ?_, ?_, ?_, ?_, ?_, fun hp _ => ha hp⟩
  · intro hp hg
    cases hg2 : GetTxOfName env s vchName with
    | none => exact absurd hg2 hg
    | some tx =>
      rw [aliasactivate_eq]
      simp only [activateCheck, pendingCond_eq_HasPending, hp, hg2, Bool.false_eq_true,
        if_false]
  · intro hp hg ht hm
    subst ht
    rw [aliasactivate_eq]
    simp only [activateCheck, pendingCond_eq_HasPending, hp, hg, hun, resolveWtxIn, hm,
      Bool.false_eq_true, if_false]
  · intro hp hg h hr hw
    rw [aliasactivate_eq]
    simp only [activateCheck, pendingCond_eq_HasPending, hp, hg, hun, hr, hw,
      Bool.false_eq_true, if_false]
  · intro hp hg h wtxIn hr hw hno
    rw [aliasactivate_eq]
    rcases scanVout_no_reserve wtxIn.vout hno with hs | hs
    · left
      simp only [activateCheck, pendingCond_eq_HasPending, hp, hg, hun, hr, hw, hs,
        Bool.false_eq_true, if_false]
    · right
      simp only [activateCheck, pendingCond_eq_HasPending, hp, hg, hun, hr, hw, hs,
        Bool.false_eq_true, if_false]
  · intro hp hg h wtxIn c hr hw hs hc
    rw [aliasactivate_eq]
    simp only [activateCheck, pendingCond_eq_HasPending, hp, hg, hun, hr, hw, hs,
      Bool.false_eq_true, if_false, ne_eq, hc, not_false_eq_true, if_true]

theorem exPlainTx_no_reserve : ∀ out, out ∈ exPlainTx.vout → ∀ vvch,
    DecodeNameScript out.scriptPubKey ≠ some (OP_ALIAS_NEW, vvch) := by
  intro out hm vvch
  simp only [exPlainTx, List.mem_singleton] at hm
  subst hm
  simp [DecodeNameScript]

theorem exClaimTx_no_reserve : ∀ out, out ∈ exClaimTx.vout → ∀ vvch,
    DecodeNameScript out.scriptPubKey ≠ some (OP_ALIAS_NEW, vvch) := by
  intro out hm vvch
  simp only [exClaimTx, List.mem_singleton] at hm
  subst hm
  simp [DecodeNameScript, decodePushes, OP_ALIAS_NEW, OP_ALIAS_ACTIVATE, OP_ALIAS_UPDATE]

/-- C3 at concrete inputs, one state for each precondition: pending and
active; active; no local record; record of a transaction the wallet does not
hold; reservation without name output; reservation that is a claim; another
nonce. -/
theorem activate_error_order_witness :
    (aliasactivate exEnv exPendingClaimed exName exRandHex none [1] exSendOk).1 =
        Except.error pendingErrorAlias ∧
    (aliasactivate exEnv exClaimed exName exRandHex none [1] exSendOk).1 =
        Except.error (RpcError.runtime "this alias is already active") ∧
    (aliasactivate exEnv exNoRecord exName exRandHex none [1] exSendOk).1 =
        Except.error (RpcError.runtime
          "could not find a coin with this alias, try specifying the aliasnew transaction id") ∧
    (aliasactivate exEnv exNotHeld exName exRandHex none [1] exSendOk).1 =
        Except.error (RpcError.runtime "previous transaction is not in the wallet") ∧
    ((aliasactivate exEnv exPlainState exName exRandHex none [1] exSendOk).1 =
          Except.error (RpcError.runtime "previous transaction wasn't a aliasnew") ∨
      (aliasactivate exEnv exPlainState exName exRandHex none [1] exSendOk).1 =
          Except.error (RpcError.runtime "previous tx on alias name is not an alias tx")) ∧
    ((aliasactivate exEnv exNotNewState exName exRandHex none [1] exSendOk).1 =
          Except.error (RpcError.runtime "previous transaction wasn't a aliasnew") ∨
      (aliasactivate exEnv exNotNewState exName exRandHex none [1] exSendOk).1 =
          Except.error (RpcError.runtime "previous tx on alias name is not an alias tx")) ∧
    (aliasactivate exEnv exReserved exName exOtherHex none [1] exSendOk).1 =
        Except.error (RpcError.runtime "previous tx used a different random value") :=
  ⟨(activate_error_order exEnv exPendingClaimed exName exRandHex [1] none exSendOk
      (by decide)).2.2.2.2.2.2 (by decide) (by decide),
   (activate_error_order exEnv exClaimed exName exRandHex [1] none exSendOk
      (by decide)).2.1 (by decide) (by decide),
   (activate_error_order exEnv exNoRecord exName exRandHex [1] none exSendOk
      (by decide)).2.2.1 (by decide) (by decide) rfl (by decide),
   (activate_error_order exEnv exNotHeld exName exRandHex [1] none exSendOk
      (by decide)).2.2.2.1 (by decide) (by decide) 11 (by decide) (by decide),
   (activate_error_order exEnv exPlainState exName exRandHex [1] none exSendOk
      (by decide)).2.2.2.2.1 (by decide) (by decide) 14 exPlainTx (by decide) (by decide)
      exPlainTx_no_reserve,
   (activate_error_order exEnv exNotNewState exName exRandHex [1] none exSendOk
      (by decide)).2.2.2.2.1 (by decide) (by decide) 12 exClaimTx (by decide) (by decide)
      exClaimTx_no_reserve,
   (activate_error_order exEnv exReserved exName exOtherHex [1] none exSendOk
      (by decide)).2.2.2.2.2.1 (by decide) (by decide) 11 exReserveTx
      (exHash160 (exRand ++ exName)) (by decide) (by decide) (by decide) (by decide)⟩

/-! ## At most one send, and only after every check -/

/-- C4: a call of aliasactivate calls transaction construction at most once
(its call log is unchanged or longer by one call), and calls it only when the
name has no pending operation, the name database has no active transaction for
the name, the reservation transaction is in the wallet, its name output is a
RESERVE output and the commitment matches; when one of these fails the call log
is unchanged. -/
theorem activate_single_send (env : Env) (s : State) (vchName strRand vchValue : Bytes)
    (txParam : Option uint256) (o : SendOracle) :
    ((aliasactivate env s vchName strRand txParam vchValue o).2.sendLog = s.sendLog ∨
      ∃ call, (aliasactivate env s vchName strRand txParam vchValue o).2.sendLog =
        s.sendLog ++ [call]) ∧
    ((aliasactivate env s vchName strRand txParam vchValue o).2.sendLog ≠ s.sendLog →
      HasPending s vchName = false ∧ GetTxOfName env s vchName = none ∧
      ∃ h wtxIn, resolveWtxIn s vchName txParam = some h ∧
        mapFind s.mapWallet h = some wtxIn ∧
        (∃ out, out ∈ wtxIn.vout ∧ DecodeNameScript out.scriptPubKey =
          some (OP_ALIAS_NEW, [env.Hash160 (ParseHex strRand ++ vchName)])) ∧
        scanVout wtxIn.vout = VoutScan.found (env.Hash160 (ParseHex strRand ++ vchName))) ∧
    ((HasPending s vchName = true ∨ GetTxOfName env s vchName ≠ none ∨
        (∀ h, resolveWtxIn s vchName txParam = some h → mapFind s.mapWallet h = none) ∨
        (∀ h wtxIn, resolveWtxIn s vchName txParam = some h →
          mapFind s.mapWallet h = some wtxIn →
          scanVout wtxIn.vout ≠ VoutScan.found (env.Hash160 (ParseHex strRand ++ vchName)))) →
      (aliasactivate env s vchName strRand txParam vchValue o).2.sendLog = s.sendLog) := by
  have key : (aliasactivate env s vchName strRand txParam vchValue o).2.sendLog ≠ s.sendLog →
      HasPending s vchName = false ∧ GetTxOfName env s vchName = none ∧
      ∃ h wtxIn, resolveWtxIn s vchName txParam = some h ∧
        mapFind s.mapWallet h = some wtxIn ∧
        scanVout wtxIn.vout = VoutScan.found (env.Hash160 (ParseHex strRand ++ vchName)) := by
    intro hne
    rcases aliasactivate_sendLog env s vchName strRand txParam vchValue o with
      ⟨wtxIn, hk, _⟩ | ⟨_, _, hsame⟩
    · obtain ⟨hp, hg, _, h, hr, hw, hs⟩ := (activateCheck_pass_iff _ _ _ _ _ _).1 hk
      exact ⟨hp, hg, h, wtxIn, hr, hw, hs⟩
    · exact absurd hsame hne
  refine ⟨?_, ?_, ?_⟩
  · rcases aliasactivate_sendLog env s vchName strRand txParam vchValue o with
      ⟨wtxIn, _, hlog⟩ | ⟨_, _, hsame⟩
    · exact Or.inr ⟨_, hlog⟩
    · exact Or.inl hsame
  · intro hne
    obtain ⟨hp, hg, h, wtxIn, hr, hw, hs⟩ := key hne
    exact ⟨hp, hg, h, wtxIn, hr, hw, scanVout_found _ _ hs, hs⟩
  · intro hfail
    by_contra hne
    obtain ⟨hp, hg, h, wtxIn, hr, hw, hs⟩ := key hne
    rcases hfail with h1 | h1 | h1 | h1
    · rw [hp] at h1
      exact Bool.false_ne_true h1
    · exact h1 hg
    · rw [h1 h hr] at hw
      cases hw
    · exact h1 h wtxIn hr hw hs

/-- C4 at concrete inputs: the activation of `exReserved` sends once and all
the conditions hold there; the activation of the already claimed name sends
nothing. -/
theorem activate_single_send_witness :
    (HasPending exReserved exName = false ∧ GetTxOfName exEnv exReserved exName = none ∧
      ∃ h wtxIn, resolveWtxIn exReserved exName none = some h ∧
        mapFind exReserved.mapWallet h = some wtxIn ∧
        (∃ out, out ∈ wtxIn.vout ∧ DecodeNameScript out.scriptPubKey =
          some (OP_ALIAS_NEW, [exEnv.Hash160 (ParseHex exRandHex ++ exName)])) ∧
        scanVout wtxIn.vout =
          VoutScan.found (exEnv.Hash160 (ParseHex exRandHex ++ exName))) ∧
    (aliasactivate exEnv exClaimed exName exRandHex none [1] exSendOk).2.sendLog = [] :=
  ⟨(activate_single_send exEnv exReserved exName exRandHex [1] none exSendOk).2.1
      (by decide),
   (activate_single_send exEnv exClaimed exName exRandHex [1] none exSendOk).2.2
      (Or.inr (Or.inl (by decide)))⟩

/-! ## The pending registration of a sent activation -/

theorem mem_setInsert (set : List uint256) (h : uint256) : h ∈ setInsert set h := by
  unfold setInsert
  split
  · assumption
  · simp

theorem DecodeNameScript_activateScript (vchName vchRand vchValue : Bytes) (key : Nat) :
    DecodeNameScript (activateScript vchName vchRand vchValue key) =
      some (OP_ALIAS_ACTIVATE, [vchName, vchRand, vchValue]) := by
  simp [DecodeNameScript, decodePushes, activateScript, OP_ALIAS_NEW, OP_ALIAS_ACTIVATE,
    OP_ALIAS_UPDATE]

theorem registerPending_activateScript (m : List (Bytes × List uint256))
    (vchName vchRand vchValue : Bytes) (key : Nat) (h : uint256) :
    registerPending m (activateScript vchName vchRand vchValue key) h =
      pendingAdd m vchName h := by
  unfold registerPending
  rw [DecodeNameScript_activateScript]
  simp [OP_ALIAS_NEW, OP_ALIAS_ACTIVATE]

theorem mapFind_pendingAdd (m : List (Bytes × List uint256)) (vchName : Bytes) (h : uint256) :
    ∃ set, mapFind (pendingAdd m vchName h) vchName = some set ∧ h ∈ set := by
  unfold pendingAdd
  rw [mapFind_mapAssign, if_pos rfl]
  exact ⟨_, rfl, mem_setInsert _ _⟩

theorem sendOutcome_ok (r : SendResult) (txid : uint256)
    (h : (sendOutcome r).1 = Except.ok txid) :
    r.strError = "" ∧ txid = r.wtx.hash ∧ (sendOutcome r).2 = r.state := by
  unfold sendOutcome at h ⊢
  split at h
  · cases h
  · rename_i hne
    simp only [ne_eq, not_not] at hne
    simp only [Except.ok.injEq] at h
    refine ⟨hne, h.symm, ?_⟩
    rw [if_neg (by simpa using hne)]

theorem aliasactivate_ok (env : Env) (s : State) (vchName strRand vchValue : Bytes)
    (txParam : Option uint256) (o : SendOracle) (txid : uint256)
    (h : (aliasactivate env s vchName strRand txParam vchValue o).1 = Except.ok txid) :
    ∃ wtxIn, activateCheck env s vchName (ParseHex strRand) txParam = ActivateCheck.pass wtxIn ∧
      o.strError = "" ∧ txid = o.hash ∧
      (aliasactivate env s vchName strRand txParam vchValue o).2 =
        (activateSend env s vchName (ParseHex strRand) vchValue wtxIn [] o).state := by
  rw [aliasactivate_eq] at h ⊢
  cases hk : activateCheck env s vchName (ParseHex strRand) txParam with
  | pass wtxIn =>
    rw [hk] at h
    obtain ⟨h1, h2, h3⟩ := sendOutcome_ok _ txid h
    refine ⟨wtxIn, rfl, ?_, ?_, h3⟩
    · rw [← h1]
      exact (sendTx_strError _ _ _ _).symm
    · rw [h2]
      exact sendTx_hash _ _ _ _
  | _ =>
    rw [hk] at h
    cases h

theorem aliasactivate_ok_pending (env : Env) (s : State) (vchName strRand vchValue : Bytes)
    (txParam : Option uint256) (o : SendOracle) (txid : uint256)
    (h : (aliasactivate env s vchName strRand txParam vchValue o).1 = Except.ok txid) :
    ∃ set, mapFind (aliasactivate env s vchName strRand txParam vchValue o).2.mapNamePending
      vchName = some set ∧ txid ∈ set := by
  obtain ⟨wtxIn, _, herr, hid, hst⟩ := aliasactivate_ok env s vchName strRand vchValue txParam o txid h
  rw [hst, hid]
  unfold activateSend SendMoneyWithInputTx
  rw [sendTx_pending_of_ok _ _ _ _ herr]
  simp only [registerPending_activateScript]
  exact mapFind_pendingAdd _ _ _

/-- C5 (amended): after a successful aliasactivate the returned transaction id
is in the pending set of the name, so HasPending holds; an immediately
following aliasactivate on the name fails with the pending-operations error,
and so does an immediately following aliasupdate unless it is given an
address that is not valid, which is rejected first with the invalid-address
error. -/
theorem activate_registers_pending (env : Env) (s : State) (vchName strRand vchValue : Bytes)
    (txParam : Option uint256) (o : SendOracle) (txid : uint256)
    (hok : (aliasactivate env s vchName strRand txParam vchValue o).1 = Except.ok txid) :
    (∃ set, mapFind (aliasactivate env s vchName strRand txParam vchValue o).2.mapNamePending
      vchName = some set ∧ txid ∈ set) ∧
    HasPending (aliasactivate env s vchName strRand txParam vchValue o).2 vchName = true ∧
    (∀ strRand2 txParam2 vchValue2 o2,
      (aliasactivate env (aliasactivate env s vchName strRand txParam vchValue o).2 vchName
        strRand2 txParam2 vchValue2 o2).1 = Except.error pendingErrorAlias) ∧
    (∀ vchValue2 toAddress o2, badAddress env toAddress = false →
      (aliasupdate env (aliasactivate env s vchName strRand txParam vchValue o).2 vchName
        vchValue2 toAddress o2).1 = Except.error pendingErrorAlias) ∧
    (∀ vchValue2 toAddress o2, badAddress env toAddress = true →
      (aliasupdate env (aliasactivate env s vchName strRand txParam vchValue o).2 vchName
        vchValue2 toAddress o2).1 =
          Except.error (RpcError.json RPCErrorCode.RPC_INVALID_ADDRESS_OR_KEY
            "Invalid syscoin address")) := by
  obtain ⟨set, hset, hmem⟩ :=
    aliasactivate_ok_pending env s vchName strRand vchValue txParam o txid hok
  have hp : HasPending (aliasactivate env s vchName strRand txParam vchValue o).2 vchName =
      true := by
    rw [HasPending_eq_true_iff]
    exact ⟨set, hset, List.ne_nil_of_mem hmem⟩
  refine ⟨⟨set, hset, hmem⟩, hp, ?_, ?_, ?_⟩
  · intro strRand2 txParam2 vchValue2 o2
    rw [aliasactivate_pending_fails env _ vchName strRand2 txParam2 vchValue2 o2 hp]
  · intro vchValue2 toAddress o2 hb
    rw [aliasupdate_eq, hb]
    simp only [Bool.false_eq_true, if_false]
    rw [updateCheck_of_pending env _ vchName
      ((HasPending_updateKeyState _ toAddress vchName).trans hp)]
    rfl
  · intro vchValue2 toAddress o2 hb
    rw [aliasupdate_eq, hb]
    simp only [if_true]

/-- C5 (amended) at a concrete input: the activation of `exReserved` returns
transaction 21, which is then pending on the name. -/
theorem activate_registers_pending_witness :
    (∃ set, mapFind (aliasactivate exEnv exReserved exName exRandHex none [1]
        exSendOk).2.mapNamePending exName = some set ∧ 21 ∈ set) ∧
    HasPending (aliasactivate exEnv exReserved exName exRandHex none [1] exSendOk).2
      exName = true :=
  ⟨(activate_registers_pending exEnv exReserved exName exRandHex [1] none exSendOk 21 rfl).1,
   (activate_registers_pending exEnv exReserved exName exRandHex [1] none exSendOk 21
      rfl).2.1⟩

/-- C5 as stated fails: after the successful activation of `exReserved`
(transaction 21 is pending on the name), an aliasupdate on the same name that
is given an address that is not valid fails with the invalid-address error,
which is not the pending-operations error. -/
theorem update_after_activate_bad_address :
    (aliasactivate exEnv exReserved exName exRandHex none [1] exSendOk).1 = Except.ok 21 ∧
    HasPending (aliasactivate exEnv exReserved exName exRandHex none [1] exSendOk).2
      exName = true ∧
    (aliasupdate exEnv (aliasactivate exEnv exReserved exName exRandHex none [1] exSendOk).2
      exName [5] (some [1]) exSendOk).1 =
        Except.error (RpcError.json RPCErrorCode.RPC_INVALID_ADDRESS_OR_KEY
          "Invalid syscoin address") ∧
    (aliasupdate exEnv (aliasactivate exEnv exReserved exName exRandHex none [1] exSendOk).2
      exName [5] (some [1]) exSendOk).1 ≠ Except.error pendingErrorAlias := by
  refine ⟨rfl, by decide, rfl, ?_⟩
  intro h
  have h2 : (aliasupdate exEnv
      (aliasactivate exEnv exReserved exName exRandHex none [1] exSendOk).2
      exName [5] (some [1]) exSendOk).1 =
        Except.error (RpcError.json RPCErrorCode.RPC_INVALID_ADDRESS_OR_KEY
          "Invalid syscoin address") := rfl
  rw [h2] at h
  cases h

/-! ## Failure leaves the maps alone -/

/-- C6: a call of aliasactivate that fails (at a precondition check, or at
all) leaves `mapNamePending` and `mapMyNames` exactly as they were: the
guarded `operator[]` accesses insert no key. -/
theorem activate_failure_frame (env : Env) (s : State) (vchName strRand vchValue : Bytes)
    (txParam : Option uint256) (o : SendOracle) (e : RpcError)
    (h : (aliasactivate env s vchName strRand txParam vchValue o).1 = Except.error e) :
    (aliasactivate env s vchName strRand txParam vchValue o).2.mapNamePending =
        s.mapNamePending ∧
    (aliasactivate env s vchName strRand txParam vchValue o).2.mapMyNames = s.mapMyNames := by
  rw [aliasactivate_eq] at h ⊢
  cases hk : activateCheck env s vchName (ParseHex strRand) txParam with
  | pass wtxIn =>
    rw [hk] at h
    have h2 : (sendOutcome (activateSend env s vchName (ParseHex strRand) vchValue wtxIn []
        o)).1 = Except.error e := h
    simp only
    unfold sendOutcome at h2 ⊢
    split at h2
    · rename_i hne
      rw [if_pos hne]
      unfold activateSend SendMoneyWithInputTx at hne ⊢
      rw [sendTx_strError] at hne
      exact ⟨sendTx_pending_of_error _ _ _ _ hne, sendTx_mapMyNames _ _ _ _⟩
    · cases h2
  | _ => exact ⟨rfl, rfl⟩

/-- C6 at a concrete input: the activation of an already claimed name fails
and the two maps are those of `exClaimed`. -/
theorem activate_failure_frame_witness :
    (aliasactivate exEnv exClaimed exName exRandHex none [1] exSendOk).2.mapNamePending = [] ∧
    (aliasactivate exEnv exClaimed exName exRandHex none [1] exSendOk).2.mapMyNames =
      [(exName, 11)] :=
  activate_failure_frame exEnv exClaimed exName exRandHex [1] none exSendOk
    (RpcError.runtime "this alias is already active") rfl

/-! ## aliasnew -/

theorem aliasnew_eq (env : Env) (s : State) (vchName : Bytes) (rand : Nat) (o : SendOracle) :
    aliasnew env s vchName rand o =
      if s.fLocked = true then
        (Except.error (RpcError.json RPCErrorCode.RPC_WALLET_UNLOCK_NEEDED
          "Error: Please enter the wallet passphrase with walletpassphrase first."),
          (GetKeyFromPool s).2)
      else if o.strError ≠ "" then
        (Except.error (RpcError.json RPCErrorCode.RPC_WALLET_ERROR o.strError),
          (sendTx (GetKeyFromPool s).2 o (reserveCall env s vchName rand)
            env.SYSCOIN_TX_VERSION).state)
      else
        (Except.ok (o.hash, HexStr (env.getvch rand)),
          { (sendTx (GetKeyFromPool s).2 o (reserveCall env s vchName rand)
              env.SYSCOIN_TX_VERSION).state with
            mapMyNames := mapAssign s.mapMyNames vchName o.hash }) := by
  unfold aliasnew
  simp only [EnsureWalletIsUnlocked, GetKeyFromPool]
  by_cases hl : s.fLocked = true
  · simp only [if_pos hl]
  · simp only [if_neg hl, SendMoney, sendTx_strError, sendTx_hash, sendTx_mapMyNames]
    rfl

theorem sendTx_mapWallet_of_ok (s : State) (o : SendOracle) (call : SendCall) (v : Int)
    (h : o.strError = "") :
    (sendTx s o call v).state.mapWallet =
      mapAssign s.mapWallet o.hash
        { hash := o.hash, nVersion := v,
          vout := { nValue := call.nValue, scriptPubKey := call.scriptPubKey } :: o.vchange } := by
  unfold sendTx
  rw [if_neg (by simpa using h)]

theorem sendTx_other_fields (s : State) (o : SendOracle) (call : SendCall) (v : Int) :
    (sendTx s o call v).state.fLocked = s.fLocked ∧
    (sendTx s o call v).state.nameDB = s.nameDB ∧
    (sendTx s o call v).state.txDisk = s.txDisk ∧
    (sendTx s o call v).state.nBestHeight = s.nBestHeight ∧
    (sendTx s o call v).state.nKeyPool = s.nKeyPool := by
  unfold sendTx
  split <;> exact ⟨rfl, rfl, rfl, rfl, rfl⟩

theorem DecodeNameScript_reserveScript (hash : Bytes) (key : Nat) :
    DecodeNameScript (reserveScript hash key) = some (OP_ALIAS_NEW, [hash]) := by
  simp [DecodeNameScript, decodePushes, reserveScript, OP_ALIAS_NEW]

theorem registerPending_reserveScript (m : List (Bytes × List uint256)) (hash : Bytes)
    (key : Nat) (h : uint256) : registerPending m (reserveScript hash key) h = m := by
  unfold registerPending
  rw [DecodeNameScript_reserveScript]
  simp

theorem scanVout_reserve (hash : Bytes) (key : Nat) (v : Int) (rest : List CTxOut) :
    scanVout ({ nValue := v, scriptPubKey := reserveScript hash key } :: rest) =
      VoutScan.found hash := by
  unfold scanVout
  rw [DecodeNameScript_reserveScript]
  simp

theorem GetTxOfName_congr (env : Env) (s t : State) (vchName : Bytes)
    (h1 : t.nameDB = s.nameDB) (h2 : t.txDisk = s.txDisk) (h3 : t.nBestHeight = s.nBestHeight) :
    GetTxOfName env t vchName = GetTxOfName env s vchName := by
  unfold GetTxOfName
  rw [h1, h2, h3]

theorem HasPending_congr (s t : State) (vchName : Bytes)
    (h : t.mapNamePending = s.mapNamePending) : HasPending t vchName = HasPending s vchName := by
  unfold HasPending
  rw [h]

/-- The state a successful aliasnew leaves. -/
theorem aliasnew_ok_state (env : Env) (s : State) (vchName : Bytes) (rand : Nat)
    (o : SendOracle) (txid : uint256) (hex : Bytes)
    (hok : (aliasnew env s vchName rand o).1 = Except.ok (txid, hex)) :
    txid = o.hash ∧ hex = HexStr (env.getvch rand) ∧ s.fLocked = false ∧ o.strError = "" ∧
    (aliasnew env s vchName rand o).2.fLocked = false ∧
    (aliasnew env s vchName rand o).2.sendLog = s.sendLog ++ [reserveCall env s vchName rand] ∧
    HasPending (aliasnew env s vchName rand o).2 vchName = HasPending s vchName ∧
    GetTxOfName env (aliasnew env s vchName rand o).2 vchName = GetTxOfName env s vchName ∧
    mapFind (aliasnew env s vchName rand o).2.mapMyNames vchName = some txid ∧
    mapFind (aliasnew env s vchName rand o).2.mapWallet txid =
      some { hash := txid, nVersion := env.SYSCOIN_TX_VERSION,
             vout := { nValue := env.MIN_AMOUNT,
                       scriptPubKey := reserveScript
                         (env.Hash160 (env.getvch rand ++ vchName)) s.nKeyPool } :: o.vchange } := by
  rw [aliasnew_eq] at hok ⊢
  by_cases hl : s.fLocked = true
  · rw [if_pos hl] at hok
    cases hok
  rw [if_neg hl] at hok ⊢
  by_cases he : o.strError ≠ ""
  · rw [if_pos he] at hok
    cases hok
  rw [if_neg he] at hok ⊢
  simp only [ne_eq, not_not] at he
  simp only [Except.ok.injEq, Prod.mk.injEq] at hok
  obtain ⟨h1, h2⟩ := hok
  subst h1 h2
  have hl2 : s.fLocked = false := by simpa using hl
  obtain ⟨f1, f2, f3, f4, _⟩ := sendTx_other_fields (GetKeyFromPool s).2 o
    (reserveCall env s vchName rand) env.SYSCOIN_TX_VERSION
  refine ⟨rfl, rfl, hl2, he, ?_, ?_, ?_, ?_, ?_, ?_⟩
  · exact f1.trans hl2
  · exact sendTx_sendLog _ _ _ _
  · apply HasPending_congr
    show (sendTx _ _ _ _).state.mapNamePending = s.mapNamePending
    rw [sendTx_pending_of_ok _ _ _ _ he]
    exact registerPending_reserveScript _ _ _ _
  · exact GetTxOfName_congr env s _ vchName f2 f3 f4
  · show mapFind (mapAssign s.mapMyNames vchName o.hash) vchName = some o.hash
    rw [mapFind_mapAssign, if_pos rfl]
  · show mapFind (sendTx _ _ _ _).state.mapWallet o.hash = _
    rw [sendTx_mapWallet_of_ok _ _ _ _ he, mapFind_mapAssign, if_pos rfl]
    rfl

/-- C7: a successful aliasnew returns the pair (id of the reservation
transaction, hex of the nonce), has sent one transaction whose output script
is the RESERVE opcode followed by `Hash160(nonce ++ name)`, and has recorded
name -> that id in `mapMyNames`; when it fails (the send fails or the wallet
is locked) `mapMyNames` is unchanged. -/
theorem aliasnew_records_reservation (env : Env) (s : State) (vchName : Bytes) (rand : Nat)
    (o : SendOracle) :
    (∀ txid hex, (aliasnew env s vchName rand o).1 = Except.ok (txid, hex) →
      txid = o.hash ∧ hex = HexStr (env.getvch rand) ∧
      (aliasnew env s vchName rand o).2.sendLog =
        s.sendLog ++ [reserveCall env s vchName rand] ∧
      (reserveCall env s vchName rand).scriptPubKey =
        [ScriptOp.opN OP_ALIAS_NEW,
         ScriptOp.push (env.Hash160 (env.getvch rand ++ vchName)), ScriptOp.OP_2DROP,
         ScriptOp.payTo (CTxDestination.CKeyID s.nKeyPool)] ∧
      (∃ wtx out, mapFind (aliasnew env s vchName rand o).2.mapWallet txid = some wtx ∧
        wtx.hash = txid ∧ out ∈ wtx.vout ∧
        out.scriptPubKey = (reserveCall env s vchName rand).scriptPubKey ∧
        DecodeNameScript out.scriptPubKey =
          some (OP_ALIAS_NEW, [env.Hash160 (env.getvch rand ++ vchName)])) ∧
      mapFind (aliasnew env s vchName rand o).2.mapMyNames vchName = some txid) ∧
    (∀ e, (aliasnew env s vchName rand o).1 = Except.error e →
      (aliasnew env s vchName rand o).2.mapMyNames = s.mapMyNames) := by
  constructor
  · intro txid hex hok
    obtain ⟨h1, h2, _, _, _, h6, _, _, h9, h10⟩ :=
      aliasnew_ok_state env s vchName rand o txid hex hok
    refine ⟨h1, h2, h6, rfl, ⟨_, _, h10, rfl, List.mem_cons_self _ _, rfl, ?_⟩, h9⟩
    exact DecodeNameScript_reserveScript _ _
  · intro e he
    rw [aliasnew_eq] at he ⊢
    by_cases hl : s.fLocked = true
    · rw [if_pos hl]
      rfl
    rw [if_neg hl] at he ⊢
    by_cases hs : o.strError ≠ ""
    · rw [if_pos hs]
      exact sendTx_mapMyNames _ _ _ _
    · rw [if_neg hs] at he
      cases he

/-- C7 at concrete inputs: aliasnew on `exReserved` with a send that succeeds
returns (21, "07ab") and records 21; with a send that fails the record stays
11. -/
theorem aliasnew_records_reservation_witness :
    (21 = exSendOk.hash ∧ exRandHex = HexStr (exEnv.getvch 43783) ∧
      (aliasnew exEnv exReserved exName 43783 exSendOk).2.sendLog =
        exReserved.sendLog ++ [reserveCall exEnv exReserved exName 43783] ∧
      (reserveCall exEnv exReserved exName 43783).scriptPubKey =
        [ScriptOp.opN OP_ALIAS_NEW,
         ScriptOp.push (exEnv.Hash160 (exEnv.getvch 43783 ++ exName)), ScriptOp.OP_2DROP,
         ScriptOp.payTo (CTxDestination.CKeyID exReserved.nKeyPool)] ∧
      (∃ wtx out, mapFind (aliasnew exEnv exReserved exName 43783 exSendOk).2.mapWallet 21 =
          some wtx ∧
        wtx.hash = 21 ∧ out ∈ wtx.vout ∧
        out.scriptPubKey = (reserveCall exEnv exReserved exName 43783).scriptPubKey ∧
        DecodeNameScript out.scriptPubKey =
          some (OP_ALIAS_NEW, [exEnv.Hash160 (exEnv.getvch 43783 ++ exName)])) ∧
      mapFind (aliasnew exEnv exReserved exName 43783 exSendOk).2.mapMyNames exName =
        some 21) ∧
    (aliasnew exEnv exReserved exName 43783 exSendFail).2.mapMyNames = [(exName, 11)] :=
  ⟨(aliasnew_records_reservation exEnv exReserved exName 43783 exSendOk).1 21 exRandHex rfl,
   (aliasnew_records_reservation exEnv exReserved exName 43783 exSendFail).2
      (RpcError.json RPCErrorCode.RPC_WALLET_ERROR "Insufficient funds") rfl⟩

/-! ## The hex round trip and the commitment round trip -/

theorem hexmap_digit : ∀ n : Fin 16,
    isspace (hexmap n.val) = false ∧ phexdigit (hexmap n.val) = some n.val := by
  decide

theorem byte_of_nibbles (b : Byte) : (Fin.ofNat (b.val / 16 * 16 + b.val % 16) : Byte) = b := by
  apply Fin.ext
  simp only [Fin.ofNat, Fin.val_mk]
  have := b.isLt
  omega

theorem ParseHex_HexStr (v : Bytes) : ParseHex (HexStr v) = v := by
  induction v with
  | nil => rfl
  | cons b rest ih =>
    have hhi : b.val / 16 < 16 := by
      have := b.isLt
      omega
    have hlo : b.val % 16 < 16 := Nat.mod_lt _ (by decide)
    obtain ⟨s1, d1⟩ := hexmap_digit ⟨b.val / 16, hhi⟩
    obtain ⟨_, d2⟩ := hexmap_digit ⟨b.val % 16, hlo⟩
    simp only [Fin.val_mk] at s1 d1 d2
    simp only [HexStr, ParseHex, s1, d1, d2, Bool.false_eq_true, if_false, ih,
      byte_of_nibbles]

/-- C8: after a successful aliasnew for a name, the hex nonce it returned
parses back to the nonce, and `Hash160` of the re-derived nonce followed by
the name is the commitment stored in the RESERVE output of the transaction
aliasnew recorded; so, the name being neither pending nor active, an
aliasactivate with that hex nonce (with no `<tx>`, or with the returned id)
passes every check and goes on to its send. -/
theorem reserve_then_activate (env : Env) (s : State) (vchName : Bytes) (rand : Nat)
    (o : SendOracle) (txid : uint256) (hex : Bytes)
    (hok : (aliasnew env s vchName rand o).1 = Except.ok (txid, hex)) :
    ParseHex hex = env.getvch rand ∧
    ∃ wtxIn, mapFind (aliasnew env s vchName rand o).2.mapMyNames vchName = some txid ∧
      mapFind (aliasnew env s vchName rand o).2.mapWallet txid = some wtxIn ∧
      scanVout wtxIn.vout = VoutScan.found (env.Hash160 (ParseHex hex ++ vchName)) ∧
      (HasPending s vchName = false → GetTxOfName env s vchName = none →
        ∀ txParam vchValue o2, txParam = none ∨ txParam = some txid →
          activateCheck env (aliasnew env s vchName rand o).2 vchName (ParseHex hex) txParam =
            ActivateCheck.pass wtxIn ∧
          aliasactivate env (aliasnew env s vchName rand o).2 vchName hex txParam vchValue o2 =
            sendOutcome (activateSend env (aliasnew env s vchName rand o).2 vchName
              (ParseHex hex) vchValue wtxIn [] o2)) := by
  obtain ⟨_, h2, _, _, h5, _, h7, h8, h9, h10⟩ :=
    aliasnew_ok_state env s vchName rand o txid hex hok
  have hrt : ParseHex hex = env.getvch rand := by
    rw [h2]
    exact ParseHex_HexStr _
  refine ⟨hrt, _, h9, h10, ?_, ?_⟩
  · rw [hrt]
    exact scanVout_reserve _ _ _ _
  · intro hp hg txParam vchValue o2 ht
    have hr : resolveWtxIn (aliasnew env s vchName rand o).2 vchName txParam = some txid := by
      rcases ht with ht | ht
      · rw [ht]
        exact h9
      · rw [ht]
        rfl
    have hk := (activateCheck_pass_iff env (aliasnew env s vchName rand o).2 vchName
      (ParseHex hex) txParam _).2
      ⟨h7.trans hp, h8.trans hg, h5, txid, hr, h10, by
        rw [hrt]
        exact scanVout_reserve _ _ _ _⟩
    refine ⟨hk, ?_⟩
    rw [aliasactivate_eq, hk]

/-- C8 at a concrete input: aliasnew for `exName` on a wallet without a
record, then aliasactivate with the returned hex nonce `"07ab"`: the hex
parses back to the nonce and every check passes. -/
theorem reserve_then_activate_witness :
    ParseHex exRandHex = exEnv.getvch 43783 ∧
    ∃ wtxIn, activateCheck exEnv (aliasnew exEnv exNoRecord exName 43783 exSendOk).2 exName
      (ParseHex exRandHex) none = ActivateCheck.pass wtxIn := by
  obtain ⟨h1, w, _, _, _, h5⟩ :=
    reserve_then_activate exEnv exNoRecord exName 43783 exSendOk 21 exRandHex rfl
  exact ⟨h1, w, (h5 (by decide) (by decide) none [1] exSendOk (Or.inl rfl)).1⟩

/-- C9: after a successful aliasnew for a name with nonce `nonce`, the name
being neither pending nor active, an aliasactivate called with a nonce
`nonce2` such that `Hash160` differs on `nonce ++ name` and `nonce2 ++ name`
(so `nonce2` is another nonce, and the hash does not collide on the two)
fails with the different-random-value error and sends nothing. -/
theorem activate_other_nonce_rejected (env : Env) (s : State) (vchName : Bytes) (rand : Nat)
    (o : SendOracle) (txid : uint256) (hex strRand2 : Bytes)
    (hok : (aliasnew env s vchName rand o).1 = Except.ok (txid, hex))
    (hp : HasPending s vchName = false) (hg : GetTxOfName env s vchName = none)
    (hcol : env.Hash160 (env.getvch rand ++ vchName) ≠
      env.Hash160 (ParseHex strRand2 ++ vchName))
    (txParam : Option uint256) (vchValue : Bytes) (o2 : SendOracle)
    (ht : txParam = none ∨ txParam = some txid) :
    (aliasactivate env (aliasnew env s vchName rand o).2 vchName strRand2 txParam vchValue
        o2).1 = Except.error (RpcError.runtime "previous tx used a different random value") ∧
    (aliasactivate env (aliasnew env s vchName rand o).2 vchName strRand2 txParam vchValue
        o2).2.sendLog = (aliasnew env s vchName rand o).2.sendLog := by
  obtain ⟨_, _, _, _, h5, _, h7, h8, h9, h10⟩ :=
    aliasnew_ok_state env s vchName rand o txid hex hok
  have hr : resolveWtxIn (aliasnew env s vchName rand o).2 vchName txParam = some txid := by
    rcases ht with ht | ht
    · rw [ht]
      exact h9
    · rw [ht]
      rfl
  have hk : activateCheck env (aliasnew env s vchName rand o).2 vchName (ParseHex strRand2)
      txParam = ActivateCheck.mismatch := by
    simp only [activateCheck, pendingCond_eq_HasPending, h7, hp, h8, hg, h5, hr, h10,
      scanVout_reserve, Bool.false_eq_true, if_false, ne_eq, hcol, not_false_eq_true, if_true]
  rw [aliasactivate_eq, hk]
  exact ⟨rfl, rfl⟩

/-- C9 at a concrete input: aliasnew with nonce `07ab`, then aliasactivate
with `07ac`. -/
theorem activate_other_nonce_rejected_witness :
    (aliasactivate exEnv (aliasnew exEnv exNoRecord exName 43783 exSendOk).2 exName exOtherHex
        none [1] exSendOk).1 =
      Except.error (RpcError.runtime "previous tx used a different random value") ∧
    (aliasactivate exEnv (aliasnew exEnv exNoRecord exName 43783 exSendOk).2 exName exOtherHex
        none [1] exSendOk).2.sendLog =
      (aliasnew exEnv exNoRecord exName 43783 exSendOk).2.sendLog :=
  activate_other_nonce_rejected exEnv exNoRecord exName 43783 exSendOk 21 exRandHex exOtherHex
    rfl (by decide) (by decide) (by decide) none [1] exSendOk (Or.inl rfl)

/-! ## The reservation record -/

theorem aliasactivate_mapMyNames (env : Env) (s : State) (vchName strRand vchValue : Bytes)
    (txParam : Option uint256) (o : SendOracle) :
    (aliasactivate env s vchName strRand txParam vchValue o).2.mapMyNames = s.mapMyNames := by
  rw [aliasactivate_eq]
  cases hk : activateCheck env s vchName (ParseHex strRand) txParam with
  | pass wtxIn =>
    simp only
    unfold sendOutcome
    split <;> exact sendTx_mapMyNames _ _ _ _
  | _ => rfl

theorem mapMyNames_updateKeyState (s : State) (a : Option Bytes) :
    (updateKeyState s a).mapMyNames = s.mapMyNames := by
  cases a <;> rfl

theorem aliasupdate_mapMyNames (env : Env) (s : State) (vchName vchValue : Bytes)
    (toAddress : Option Bytes) (o : SendOracle) :
    (aliasupdate env s vchName vchValue toAddress o).2.mapMyNames = s.mapMyNames := by
  rw [aliasupdate_eq]
  split
  · rfl
  cases hk : updateCheck env (updateKeyState s toAddress) vchName with
  | pass wtxIn =>
    simp only
    unfold sendOutcome
    split <;> exact (sendTx_mapMyNames _ _ _ _).trans (mapMyNames_updateKeyState s toAddress)
  | _ => exact mapMyNames_updateKeyState s toAddress

theorem aliasnew_error_mapMyNames (env : Env) (s : State) (vchName : Bytes)
    (rand : Nat) (o : SendOracle) (e : RpcError)
    (he : (aliasnew env s vchName rand o).1 = Except.error e) :
    (aliasnew env s vchName rand o).2.mapMyNames = s.mapMyNames := by
  rw [aliasnew_eq] at he ⊢
  by_cases hl : s.fLocked = true
  · rw [if_pos hl]
    rfl
  rw [if_neg hl] at he ⊢
  by_cases hs : o.strError ≠ ""
  · rw [if_pos hs]
    exact sendTx_mapMyNames _ _ _ _
  · rw [if_neg hs] at he
    cases he

/-- C10 (amended): aliasactivate and aliasupdate never change `mapMyNames`;
an aliasnew that fails, or one for another name, leaves the reservation
recorded for a name as it was; a successful aliasnew for the same name
replaces the recorded transaction id by the id of the new reservation. -/
theorem reservation_record_frame (env : Env) (s : State) (vchName : Bytes) :
    (∀ vchName2 strRand txParam vchValue o,
      (aliasactivate env s vchName2 strRand txParam vchValue o).2.mapMyNames = s.mapMyNames) ∧
    (∀ vchName2 vchValue toAddress o,
      (aliasupdate env s vchName2 vchValue toAddress o).2.mapMyNames = s.mapMyNames) ∧
    (∀ vchName2 rand o e, (aliasnew env s vchName2 rand o).1 = Except.error e →
      (aliasnew env s vchName2 rand o).2.mapMyNames = s.mapMyNames) ∧
    (∀ vchName2 rand o, vchName2 ≠ vchName →
      mapFind (aliasnew env s vchName2 rand o).2.mapMyNames vchName =
        mapFind s.mapMyNames vchName) ∧
    (∀ rand o txid hex, (aliasnew env s vchName rand o).1 = Except.ok (txid, hex) →
      mapFind (aliasnew env s vchName rand o).2.mapMyNames vchName = some txid ∧
      txid = o.hash) := by
  refine ⟨fun n2 r t v o => aliasactivate_mapMyNames env s n2 r v t o,
    fun n2 v a o => aliasupdate_mapMyNames env s n2 v a o,
    fun n2 rand o e he => (aliasnew_error_mapMyNames env s n2 rand o e he), ?_, ?_⟩
  · intro n2 rand o hne
    rw [aliasnew_eq]
    by_cases hl : s.fLocked = true
    · rw [if_pos hl]
      rfl
    rw [if_neg hl]
    by_cases hs : o.strError ≠ ""
    · rw [if_pos hs, sendTx_mapMyNames]
      rfl
    · rw [if_neg hs]
      show mapFind (mapAssign s.mapMyNames n2 o.hash) vchName = _
      rw [mapFind_mapAssign, if_neg (Ne.symm hne)]
  · intro rand o txid hex hok
    obtain ⟨h1, _, _, _, _, _, _, _, h9, _⟩ := aliasnew_ok_state env s vchName rand o txid hex hok
    exact ⟨h9, h1⟩

/-- C10 (amended) at concrete inputs: on `exReserved`, which records
reservation 11 for `exName`, an aliasnew for another name leaves the record,
and a successful aliasnew for `exName` records the new id 21. -/
theorem reservation_record_frame_witness :
    mapFind (aliasnew exEnv exReserved [120] 43783 exSendOk).2.mapMyNames exName =
        mapFind exReserved.mapMyNames exName ∧
    (mapFind (aliasnew exEnv exReserved exName 43783 exSendOk).2.mapMyNames exName = some 21 ∧
      21 = exSendOk.hash) :=
  ⟨(reservation_record_frame exEnv exReserved exName).2.2.2.1 [120] 43783 exSendOk
      (by decide),
   (reservation_record_frame exEnv exReserved exName).2.2.2.2 43783 exSendOk 21 exRandHex
      rfl⟩

/-- C10 as stated fails: `exReserved` records reservation 11 for `exName`; a
second aliasnew for the same name succeeds with transaction 21 and the record
for the name is 21 afterwards. -/
theorem second_aliasnew_replaces_record :
    mapFind exReserved.mapMyNames exName = some 11 ∧
    (aliasnew exEnv exReserved exName 43783 exSendOk).1 = Except.ok (21, exRandHex) ∧
    mapFind (aliasnew exEnv exReserved exName 43783 exSendOk).2.mapMyNames exName = some 21 ∧
    mapFind (aliasnew exEnv exReserved exName 43783 exSendOk).2.mapMyNames exName ≠
      mapFind exReserved.mapMyNames exName :=
  ⟨by decide, rfl, by decide, by decide⟩

/-! ## The fee of an activation -/

theorem wrap64_of_range (x : Int) (h1 : -2 ^ 63 ≤ x) (h2 : x < 2 ^ 63) : wrap64 x = x := by
  unfold wrap64
  rw [Int.emod_eq_of_lt (by omega) (by omega)]
  omega

theorem roundUp_of_nonneg (env : Env) (raw : Int) (hc : 0 < env.CENT)
    (h0 : 0 ≤ raw + (env.CENT - 1)) (h2 : raw + (env.CENT - 1) < 2 ^ 63) :
    roundUpToCENT env raw = (raw + (env.CENT - 1)) / env.CENT * env.CENT := by
  unfold roundUpToCENT
  rw [wrap64_of_range _ (by omega) h2, Int.tdiv_eq_ediv h0 (le_of_lt hc)]
  have h3 : (raw + (env.CENT - 1)) / env.CENT * env.CENT ≤ raw + (env.CENT - 1) :=
    Int.ediv_mul_le _ (ne_of_gt hc)
  have h4 : 0 ≤ (raw + (env.CENT - 1)) / env.CENT := Int.ediv_nonneg h0 (le_of_lt hc)
  have h5 : 0 ≤ (raw + (env.CENT - 1)) / env.CENT * env.CENT := Int.mul_nonneg h4 (le_of_lt hc)
  exact wrap64_of_range _ (by omega) (by omega)

theorem roundUp_eq_ceil (env : Env) (raw : Int) (hc : 0 < env.CENT)
    (h0 : -env.CENT < raw) (h2 : raw + (env.CENT - 1) < 2 ^ 63) :
    roundUpToCENT env raw = ⌈(raw : ℚ) / (env.CENT : ℚ)⌉ * env.CENT := by
  rw [roundUp_of_nonneg env raw hc (by omega) h2]
  congr 1
  symm
  rw [Int.ceil_eq_iff]
  have hcq : (0 : ℚ) < (env.CENT : ℚ) := by exact_mod_cast hc
  have h3 : (raw + (env.CENT - 1)) / env.CENT * env.CENT ≤ raw + (env.CENT - 1) :=
    Int.ediv_mul_le _ (ne_of_gt hc)
  have h4 : raw + (env.CENT - 1) < ((raw + (env.CENT - 1)) / env.CENT + 1) * env.CENT :=
    Int.lt_ediv_add_one_mul_self _ hc
  constructor
  · rw [lt_div_iff₀ hcq]
    have : ((raw + (env.CENT - 1)) / env.CENT - 1) * env.CENT < raw := by
      have e : ((raw + (env.CENT - 1)) / env.CENT - 1) * env.CENT =
          (raw + (env.CENT - 1)) / env.CENT * env.CENT - env.CENT := by ring
      omega
    exact_mod_cast this
  · rw [div_le_iff₀ hcq]
    have : raw ≤ (raw + (env.CENT - 1)) / env.CENT * env.CENT := by
      have e : ((raw + (env.CENT - 1)) / env.CENT + 1) * env.CENT =
          (raw + (env.CENT - 1)) / env.CENT * env.CENT + env.CENT := by ring
      omega
    exact_mod_cast this

/-- C11: when aliasactivate reaches transaction construction, the fee it
hands over is `ceil(raw / CENT) * CENT`, where `raw` is what
`GetAliasNetworkFee` returns at the current best height (CENT positive, the
raw fee above `-CENT` and small enough for `raw + CENT - 1` to fit in an
`int64`). -/
theorem activate_fee_is_ceil (env : Env) (s : State) (vchName strRand vchValue : Bytes)
    (txParam : Option uint256) (o : SendOracle) (hc : 0 < env.CENT)
    (h0 : -env.CENT < env.GetAliasNetworkFee s.nBestHeight)
    (h2 : env.GetAliasNetworkFee s.nBestHeight + (env.CENT - 1) < 2 ^ 63)
    (hsend : (aliasactivate env s vchName strRand txParam vchValue o).2.sendLog ≠ s.sendLog) :
    ∃ call, (aliasactivate env s vchName strRand txParam vchValue o).2.sendLog =
        s.sendLog ++ [call] ∧
      call.nNetFee =
        ⌈(env.GetAliasNetworkFee s.nBestHeight : ℚ) / (env.CENT : ℚ)⌉ * env.CENT := by
  rcases aliasactivate_sendLog env s vchName strRand txParam vchValue o with
    ⟨wtxIn, _, hlog⟩ | ⟨_, _, hsame⟩
  · exact ⟨_, hlog, roundUp_eq_ceil env _ hc h0 h2⟩
  · exact absurd hsame hsend

/-- C11 at a concrete input: at best height 50 the raw fee is 2500050 and
CENT is 1000000; the activation of `exReserved` hands over 3000000. -/
theorem activate_fee_is_ceil_witness :
    ∃ call, (aliasactivate exEnv exReserved exName exRandHex none [1] exSendOk).2.sendLog =
        exReserved.sendLog ++ [call] ∧
      call.nNetFee =
        ⌈(exEnv.GetAliasNetworkFee exReserved.nBestHeight : ℚ) / (exEnv.CENT : ℚ)⌉ *
          exEnv.CENT :=
  activate_fee_is_ceil exEnv exReserved exName exRandHex [1] none exSendOk (by decide)
    (by decide) (by decide) (by decide)

/-- C12: for every height, the rounding step of aliasactivate (add
`CENT - 1`, divide by CENT, multiply by CENT, on an `int64`) gives a multiple
of CENT that is at least the raw network fee at that height (CENT positive,
the raw fee an `int64` small enough for `raw + CENT - 1` to fit in an
`int64`). -/
theorem fee_rounding_bounds (env : Env) (h : Int) (hc : 0 < env.CENT)
    (h1 : -2 ^ 63 ≤ env.GetAliasNetworkFee h)
    (h2 : env.GetAliasNetworkFee h + (env.CENT - 1) < 2 ^ 63) :
    env.CENT ∣ roundUpToCENT env (env.GetAliasNetworkFee h) ∧
    env.GetAliasNetworkFee h ≤ roundUpToCENT env (env.GetAliasNetworkFee h) := by
  by_cases h0 : 0 ≤ env.GetAliasNetworkFee h + (env.CENT - 1)
  · rw [roundUp_of_nonneg env _ hc h0 h2]
    refine ⟨Dvd.intro_left _ rfl, ?_⟩
    have h4 := Int.lt_ediv_add_one_mul_self (env.GetAliasNetworkFee h + (env.CENT - 1)) hc
    have e : ((env.GetAliasNetworkFee h + (env.CENT - 1)) / env.CENT + 1) * env.CENT =
        (env.GetAliasNetworkFee h + (env.CENT - 1)) / env.CENT * env.CENT + env.CENT := by ring
    omega
  · have hx : 0 ≤ -(env.GetAliasNetworkFee h + (env.CENT - 1)) := by omega
    unfold roundUpToCENT
    rw [wrap64_of_range _ (by omega) h2]
    have e1 : (env.GetAliasNetworkFee h + (env.CENT - 1)).tdiv env.CENT =
        -((-(env.GetAliasNetworkFee h + (env.CENT - 1))) / env.CENT) := by
      rw [← Int.tdiv_eq_ediv hx (le_of_lt hc), Int.neg_tdiv, neg_neg]
    rw [e1]
    have h3 : (-(env.GetAliasNetworkFee h + (env.CENT - 1))) / env.CENT * env.CENT ≤
        -(env.GetAliasNetworkFee h + (env.CENT - 1)) := Int.ediv_mul_le _ (ne_of_gt hc)
    have h4 : 0 ≤ (-(env.GetAliasNetworkFee h + (env.CENT - 1))) / env.CENT :=
      Int.ediv_nonneg hx (le_of_lt hc)
    have h5 : 0 ≤ (-(env.GetAliasNetworkFee h + (env.CENT - 1))) / env.CENT * env.CENT :=
      Int.mul_nonneg h4 (le_of_lt hc)
    have e2 : -((-(env.GetAliasNetworkFee h + (env.CENT - 1))) / env.CENT) * env.CENT =
        -((-(env.GetAliasNetworkFee h + (env.CENT - 1))) / env.CENT * env.CENT) := by ring
    rw [e2, wrap64_of_range _ (by omega) (by omega)]
    refine ⟨?_, by omega⟩
    exact (Int.dvd_neg).2 (Dvd.intro_left _ rfl)

/-- C12 at a concrete input: at height 50 the raw fee 2500050 is rounded to a
multiple of 1000000 that is not below it. -/
theorem fee_rounding_bounds_witness :
    exEnv.CENT ∣ roundUpToCENT exEnv (exEnv.GetAliasNetworkFee 50) ∧
    exEnv.GetAliasNetworkFee 50 ≤ roundUpToCENT exEnv (exEnv.GetAliasNetworkFee 50) :=
  fee_rounding_bounds exEnv 50 (by decide) (by decide) (by decide)

/-! ## Expiration as the read-only commands report it -/

theorem nameObject_expires_in (renv : ReadEnv) (s : State) (vchName : Bytes)
    (tx : CTransaction) (vchValue : Bytes) (a : Int) :
    (∀ v, ("expires_in", v) ∈ nameObject renv s vchName tx vchValue a ↔
      v = Value.int (a + renv.GetNameDisplayExpirationDepth a - s.nBestHeight)) ∧
    (("expired", Value.int 1) ∈ nameObject renv s vchName tx vchValue a ↔
      a + renv.GetNameDisplayExpirationDepth a - s.nBestHeight ≤ 0) := by
  unfold nameObject expiresIn
  constructor
  · intro v
    split <;> simp
  · split
    · rename_i h
      simp [h]
    · rename_i h
      simp [h]

theorem aliasshow_of_last (renv : ReadEnv) (s : State) (vchName : Bytes)
    (vtxPos : List CNameIndex) (txPos : CNameIndex) (hr : ReadName s vchName = some vtxPos)
    (hl : vtxPos.getLast? = some txPos) :
    aliasshow renv s vchName =
      match GetTransaction s txPos.txHash with
      | none => Except.error (RpcError.json RPCErrorCode.RPC_WALLET_ERROR
          "failed to read transaction from disk")
      | some tx =>
        match renv.GetValueOfNameTxHash txPos.txHash with
        | some (vchValue, _, nHeight) => Except.ok (nameObject renv s vchName tx vchValue nHeight)
        | none => Except.ok [] := by
  unfold aliasshow
  rw [hr]
  cases vtxPos with
  | nil => simp at hl
  | cons r rest =>
    have hlen : ¬ (r :: rest).length < 1 := by simp
    have hd : (r :: rest).getLastD { txHash := 0, nHeight := 0, vValue := [] } = txPos := by
      rw [List.getLast?_eq_getLast _ (List.cons_ne_nil r rest)] at hl
      simp only [Option.some.injEq] at hl
      rw [← hl, List.getLastD_cons, List.getLast_eq_getLastD]
    simp only [if_neg hlen, hd]

theorem aliasshow_ok_last (renv : ReadEnv) (s : State) (vchName : Bytes) (obj : Object)
    (h : aliasshow renv s vchName = Except.ok obj) (hne : obj ≠ []) :
    ∃ vtxPos txPos tx vchValue hash a, ReadName s vchName = some vtxPos ∧
      vtxPos.getLast? = some txPos ∧ GetTransaction s txPos.txHash = some tx ∧
      renv.GetValueOfNameTxHash txPos.txHash = some (vchValue, hash, a) ∧
      obj = nameObject renv s vchName tx vchValue a := by
  cases hr : ReadName s vchName with
  | none =>
    unfold aliasshow at h
    rw [hr] at h
    cases h
  | some vtxPos =>
    cases hl : vtxPos.getLast? with
    | none =>
      have hnil : vtxPos = [] := List.getLast?_eq_none_iff.mp hl
      unfold aliasshow at h
      rw [hr, hnil] at h
      simp at h
    | some txPos =>
      rw [aliasshow_of_last renv s vchName vtxPos txPos hr hl] at h
      cases hg : GetTransaction s txPos.txHash with
      | none =>
        rw [hg] at h
        cases h
      | some tx =>
        rw [hg] at h
        cases hv : renv.GetValueOfNameTxHash txPos.txHash with
        | none =>
          rw [hv] at h
          simp only [Except.ok.injEq] at h
          exact absurd h.symm hne
        | some v =>
          obtain ⟨vchValue, hash, a⟩ := v
          rw [hv] at h
          simp only [Except.ok.injEq] at h
          exact ⟨vtxPos, txPos, tx, vchValue, hash, a, rfl, hl, hg, hv, h.symm⟩

theorem aliashistoryLoop_forall₂ (renv : ReadEnv) (s : State) (vchName : Bytes)
    (vtxPos : List CNameIndex) :
    List.Forall₂
      (fun txPos obj => ∃ tx vchValue hash a, GetTransaction s txPos.txHash = some tx ∧
        renv.GetValueOfNameTxHash txPos.txHash = some (vchValue, hash, a) ∧
        obj = nameObject renv s vchName tx vchValue a)
      (vtxPos.filter (fun txPos =>
        (GetTransaction s txPos.txHash).isSome && (renv.GetValueOfNameTxHash txPos.txHash).isSome))
      (aliashistoryLoop renv s vchName vtxPos) := by
  induction vtxPos with
  | nil => exact List.Forall₂.nil
  | cons txPos2 rest ih =>
    unfold aliashistoryLoop
    cases hg : GetTransaction s txPos2.txHash with
    | none =>
      rw [List.filter_cons_of_neg (by simp [hg])]
      exact ih
    | some tx =>
      cases hv : renv.GetValueOfNameTxHash txPos2.txHash with
      | none =>
        rw [List.filter_cons_of_neg (by simp [hv])]
        exact ih
      | some v =>
        obtain ⟨vchValue, hash, a⟩ := v
        rw [List.filter_cons_of_pos (by simp [hg, hv])]
        exact List.Forall₂.cons ⟨tx, vchValue, hash, a, hg, hv, rfl⟩ ih

/-- C13: aliasshow and aliashistory report, for the record they read, the
height `a` that is found for that record's transaction and the current height
`h`: `expires_in = a + expirationDepth(a) - h`, with the expired flag exactly
when that value is `<= 0` (flagged at 0, not flagged at 1). aliasshow reads the
last record of the history: when its transaction and value can be read the
command returns such an entry, and every non-empty entry it returns is of that
record. aliashistory returns one such entry for each stored record whose
transaction and value can be read, record by record in stored order. -/
theorem show_history_expiry (renv : ReadEnv) (s : State) (vchName : Bytes) :
    (∀ vtxPos txPos tx vchValue hash a, ReadName s vchName = some vtxPos →
      vtxPos.getLast? = some txPos → GetTransaction s txPos.txHash = some tx →
      renv.GetValueOfNameTxHash txPos.txHash = some (vchValue, hash, a) →
      ∃ obj, aliasshow renv s vchName = Except.ok obj ∧
        (∀ v, ("expires_in", v) ∈ obj ↔
          v = Value.int (a + renv.GetNameDisplayExpirationDepth a - s.nBestHeight)) ∧
        (("expired", Value.int 1) ∈ obj ↔
          a + renv.GetNameDisplayExpirationDepth a - s.nBestHeight ≤ 0) ∧
        (a + renv.GetNameDisplayExpirationDepth a - s.nBestHeight = 0 →
          ("expired", Value.int 1) ∈ obj) ∧
        (a + renv.GetNameDisplayExpirationDepth a - s.nBestHeight = 1 →
          ("expired", Value.int 1) ∉ obj)) ∧
    (∀ obj, aliasshow renv s vchName = Except.ok obj → obj ≠ [] →
      ∃ vtxPos txPos tx vchValue hash a, ReadName s vchName = some vtxPos ∧
        vtxPos.getLast? = some txPos ∧ GetTransaction s txPos.txHash = some tx ∧
        renv.GetValueOfNameTxHash txPos.txHash = some (vchValue, hash, a) ∧
        (∀ v, ("expires_in", v) ∈ obj ↔
          v = Value.int (a + renv.GetNameDisplayExpirationDepth a - s.nBestHeight)) ∧
        (("expired", Value.int 1) ∈ obj ↔
          a + renv.GetNameDisplayExpirationDepth a - s.nBestHeight ≤ 0)) ∧
    (∀ vtxPos, ReadName s vchName = some vtxPos →
      ∃ oRes, aliashistory renv s vchName = Except.ok oRes ∧
        List.Forall₂
          (fun txPos obj => ∃ tx vchValue hash a, GetTransaction s txPos.txHash = some tx ∧
            renv.GetValueOfNameTxHash txPos.txHash = some (vchValue, hash, a) ∧
            (∀ v, ("expires_in", v) ∈ obj ↔
              v = Value.int (a + renv.GetNameDisplayExpirationDepth a - s.nBestHeight)) ∧
            (("expired", Value.int 1) ∈ obj ↔
              a + renv.GetNameDisplayExpirationDepth a - s.nBestHeight ≤ 0) ∧
            (a + renv.GetNameDisplayExpirationDepth a - s.nBestHeight = 0 →
              ("expired", Value.int 1) ∈ obj) ∧
            (a + renv.GetNameDisplayExpirationDepth a - s.nBestHeight = 1 →
              ("expired", Value.int 1) ∉ obj))
          (vtxPos.filter (fun txPos =>
            (GetTransaction s txPos.txHash).isSome &&
              (renv.GetValueOfNameTxHash txPos.txHash).isSome))
          oRes) := by
  have flag0 : ∀ (obj : Object) (a : Int),
      (("expired", Value.int 1) ∈ obj ↔
        a + renv.GetNameDisplayExpirationDepth a - s.nBestHeight ≤ 0) →
      (a + renv.GetNameDisplayExpirationDepth a - s.nBestHeight = 0 →
          ("expired", Value.int 1) ∈ obj) ∧
        (a + renv.GetNameDisplayExpirationDepth a - s.nBestHeight = 1 →
          ("expired", Value.int 1) ∉ obj) := by
    intro obj a hiff
    constructor
    · intro h0
      exact hiff.mpr (by omega)
    · intro h1 hm
      have := hiff.mp hm
      omega
  refine ⟨?_, ?_, ?_⟩
  · intro vtxPos txPos tx vchValue hash a hr hl hg hv
    refine ⟨nameObject renv s vchName tx vchValue a, ?_, ?_⟩
    · rw [aliasshow_of_last renv s vchName vtxPos txPos hr hl, hg]
      simp only [hv]
    · have he := nameObject_expires_in renv s vchName tx vchValue a
      exact ⟨he.1, he.2, flag0 _ a he.2⟩
  · intro obj h hne
    obtain ⟨vtxPos, txPos, tx, vchValue, hash, a, hr, hl, hg, hv, ho⟩ :=
      aliasshow_ok_last renv s vchName obj h hne
    rw [ho]
    exact ⟨vtxPos, txPos, tx, vchValue, hash, a, hr, hl, hg, hv,
      nameObject_expires_in renv s vchName tx vchValue a⟩
  · intro vtxPos hr
    refine ⟨aliashistoryLoop renv s vchName vtxPos, ?_, ?_⟩
    · unfold aliashistory
      rw [hr]
    · refine (aliashistoryLoop_forall₂ renv s vchName vtxPos).imp ?_
      rintro txPos obj ⟨tx, vchValue, hash, a, hg, hv, ho⟩
      rw [ho]
      have he := nameObject_expires_in renv s vchName tx vchValue a
      exact ⟨tx, vchValue, hash, a, hg, hv, he.1, he.2, flag0 _ a he.2⟩

/-- C13 on the example index, whose name `exName` has the records of heights
40 and 60 with depth 100. At best height 150 aliasshow returns the entry of the
last record with `expires_in = 10` and no flag; at best height 160 its entry
has `expires_in = 0` and is flagged, at 159 it has `expires_in = 1` and is not.
At best height 160 aliashistory returns two entries, for the records of
heights 40 and 60 in that order, both flagged. -/
theorem show_history_expiry_witness :
    (∃ obj, aliasshow exReadEnv exIndex exName = Except.ok obj ∧
      ("expires_in", Value.int 10) ∈ obj ∧ ("expired", Value.int 1) ∉ obj) ∧
    (∃ obj, aliasshow exReadEnv exIndexAt160 exName = Except.ok obj ∧
      ("expires_in", Value.int 0) ∈ obj ∧ ("expired", Value.int 1) ∈ obj) ∧
    (∃ obj, aliasshow exReadEnv exIndexAt159 exName = Except.ok obj ∧
      ("expires_in", Value.int 1) ∈ obj ∧ ("expired", Value.int 1) ∉ obj) ∧
    (∃ obj1 obj2, aliashistory exReadEnv exIndexAt160 exName = Except.ok [obj1, obj2] ∧
      ("expires_in", Value.int (-20)) ∈ obj1 ∧ ("expired", Value.int 1) ∈ obj1 ∧
      ("expires_in", Value.int 0) ∈ obj2 ∧ ("expired", Value.int 1) ∈ obj2) := by
  have hist : ([{ txHash := 12, nHeight := 40, vValue := [1] },
      { txHash := 15, nHeight := 60, vValue := [2] }] : List CNameIndex).getLast? =
        some { txHash := 15, nHeight := 60, vValue := [2] } := rfl
  refine ⟨?_, ?_, ?_, ?_⟩
  · obtain ⟨obj, h, he, hf, _, _⟩ := (show_history_expiry exReadEnv exIndex exName).1
      _ _ exClaimTx2 [2] 15 60 (by decide) hist (by decide) (by decide)
    exact ⟨obj, h, (he _).mpr rfl, fun hm => absurd (hf.mp hm) (by decide)⟩
  · obtain ⟨obj, h, he, _, h0, _⟩ := (show_history_expiry exReadEnv exIndexAt160 exName).1
      _ _ exClaimTx2 [2] 15 60 (by decide) hist (by decide) (by decide)
    exact ⟨obj, h, (he _).mpr rfl, h0 (by decide)⟩
  · obtain ⟨obj, h, he, _, _, h1⟩ := (show_history_expiry exReadEnv exIndexAt159 exName).1
      _ _ exClaimTx2 [2] 15 60 (by decide) hist (by decide) (by decide)
    exact ⟨obj, h, (he _).mpr rfl, h1 (by decide)⟩
  · obtain ⟨oRes, h, hall⟩ := (show_history_expiry exReadEnv exIndexAt160 exName).2.2
      [{ txHash := 12, nHeight := 40, vValue := [1] },
       { txHash := 15, nHeight := 60, vValue := [2] }] (by decide)
    have hf : ([{ txHash := 12, nHeight := 40, vValue := [1] },
        { txHash := 15, nHeight := 60, vValue := [2] }] : List CNameIndex).filter
          (fun txPos => (GetTransaction exIndexAt160 txPos.txHash).isSome &&
            (exReadEnv.GetValueOfNameTxHash txPos.txHash).isSome) =
        [{ txHash := 12, nHeight := 40, vValue := [1] },
         { txHash := 15, nHeight := 60, vValue := [2] }] := by decide
    rw [hf] at hall
    cases hall with
    | cons h1 hrest =>
      cases hrest with
      | cons h2 hnil =>
        cases hnil
        obtain ⟨tx1, v1, hash1, a1, _, hv1, he1, hx1, _, _⟩ := h1
        obtain ⟨tx2, v2, hash2, a2, _, hv2, he2, _, h02, _⟩ := h2
        have e1 : some (([1] : Bytes), (12 : uint256), (40 : Int)) = some (v1, hash1, a1) := hv1
        have e2 : some (([2] : Bytes), (15 : uint256), (60 : Int)) = some (v2, hash2, a2) := hv2
        cases e1
        cases e2
        exact ⟨_, _, h, (he1 _).mpr rfl, hx1.mpr (by decide), (he2 _).mpr rfl, h02 (by decide)⟩

/-! ## The loop of aliasfilter -/

theorem updateCheck_spec (env : Env) (s : State) (vchName : Bytes) :
    (HasPending s vchName = true ∧ updateCheck env s vchName = UpdateCheck.pending) ∨
    (HasPending s vchName = false ∧ s.fLocked = true ∧
      updateCheck env s vchName = UpdateCheck.locked) ∨
    (HasPending s vchName = false ∧ s.fLocked = false ∧ GetTxOfName env s vchName = none ∧
      updateCheck env s vchName = UpdateCheck.noClaim) ∨
    (∃ tx, HasPending s vchName = false ∧ s.fLocked = false ∧
      GetTxOfName env s vchName = some tx ∧ mapFind s.mapWallet tx.hash = none ∧
      updateCheck env s vchName = UpdateCheck.notInWallet) ∨
    (∃ tx wtxIn, HasPending s vchName = false ∧ s.fLocked = false ∧
      GetTxOfName env s vchName = some tx ∧ mapFind s.mapWallet tx.hash = some wtxIn ∧
      updateCheck env s vchName = UpdateCheck.pass wtxIn) := by
  unfold updateCheck
  rw [pendingCond_eq_HasPending]
  cases hp : HasPending s vchName
  swap
  · exact Or.inl ⟨rfl, by simp⟩
  right
  cases hl : s.fLocked
  swap
  · exact Or.inl ⟨rfl, rfl, by simp⟩
  right
  cases hg : GetTxOfName env s vchName with
  | none => exact Or.inl ⟨rfl, rfl, rfl, by simp⟩
  | some tx =>
    right
    cases hw : mapFind s.mapWallet tx.hash with
    | none => exact Or.inl ⟨tx, rfl, rfl, rfl, hw, by simp [hw]⟩
    | some wtxIn => exact Or.inr ⟨tx, wtxIn, rfl, rfl, rfl, hw, by simp [hw]⟩

theorem fLocked_updateKeyState (s : State) (a : Option Bytes) :
    (updateKeyState s a).fLocked = s.fLocked := by
  cases a <;> rfl

theorem mapWallet_updateKeyState (s : State) (a : Option Bytes) :
    (updateKeyState s a).mapWallet = s.mapWallet := by
  cases a <;> rfl

theorem nBestHeight_updateKeyState (s : State) (a : Option Bytes) :
    (updateKeyState s a).nBestHeight = s.nBestHeight := by
  cases a <;> rfl

/-- The outcome of aliasupdate read off the state it is called in. -/
theorem aliasupdate_spec (env : Env) (s : State) (vchName vchValue : Bytes)
    (toAddress : Option Bytes) (o : SendOracle) :
    (badAddress env toAddress = true ∧
      aliasupdate env s vchName vchValue toAddress o =
        (Except.error (RpcError.json RPCErrorCode.RPC_INVALID_ADDRESS_OR_KEY
          "Invalid syscoin address"), s)) ∨
    (badAddress env toAddress = false ∧ HasPending s vchName = true ∧
      aliasupdate env s vchName vchValue toAddress o =
        (Except.error pendingErrorAlias, updateKeyState s toAddress)) ∨
    (badAddress env toAddress = false ∧ HasPending s vchName = false ∧ s.fLocked = true ∧
      aliasupdate env s vchName vchValue toAddress o =
        (Except.error (RpcError.json RPCErrorCode.RPC_WALLET_UNLOCK_NEEDED
          "Error: Please enter the wallet passphrase with walletpassphrase first."),
          updateKeyState s toAddress)) ∨
    (badAddress env toAddress = false ∧ HasPending s vchName = false ∧ s.fLocked = false ∧
      GetTxOfName env s vchName = none ∧
      aliasupdate env s vchName vchValue toAddress o =
        (Except.error (RpcError.runtime "could not find an alias with this name"),
          updateKeyState s toAddress)) ∨
    (∃ tx, badAddress env toAddress = false ∧ HasPending s vchName = false ∧
      s.fLocked = false ∧ GetTxOfName env s vchName = some tx ∧
      mapFind s.mapWallet tx.hash = none ∧
      aliasupdate env s vchName vchValue toAddress o =
        (Except.error (RpcError.runtime "this alias is not in your wallet"),
          updateKeyState s toAddress)) ∨
    (∃ tx wtxIn, badAddress env toAddress = false ∧ HasPending s vchName = false ∧
      s.fLocked = false ∧ GetTxOfName env s vchName = some tx ∧
      mapFind s.mapWallet tx.hash = some wtxIn ∧
      aliasupdate env s vchName vchValue toAddress o =
        sendOutcome (SendMoneyWithInputTx (updateKeyState s toAddress) o
          (updateScript vchName vchValue (updateDest env s toAddress)) env.MIN_AMOUNT
          (roundUpToCENT env (env.GetAliasNetworkFee s.nBestHeight)) wtxIn
          env.SYSCOIN_TX_VERSION [])) := by
  rw [aliasupdate_eq]
  cases hb : badAddress env toAddress
  swap
  · exact Or.inl ⟨rfl, by simp⟩
  right
  simp only [Bool.false_eq_true, if_false]
  have hP := HasPending_updateKeyState s toAddress vchName
  have hL := fLocked_updateKeyState s toAddress
  have hG := GetTxOfName_updateKeyState env s toAddress vchName
  have hW := mapWallet_updateKeyState s toAddress
  rcases updateCheck_spec env (updateKeyState s toAddress) vchName with
    ⟨h1, hk⟩ | ⟨h1, h2, hk⟩ | ⟨h1, h2, h3, hk⟩ | ⟨tx, h1, h2, h3, h4, hk⟩ |
    ⟨tx, w, h1, h2, h3, h4, hk⟩
  · rw [hk]
    exact Or.inl ⟨trivial, hP ▸ h1, rfl⟩
  · rw [hk]
    exact Or.inr (Or.inl ⟨trivial, hP ▸ h1, hL ▸ h2, rfl⟩)
  · rw [hk]
    exact Or.inr (Or.inr (Or.inl ⟨trivial, hP ▸ h1, hL ▸ h2, hG ▸ h3, rfl⟩))
  · rw [hk]
    exact Or.inr (Or.inr (Or.inr (Or.inl
      ⟨tx, trivial, hP ▸ h1, hL ▸ h2, hG ▸ h3, hW ▸ h4, rfl⟩)))
  · rw [hk]
    exact Or.inr (Or.inr (Or.inr (Or.inr
      ⟨tx, w, trivial, hP ▸ h1, hL ▸ h2, hG ▸ h3, hW ▸ h4, rfl⟩)))

theorem sendOutcome_not_runtime (r : SendResult) (msg : String) :
    (sendOutcome r).1 ≠ Except.error (RpcError.runtime msg) := by
  unfold sendOutcome
  split <;> simp

/-! ## aliasupdate needs an active claim held by the wallet -/

/-- C15: aliasupdate reaches transaction construction (its call log grows)
only if the name database yields an active claim transaction for the name and
the wallet holds that transaction. When the call gets as far as the lookup
(address valid or absent, nothing pending on the name, wallet unlocked) and no
active claim is found, it fails with "could not find an alias with this name";
when the claim is found and its transaction is not in the wallet, it fails with
"this alias is not in your wallet"; in both cases nothing is sent. Each of the
two errors is reported in that situation only. -/
theorem update_needs_claim (env : Env) (s : State) (vchName vchValue : Bytes)
    (toAddress : Option Bytes) (o : SendOracle) :
    ((aliasupdate env s vchName vchValue toAddress o).2.sendLog ≠ s.sendLog →
      ∃ tx wtxIn, GetTxOfName env s vchName = some tx ∧
        mapFind s.mapWallet tx.hash = some wtxIn) ∧
    (badAddress env toAddress = false → HasPending s vchName = false → s.fLocked = false →
      (GetTxOfName env s vchName = none →
        (aliasupdate env s vchName vchValue toAddress o).1 =
            Except.error (RpcError.runtime "could not find an alias with this name") ∧
          (aliasupdate env s vchName vchValue toAddress o).2.sendLog = s.sendLog) ∧
      (∀ tx, GetTxOfName env s vchName = some tx → mapFind s.mapWallet tx.hash = none →
        (aliasupdate env s vchName vchValue toAddress o).1 =
            Except.error (RpcError.runtime "this alias is not in your wallet") ∧
          (aliasupdate env s vchName vchValue toAddress o).2.sendLog = s.sendLog)) ∧
    ((aliasupdate env s vchName vchValue toAddress o).1 =
        Except.error (RpcError.runtime "could not find an alias with this name") →
      GetTxOfName env s vchName = none) ∧
    ((aliasupdate env s vchName vchValue toAddress o).1 =
        Except.error (RpcError.runtime "this alias is not in your wallet") →
      ∃ tx, GetTxOfName env s vchName = some tx ∧ mapFind s.mapWallet tx.hash = none) := by
  have hS := sendLog_updateKeyState s toAddress
  rcases aliasupdate_spec env s vchName vchValue toAddress o with
    ⟨hb, he⟩ | ⟨hb, hp, he⟩ | ⟨hb, hp, hl, he⟩ | ⟨hb, hp, hl, hg, he⟩ |
    ⟨tx, hb, hp, hl, hg, hw, he⟩ | ⟨tx, w, hb, hp, hl, hg, hw, he⟩
  · rw [he]
    refine ⟨fun h => absurd rfl h, fun hb2 => ?_, fun h => ?_, fun h => ?_⟩
    · rw [hb] at hb2
      exact absurd hb2 (by decide)
    · simp at h
    · simp at h
  · rw [he]
    refine ⟨fun h => absurd hS h, fun _ hp2 => ?_, fun h => ?_, fun h => ?_⟩
    · rw [hp] at hp2
      exact absurd hp2 (by decide)
    · simp [pendingErrorAlias] at h
    · simp [pendingErrorAlias] at h
  · rw [he]
    refine ⟨fun h => absurd hS h, fun _ _ hl2 => ?_, fun h => ?_, fun h => ?_⟩
    · rw [hl] at hl2
      exact absurd hl2 (by decide)
    · simp at h
    · simp at h
  · rw [he]
    refine ⟨fun h => absurd hS h, fun _ _ _ => ⟨fun _ => ⟨rfl, hS⟩, fun tx ht => ?_⟩,
      fun _ => hg, fun h => ?_⟩
    · rw [hg] at ht
      exact absurd ht (by simp)
    · simp at h
  · rw [he]
    refine ⟨fun h => absurd hS h, fun _ _ _ => ⟨fun hn => ?_, fun _ _ _ => ⟨rfl, hS⟩⟩,
      fun h => ?_, fun _ => ⟨tx, hg, hw⟩⟩
    · rw [hg] at hn
      exact absurd hn (by simp)
    · simp at h
  · rw [he]
    refine ⟨fun _ => ⟨tx, w, hg, hw⟩, fun _ _ _ => ⟨fun hn => ?_, fun tx2 ht hw2 => ?_⟩,
      fun h => absurd h (sendOutcome_not_runtime _ _),
      fun h => absurd h (sendOutcome_not_runtime _ _)⟩
    · rw [hg] at hn
      exact absurd hn (by simp)
    · rw [hg] at ht
      cases ht
      rw [hw] at hw2
      exact absurd hw2 (by simp)

/-- The three outcomes of C15 on concrete wallets: a held active claim is
updated (one call, spending the claim transaction); no claim gives the
could-not-find error; a claim held elsewhere gives the not-in-your-wallet
error. -/
theorem update_needs_claim_witness :
    (∃ tx wtxIn, GetTxOfName exEnv exClaimed exName = some tx ∧
      mapFind exClaimed.mapWallet tx.hash = some wtxIn) ∧
    ((aliasupdate exEnv exReserved exName [2] none exSendOk).1 =
        Except.error (RpcError.runtime "could not find an alias with this name") ∧
      (aliasupdate exEnv exReserved exName [2] none exSendOk).2.sendLog =
        exReserved.sendLog) ∧
    ((aliasupdate exEnv exClaimedElsewhere exName [2] none exSendOk).1 =
        Except.error (RpcError.runtime "this alias is not in your wallet") ∧
      (aliasupdate exEnv exClaimedElsewhere exName [2] none exSendOk).2.sendLog =
        exClaimedElsewhere.sendLog) :=
  ⟨(update_needs_claim exEnv exClaimed exName [2] none exSendOk).1 (by decide),
   ((update_needs_claim exEnv exReserved exName [2] none exSendOk).2.1
      rfl (by decide) rfl).1 (by decide),
   ((update_needs_claim exEnv exClaimedElsewhere exName [2] none exSendOk).2.1
      rfl (by decide) rfl).2 exClaimTx (by decide) (by decide)⟩

/-! ## One failure for a name never claimed and for an expired claim -/

/-- C16 (amended): aliasupdate reports the same failure, "could not find an
alias with this name", for a name that was never claimed (the name database
has no record) and for a name whose claim has expired (the last record's
expiry `height + depth - current height` is not positive), once the address,
pending and lock checks pass. -/
theorem update_unclaimed_expired_same (env : Env) (s : State) (vchName vchValue : Bytes)
    (toAddress : Option Bytes) (o : SendOracle)
    (hb : badAddress env toAddress = false) (hp : HasPending s vchName = false)
    (hl : s.fLocked = false)
    (h : mapFind s.nameDB vchName = none ∨
      ∃ vtxPos txPos, mapFind s.nameDB vchName = some vtxPos ∧
        vtxPos.getLast? = some txPos ∧
        txPos.nHeight + env.GetExpirationDepth txPos.nHeight - s.nBestHeight ≤ 0) :
    (aliasupdate env s vchName vchValue toAddress o).1 =
      Except.error (RpcError.runtime "could not find an alias with this name") := by
  have hg : GetTxOfName env s vchName = none := by
    unfold GetTxOfName
    rcases h with h | ⟨vtxPos, txPos, h1, h2, h3⟩
    · rw [h]
    · rw [h1]
      simp only [h2]
      rw [if_neg (by omega)]
  rcases aliasupdate_spec env s vchName vchValue toAddress o with
    ⟨hb2, _⟩ | ⟨_, hp2, _⟩ | ⟨_, _, hl2, _⟩ | ⟨_, _, _, _, he⟩ |
    ⟨tx, _, _, _, hg2, _, _⟩ | ⟨tx, w, _, _, _, hg2, _, _⟩
  · rw [hb] at hb2
    exact absurd hb2 (by decide)
  · rw [hp] at hp2
    exact absurd hp2 (by decide)
  · rw [hl] at hl2
    exact absurd hl2 (by decide)
  · rw [he]
  · rw [hg] at hg2
    exact absurd hg2 (by simp)
  · rw [hg] at hg2
    exact absurd hg2 (by simp)

/-- The amended C16 on a wallet whose name was never claimed and on one whose
claim has expired. -/
theorem update_unclaimed_expired_same_witness :
    (aliasupdate exEnv exReserved exName [2] none exSendOk).1 =
        Except.error (RpcError.runtime "could not find an alias with this name") ∧
    (aliasupdate exEnv exExpired exName [2] none exSendOk).1 =
        Except.error (RpcError.runtime "could not find an alias with this name") :=
  ⟨update_unclaimed_expired_same exEnv exReserved exName [2] none exSendOk rfl (by decide) rfl
      (Or.inl (by decide)),
   update_unclaimed_expired_same exEnv exExpired exName [2] none exSendOk rfl (by decide) rfl
      (Or.inr ⟨[{ txHash := 12, nHeight := 40, vValue := [1] }],
        { txHash := 12, nHeight := 40, vValue := [1] }, by decide, by decide, by decide⟩)⟩

/-- C16 as stated fails: in `exReserved` the name was never claimed, in
`exExpired` its claim made at height 40 has expired at height 140, and
aliasupdate reports one and the same failure for both. -/
theorem unclaimed_and_expired_same_failure :
    mapFind exReserved.nameDB exName = none ∧
    mapFind exExpired.nameDB exName =
      some [{ txHash := 12, nHeight := 40, vValue := [1] }] ∧
    (40 : Int) + exEnv.GetExpirationDepth 40 - exExpired.nBestHeight ≤ 0 ∧
    (aliasupdate exEnv exReserved exName [2] none exSendOk).1 =
      (aliasupdate exEnv exExpired exName [2] none exSendOk).1 ∧
    (aliasupdate exEnv exExpired exName [2] none exSendOk).1 =
      Except.error (RpcError.runtime "could not find an alias with this name") :=
  ⟨by decide, by decide, by decide, rfl, rfl⟩

/-! ## Paging and counting in aliasfilter -/

theorem GetNameOfTx_nullTx (lenv : ListEnv) : GetNameOfTx (nullTx lenv) = none := rfl

theorem aliaslistStep_eq (lenv : ListEnv) (renv : ReadEnv) (env : Env) (s : State)
    (vchNameUniq : Bytes) (acc : ListAcc) (item : uint256 × CWalletTx) :
    aliaslistStep lenv renv env s vchNameUniq acc item = acc := by
  unfold aliaslistStep
  simp only [GetNameOfTx_nullTx]
  split
  · rfl
  · split <;> rfl

theorem aliaslist_foldl (lenv : ListEnv) (renv : ReadEnv) (env : Env) (s : State)
    (vchNameUniq : Bytes) (items : List (uint256 × CWalletTx)) (acc : ListAcc) :
    items.foldl (aliaslistStep lenv renv env s vchNameUniq) acc = acc := by
  induction items with
  | nil => rfl
  | cons item rest ih => rw [List.foldl_cons, aliaslistStep_eq, ih]

/-- C22 fails on the code: whatever the wallet holds, aliaslist called with a
name returns the empty list and leaves the state as it was, because its loop
tests the transaction variable it never fills. In particular the wallet
`exClaimed` holds the claim transaction of `exName`, found in the index, and
aliaslist lists nothing for it. -/
theorem aliaslist_always_empty :
    (∀ (lenv : ListEnv) (renv : ReadEnv) (env : Env) (s : State) (vchNameUniq : Bytes),
      aliaslist lenv renv env s (some vchNameUniq) = (Except.ok [], s)) ∧
    mapFind exClaimed.mapWallet 12 = some exClaimTx ∧
    GetNameOfTx exClaimTx = some exName ∧
    exListEnv.ReadTxIndex exClaimTx.hash = some 12 ∧
    exClaimTx.nVersion = exEnv.SYSCOIN_TX_VERSION ∧
    (aliaslist exListEnv exReadEnv exEnv exClaimed (some exName)).1 = Except.ok [] ∧
    (aliaslist exListEnv exReadEnv exEnv exClaimed (some [])).1 = Except.ok [] := by
  have key : ∀ (lenv : ListEnv) (renv : ReadEnv) (env : Env) (s : State) (vchNameUniq : Bytes),
      aliaslist lenv renv env s (some vchNameUniq) = (Except.ok [], s) := by
    intro lenv renv env s vchNameUniq
    unfold aliaslist
    simp only [aliaslist_foldl]
    rfl
  refine ⟨key, by decide, by decide, rfl, by decide, ?_, ?_⟩
  · rw [key]
  · rw [key]

/-! ## No length check on the name of a reservation -/

/-- C23 fails on the code: aliasnew and datanew called with the 256-byte name
`exLongName` on an unlocked wallet whose send succeeds return the id of the
sent transaction, have called transaction construction, and have recorded the
reservation under the long name. -/
theorem long_name_is_reserved :
    exLongName.length = 256 ∧
    (aliasnew exEnv exReserved exLongName 43783 exSendOk).1 = Except.ok (21, exRandHex) ∧
    (aliasnew exEnv exReserved exLongName 43783 exSendOk).2.sendLog =
      [reserveCall exEnv exReserved exLongName 43783] ∧
    mapFind (aliasnew exEnv exReserved exLongName 43783 exSendOk).2.mapMyNames exLongName =
      some 21 ∧
    (datanew exEnv exReserved exLongName 43783 exSendOk).1 = Except.ok (21, exRandHex) ∧
    (datanew exEnv exReserved exLongName 43783 exSendOk).2.sendLog =
      [reserveCall exEnv exReserved exLongName 43783] ∧
    mapFind (datanew exEnv exReserved exLongName 43783 exSendOk).2.mapMyNames exLongName =
      some 21 := by
  have h : datanew exEnv exReserved exLongName 43783 exSendOk =
      aliasnew exEnv exReserved exLongName 43783 exSendOk := rfl
  have hm : mapFind (aliasnew exEnv exReserved exLongName 43783 exSendOk).2.mapMyNames
      exLongName = some 21 := by
    rw [aliasnew_eq, if_neg (by decide), if_neg (by decide)]
    simp only [mapFind_mapAssign, if_true]
    rfl
  refine ⟨List.length_replicate _ _, rfl, rfl, hm, rfl, rfl, ?_⟩
  rw [h]
  exact hm

/-! ## The payload limit of the data commands -/

theorem sendOutcome_fst (s : State) (o : SendOracle) (call : SendCall) (v : Int) :
    (sendOutcome (sendTx s o call v)).1 =
      if o.strError ≠ "" then
        Except.error (RpcError.json RPCErrorCode.RPC_WALLET_ERROR o.strError)
      else Except.ok o.hash := by
  unfold sendOutcome
  rw [sendTx_strError, sendTx_hash]
  split <;> rfl

theorem sendOutcome_not_parameter (r : SendResult) (msg : String) :
    (sendOutcome r).1 ≠ Except.error (RpcError.json RPCErrorCode.RPC_INVALID_PARAMETER msg) := by
  unfold sendOutcome
  split <;> simp

theorem signEntry_not_parameter (env : Env) (txdata : Bytes) (dest : CTxDestination)
    (msg : String) :
    signEntry env txdata dest ≠
      Except.error (RpcError.json RPCErrorCode.RPC_INVALID_PARAMETER msg) := by
  unfold signEntry
  split
  · simp
  · split
    · simp
    · split <;> simp

theorem signLoopActivate_not_parameter (env : Env) (txdata : Bytes) (msg : String)
    (book : List (CTxDestination × Bytes)) :
    signLoopActivate env txdata book ≠
      Except.error (RpcError.json RPCErrorCode.RPC_INVALID_PARAMETER msg) := by
  induction book with
  | nil => simp [signLoopActivate]
  | cons entry rest ih =>
    unfold signLoopActivate
    split
    · exact signEntry_not_parameter env txdata entry.1 msg
    · exact ih

theorem signLoopUpdate_not_parameter (env : Env) (txdata : Bytes) (msg : String)
    (book : List (CTxDestination × Bytes)) :
    ∀ baSig, signLoopUpdate env txdata book baSig ≠
      Except.error (RpcError.json RPCErrorCode.RPC_INVALID_PARAMETER msg) := by
  induction book with
  | nil => intro baSig; simp [signLoopUpdate]
  | cons entry rest ih =>
    intro baSig
    unfold signLoopUpdate
    split
    · cases he : signEntry env txdata entry.1 with
      | error e =>
        intro h
        apply signEntry_not_parameter env txdata entry.1 msg
        rw [he]
        simpa using h
      | ok sig => exact ih sig
    · exact ih baSig

theorem aliasactivate_fst (env : Env) (s : State) (vchName strRand : Bytes)
    (txParam : Option uint256) (vchValue vchValue2 : Bytes) (o : SendOracle) :
    (aliasactivate env s vchName strRand txParam vchValue o).1 =
      (aliasactivate env s vchName strRand txParam vchValue2 o).1 := by
  rw [aliasactivate_eq, aliasactivate_eq]
  cases activateCheck env s vchName (ParseHex strRand) txParam with
  | pass wtxIn =>
    simp only [activateSend, SendMoneyWithInputTx, sendOutcome_fst]
  | _ => rfl

theorem aliasupdate_fst (env : Env) (s : State) (vchName : Bytes)
    (toAddress : Option Bytes) (vchValue vchValue2 : Bytes) (o : SendOracle) :
    (aliasupdate env s vchName vchValue toAddress o).1 =
      (aliasupdate env s vchName vchValue2 toAddress o).1 := by
  rw [aliasupdate_eq, aliasupdate_eq]
  cases badAddress env toAddress with
  | true => rfl
  | false =>
    simp only [Bool.false_eq_true, if_false]
    cases updateCheck env (updateKeyState s toAddress) vchName with
    | pass wtxIn =>
      simp only [SendMoneyWithInputTx, sendOutcome_fst]
    | _ => rfl

theorem except_map_ne {α β : Type} (f : α → β) (x : Except RpcError α) (e : RpcError)
    (h : x ≠ Except.error e) : x.map f ≠ Except.error e := by
  cases x with
  | error e2 =>
    intro h2
    apply h
    simpa [Except.map] using h2
  | ok a => simp [Except.map]

/-- C24 (amended): each of dataactivate and dataupdate rejects, before
anything else happens (state unchanged, no transaction constructed), a payload
longer than `MAX_TX_DATA_SIZE`, with the error that tells the caller to split
the payload; a payload of at most `MAX_TX_DATA_SIZE` bytes, so one of exactly
that size, never gets that error. aliasactivate and aliasupdate make no check
on the length of their value: what they return does not depend on the
value. -/
theorem data_payload_limit (env : Env) (s : State) (vchName strRand txdata : Bytes)
    (txParam : Option uint256) (toAddress : Option Bytes) (o : SendOracle) :
    (txdata.length > env.MAX_TX_DATA_SIZE →
      dataactivate env s vchName strRand txParam txdata o =
        (Except.error (RpcError.json RPCErrorCode.RPC_INVALID_PARAMETER
          "Data chunk is too long.  Split the payload to several transactions."), s) ∧
      dataupdate env s vchName txdata toAddress o =
        (Except.error (RpcError.json RPCErrorCode.RPC_INVALID_PARAMETER
          "Data chunk is too long.  Split the payload to several transactions."), s)) ∧
    (txdata.length ≤ env.MAX_TX_DATA_SIZE →
      (dataactivate env s vchName strRand txParam txdata o).1 ≠
        Except.error (RpcError.json RPCErrorCode.RPC_INVALID_PARAMETER
          "Data chunk is too long.  Split the payload to several transactions.") ∧
      (dataupdate env s vchName txdata toAddress o).1 ≠
        Except.error (RpcError.json RPCErrorCode.RPC_INVALID_PARAMETER
          "Data chunk is too long.  Split the payload to several transactions.")) ∧
    (∀ vchValue vchValue2 : Bytes,
      (aliasactivate env s vchName strRand txParam vchValue o).1 =
        (aliasactivate env s vchName strRand txParam vchValue2 o).1 ∧
      (aliasupdate env s vchName vchValue toAddress o).1 =
        (aliasupdate env s vchName vchValue2 toAddress o).1) := by
  refine ⟨fun hlen => ?_, fun hlen => ?_, fun v v2 =>
    ⟨aliasactivate_fst env s vchName strRand txParam v v2 o,
     aliasupdate_fst env s vchName toAddress v v2 o⟩⟩
  · rw [dataactivate_eq, dataupdate_eq, if_pos hlen, if_pos hlen]
    exact ⟨rfl, rfl⟩
  · have hn : ¬ txdata.length > env.MAX_TX_DATA_SIZE := by omega
    rw [dataactivate_eq, dataupdate_eq, if_neg hn, if_neg hn]
    constructor
    · cases hsig : signLoopActivate env txdata s.mapAddressBook with
      | error e =>
        intro h
        apply signLoopActivate_not_parameter env txdata _ s.mapAddressBook
        rw [hsig]
        simpa using h
      | ok baSig =>
        cases activateCheck env s vchName (ParseHex strRand) txParam with
        | pass wtxIn => exact except_map_ne _ _ _ (sendOutcome_not_parameter _ _)
        | _ => simp
    · cases hsig : signLoopUpdate env txdata s.mapAddressBook [] with
      | error e =>
        intro h
        apply signLoopUpdate_not_parameter env txdata _ s.mapAddressBook []
        rw [hsig]
        simpa using h
      | ok baSig =>
        cases badAddress env toAddress with
        | true => simp
        | false =>
          simp only [Bool.false_eq_true, if_false]
          cases updateCheck env (updateKeyState s toAddress) vchName with
          | pass wtxIn => exact except_map_ne _ _ _ (sendOutcome_not_parameter _ _)
          | _ => simp

/-- The amended C24 on the example wallets, where `MAX_TX_DATA_SIZE` is 4: a
payload of five bytes is rejected by both data commands, one of four bytes is
not. -/
theorem data_payload_limit_witness :
    (dataactivate exEnv exReserved exName exRandHex none [1, 2, 3, 4, 5] exSendOk =
        (Except.error (RpcError.json RPCErrorCode.RPC_INVALID_PARAMETER
          "Data chunk is too long.  Split the payload to several transactions."), exReserved) ∧
      dataupdate exEnv exReserved exName [1, 2, 3, 4, 5] none exSendOk =
        (Except.error (RpcError.json RPCErrorCode.RPC_INVALID_PARAMETER
          "Data chunk is too long.  Split the payload to several transactions."), exReserved)) ∧
    ((dataactivate exEnv exReserved exName exRandHex none [1, 2, 3, 4] exSendOk).1 ≠
        Except.error (RpcError.json RPCErrorCode.RPC_INVALID_PARAMETER
          "Data chunk is too long.  Split the payload to several transactions.") ∧
      (dataupdate exEnv exReserved exName [1, 2, 3, 4] none exSendOk).1 ≠
        Except.error (RpcError.json RPCErrorCode.RPC_INVALID_PARAMETER
          "Data chunk is too long.  Split the payload to several transactions.")) :=
  ⟨(data_payload_limit exEnv exReserved exName exRandHex [1, 2, 3, 4, 5] none none exSendOk).1
      (by decide),
   (data_payload_limit exEnv exReserved exName exRandHex [1, 2, 3, 4] none none exSendOk).2.1
      (by decide)⟩

/-- C24 as stated fails for the alias commands: with `MAX_TX_DATA_SIZE = 4`,
aliasactivate on `exReserved` and aliasupdate on `exClaimed` accept a value of
five bytes, construct their transaction and return its id. -/
theorem alias_value_not_limited :
    ([1, 2, 3, 4, 5] : Bytes).length > exEnv.MAX_TX_DATA_SIZE ∧
    (aliasactivate exEnv exReserved exName exRandHex none [1, 2, 3, 4, 5] exSendOk).1 =
      Except.ok 21 ∧
    (aliasactivate exEnv exReserved exName exRandHex none [1, 2, 3, 4, 5] exSendOk).2.sendLog =
      [activateCall exEnv exReserved exName exRand [1, 2, 3, 4, 5] exReserveTx []] ∧
    (aliasupdate exEnv exClaimed exName [1, 2, 3, 4, 5] none exSendOk).1 = Except.ok 21 ∧
    (aliasupdate exEnv exClaimed exName [1, 2, 3, 4, 5] none exSendOk).2.sendLog.length = 1 :=
  ⟨by decide, rfl, rfl, rfl, rfl⟩

/-! ## dataactivate and aliasactivate run the same protocol -/

/-- C25: when the payload is within the size limit and signing succeeds (with
signature text `baSig`), dataactivate and aliasactivate called in the same
state with the same name, nonce and reservation transaction have the same
outcome. Either the same check fails in both (pending, already active, locked,
no reservation, reservation not in the wallet, not a reservation, no name
output, commitment mismatch): each throws its own wording of that error, they
end in the same state and nothing is sent. Or both pass and make one call of
transaction construction, spending the same reservation, with the same
CENT-rounded fee and an ACTIVATE script of the same shape name, nonce, value
(the value being the caller's for aliasactivate and `baSig` for
dataactivate), and the send's verdict is the same for both. -/
theorem data_alias_activate_agree (env : Env) (s : State)
    (vchName strRand vchValue txdata baSig : Bytes) (txParam : Option uint256) (o : SendOracle)
    (hlen : txdata.length ≤ env.MAX_TX_DATA_SIZE)
    (hsig : signLoopActivate env txdata s.mapAddressBook = Except.ok baSig) :
    (∃ eA eD,
      activateErrorAlias (activateCheck env s vchName (ParseHex strRand) txParam) = some eA ∧
      activateErrorData (activateCheck env s vchName (ParseHex strRand) txParam) = some eD ∧
      (aliasactivate env s vchName strRand txParam vchValue o).1 = Except.error eA ∧
      (dataactivate env s vchName strRand txParam txdata o).1 = Except.error eD ∧
      (aliasactivate env s vchName strRand txParam vchValue o).2 =
        (dataactivate env s vchName strRand txParam txdata o).2 ∧
      (aliasactivate env s vchName strRand txParam vchValue o).2.sendLog = s.sendLog) ∨
    (∃ wtxIn, activateCheck env s vchName (ParseHex strRand) txParam = ActivateCheck.pass wtxIn ∧
      (aliasactivate env s vchName strRand txParam vchValue o).2.sendLog =
        s.sendLog ++ [activateCall env s vchName (ParseHex strRand) vchValue wtxIn []] ∧
      (dataactivate env s vchName strRand txParam txdata o).2.sendLog =
        s.sendLog ++ [activateCall env s vchName (ParseHex strRand) baSig wtxIn txdata] ∧
      (activateCall env s vchName (ParseHex strRand) vchValue wtxIn []).nNetFee =
        roundUpToCENT env (env.GetAliasNetworkFee s.nBestHeight) ∧
      (activateCall env s vchName (ParseHex strRand) baSig wtxIn txdata).nNetFee =
        roundUpToCENT env (env.GetAliasNetworkFee s.nBestHeight) ∧
      (activateCall env s vchName (ParseHex strRand) vchValue wtxIn []).scriptPubKey =
        activateScript vchName (ParseHex strRand) vchValue s.nKeyPool ∧
      (activateCall env s vchName (ParseHex strRand) baSig wtxIn txdata).scriptPubKey =
        activateScript vchName (ParseHex strRand) baSig s.nKeyPool ∧
      (dataactivate env s vchName strRand txParam txdata o).1 =
        (aliasactivate env s vchName strRand txParam vchValue o).1.map (fun h => (baSig, h))) := by
  have hn : ¬ txdata.length > env.MAX_TX_DATA_SIZE := by omega
  rw [aliasactivate_eq, dataactivate_eq, if_neg hn, hsig]
  cases hk : activateCheck env s vchName (ParseHex strRand) txParam with
  | pass wtxIn =>
    right
    refine ⟨wtxIn, rfl, sendOutcome_sendLog _ _ _ _, sendOutcome_sendLog _ _ _ _,
      rfl, rfl, rfl, rfl, ?_⟩
    simp only [activateSend, SendMoneyWithInputTx, sendOutcome_fst]
  | _ =>
    left
    exact ⟨_, _, rfl, rfl, rfl, rfl, rfl, rfl⟩

/-- C25 on the example wallets: on `exReserved` both commands send, with the
same fee and the same reservation; on `exPending` both fail on the pending
operations. -/
theorem data_alias_activate_agree_witness :
    ((aliasactivate exEnv exReserved exName exRandHex none [1] exSendOk).2.sendLog =
        exReserved.sendLog ++ [activateCall exEnv exReserved exName exRand [1] exReserveTx []] ∧
      (dataactivate exEnv exReserved exName exRandHex none [1, 2] exSendOk).2.sendLog =
        exReserved.sendLog ++
          [activateCall exEnv exReserved exName exRand [232, 2] exReserveTx [1, 2]]) ∧
    ((aliasactivate exEnv exPending exName exRandHex none [1] exSendOk).1 =
        Except.error pendingErrorAlias ∧
      (dataactivate exEnv exPending exName exRandHex none [1, 2] exSendOk).1 =
        Except.error pendingErrorData) := by
  constructor
  · rcases data_alias_activate_agree exEnv exReserved exName exRandHex [1] [1, 2] [232, 2]
      none exSendOk (by decide) rfl with ⟨eA, eD, h, _⟩ | ⟨w, hw, h1, h2, _⟩
    · have h0 : (none : Option RpcError) = some eA := h
      cases h0
    · have hw2 : w = exReserveTx := by
        have : ActivateCheck.pass exReserveTx = ActivateCheck.pass w := hw
        cases this
        rfl
      subst hw2
      exact ⟨h1, h2⟩
  · rcases data_alias_activate_agree exEnv exPending exName exRandHex [1] [1, 2] [232, 2]
      none exSendOk (by decide) rfl with ⟨eA, eD, hA, hD, h1, h2, _⟩ | ⟨w, hw, _⟩
    · have hA2 : some pendingErrorAlias = some eA := hA
      have hD2 : some pendingErrorData = some eD := hD
      cases hA2
      cases hD2
      exact ⟨h1, h2⟩
    · have h0 : ActivateCheck.pending = ActivateCheck.pass w := hw
      cases h0

/-! ## aliasscan asks for both of its optional parameters -/

/-- C26 fails on the code: aliasscan called with a start name and no
max-returned argument throws its help text, whatever the name index holds; it
scans nothing. On the example index the call with the start name alone throws,
while the call that also passes 500 returns the four scanned entries. -/
theorem aliasscan_one_param_throws_help :
    (∀ (renv : ReadEnv) (s : State) (startName : Bytes),
      aliasscan renv s (some startName) none = Except.error (RpcError.runtime aliasscanHelp)) ∧
    aliasscan exReadEnv exIndex (some []) none = Except.error (RpcError.runtime aliasscanHelp) ∧
    aliasscan exReadEnv exIndex (some []) (some 500) =
      Except.ok (exScan.map (fun pairScan => scanObject exReadEnv exIndex pairScan.1 pairScan.2)) :=
  ⟨fun _ _ _ => rfl, rfl, rfl⟩

/-! ## The fee of the update commands -/

theorem aliasupdate_sendLog (env : Env) (s : State) (vchName vchValue : Bytes)
    (toAddress : Option Bytes) (o : SendOracle) :
    (aliasupdate env s vchName vchValue toAddress o).2.sendLog = s.sendLog ∨
    ∃ wtxIn, (aliasupdate env s vchName vchValue toAddress o).2.sendLog =
      s.sendLog ++ [updateCall env s vchName vchValue toAddress
        (roundUpToCENT env (env.GetAliasNetworkFee s.nBestHeight)) wtxIn] := by
  have hS := sendLog_updateKeyState s toAddress
  rw [aliasupdate_eq]
  cases badAddress env toAddress with
  | true => exact Or.inl rfl
  | false =>
    simp only [Bool.false_eq_true, if_false]
    cases updateCheck env (updateKeyState s toAddress) vchName with
    | pass wtxIn =>
      right
      refine ⟨wtxIn, ?_⟩
      unfold SendMoneyWithInputTx
      rw [sendOutcome_sendLog, hS]
      rfl
    | _ => exact Or.inl hS

theorem dataupdate_sendLog (env : Env) (s : State) (vchName txdata : Bytes)
    (toAddress : Option Bytes) (o : SendOracle) :
    (dataupdate env s vchName txdata toAddress o).2.sendLog = s.sendLog ∨
    ∃ wtxIn baSig, signLoopUpdate env txdata s.mapAddressBook [] = Except.ok baSig ∧
      (dataupdate env s vchName txdata toAddress o).2.sendLog =
        s.sendLog ++ [updateCall env s vchName baSig toAddress 0 wtxIn] := by
  have hS := sendLog_updateKeyState s toAddress
  rw [dataupdate_eq]
  split
  · exact Or.inl rfl
  · cases hsig : signLoopUpdate env txdata s.mapAddressBook [] with
    | error e => exact Or.inl rfl
    | ok baSig =>
      cases badAddress env toAddress with
      | true => exact Or.inl rfl
      | false =>
        simp only [Bool.false_eq_true, if_false]
        cases updateCheck env (updateKeyState s toAddress) vchName with
        | pass wtxIn =>
          right
          refine ⟨wtxIn, baSig, rfl, ?_⟩
          unfold SendMoneyWithInputTx
          rw [sendOutcome_sendLog, hS]
          rfl
        | _ => exact Or.inl hS

/-- C27: at every height aliasupdate hands transaction construction the
CENT-rounded network fee of that height, the same that aliasactivate hands
over at that height, while dataupdate hands it a fee of 0: the one call each
command can add to the call log carries that fee. On the example wallet with a
held claim at height 50 both update commands do send, with the fees 3000000
and 0. -/
theorem update_fees (env : Env) (s : State) (vchName vchValue strRand txdata : Bytes)
    (txParam : Option uint256) (toAddress : Option Bytes) (o : SendOracle) :
    ((aliasupdate env s vchName vchValue toAddress o).2.sendLog = s.sendLog ∨
      ∃ call, (aliasupdate env s vchName vchValue toAddress o).2.sendLog = s.sendLog ++ [call] ∧
        call.nNetFee = roundUpToCENT env (env.GetAliasNetworkFee s.nBestHeight)) ∧
    ((aliasactivate env s vchName strRand txParam vchValue o).2.sendLog = s.sendLog ∨
      ∃ call, (aliasactivate env s vchName strRand txParam vchValue o).2.sendLog =
          s.sendLog ++ [call] ∧
        call.nNetFee = roundUpToCENT env (env.GetAliasNetworkFee s.nBestHeight)) ∧
    ((dataupdate env s vchName txdata toAddress o).2.sendLog = s.sendLog ∨
      ∃ call, (dataupdate env s vchName txdata toAddress o).2.sendLog = s.sendLog ++ [call] ∧
        call.nNetFee = 0) ∧
    (aliasupdate exEnv exClaimed exName [2] none exSendOk).2.sendLog =
      [updateCall exEnv exClaimed exName [2] none 3000000 exClaimTx] ∧
    (aliasactivate exEnv exReserved exName exRandHex none [1] exSendOk).2.sendLog =
      [activateCall exEnv exReserved exName exRand [1] exReserveTx []] ∧
    (activateCall exEnv exReserved exName exRand [1] exReserveTx []).nNetFee = 3000000 ∧
    (dataupdate exEnv exClaimed exName [1, 2] none exSendOk).2.sendLog =
      [updateCall exEnv exClaimed exName [232, 2] none 0 exClaimTx] := by
  refine ⟨?_, ?_, ?_, rfl, rfl, rfl, rfl⟩
  · rcases aliasupdate_sendLog env s vchName vchValue toAddress o with h | ⟨w, h⟩
    · exact Or.inl h
    · exact Or.inr ⟨_, h, rfl⟩
  · rcases aliasactivate_sendLog env s vchName strRand txParam vchValue o with
      ⟨w, _, h⟩ | ⟨_, _, h⟩
    · exact Or.inr ⟨_, h, rfl⟩
    · exact Or.inl h
  · rcases dataupdate_sendLog env s vchName txdata toAddress o with h | ⟨w, b, _, h⟩
    · exact Or.inl h
    · exact Or.inr ⟨_, h, rfl⟩

/-! ## The key dataupdate signs with -/

/-- C28 fails on the code: with an address book of two own addresses,
dataactivate signs with the first (its loop ends at the first own address),
but dataupdate goes through the whole book and stores the signature made with
the last own address: here `[233, 2]`, the signature of the second address,
not `[232, 2]`, that of the first. -/
theorem dataupdate_signs_with_last_key :
    exEnv.IsMine (CTxDestination.CKeyID 0) = true ∧
    exEnv.IsMine (CTxDestination.CKeyID 1) = true ∧
    signEntry exEnv [1, 2] (CTxDestination.CKeyID 0) = Except.ok [232, 2] ∧
    signEntry exEnv [1, 2] (CTxDestination.CKeyID 1) = Except.ok [233, 2] ∧
    signLoopActivate exEnv [1, 2] exTwoBook = Except.ok [232, 2] ∧
    signLoopUpdate exEnv [1, 2] exTwoBook [] = Except.ok [233, 2] ∧
    (dataactivate exEnv exTwoKeysReserved exName exRandHex none [1, 2] exSendOk).1 =
      Except.ok ([232, 2], 21) ∧
    (dataupdate exEnv exTwoKeysClaimed exName [1, 2] none exSendOk).1 =
      Except.ok ([233, 2], 21) ∧
    (dataupdate exEnv exTwoKeysClaimed exName [1, 2] none exSendOk).2.sendLog =
      [updateCall exEnv exTwoKeysClaimed exName [233, 2] none 0 exClaimTx] :=
  ⟨rfl, rfl, rfl, rfl, rfl, rfl, rfl, rfl, rfl⟩

/-! ## The commitment does not bind the boundary between nonce and name -/

/-- C29: the commitment binds only the concatenation `nonce ++ name`. There
are two pairs (nonce, name) and (nonce2, name2) with `name ≠ name2` and
`nonce ++ name = nonce2 ++ name2` such that the reservation aliasnew makes for
(nonce, name) passes the commitment check of aliasactivate called for
(nonce2, name2) with that reservation: the checks pass and the ACTIVATE
transaction for name2 is sent. -/
theorem commitment_ignores_boundary :
    ∃ (nonce name nonce2 name2 : Bytes) (rand : Nat),
      name ≠ name2 ∧ nonce ≠ nonce2 ∧ nonce ++ name = nonce2 ++ name2 ∧
      exEnv.getvch rand = nonce ∧
      (aliasnew exEnv exNoRecord name rand exSendOk).1 = Except.ok (21, HexStr nonce) ∧
      ParseHex (HexStr nonce2) = nonce2 ∧
      (∃ wtxIn, activateCheck exEnv (aliasnew exEnv exNoRecord name rand exSendOk).2 name2
          nonce2 (some 21) = ActivateCheck.pass wtxIn ∧
        scanVout wtxIn.vout = VoutScan.found (exEnv.Hash160 (nonce ++ name))) ∧
      (aliasactivate exEnv (aliasnew exEnv exNoRecord name rand exSendOk).2 name2
          (HexStr nonce2) (some 21) [1] exSendOk2).1 = Except.ok 22 :=
  ⟨exRand, exName, [7], exShiftedName, 43783, by decide, by decide, rfl, rfl, rfl, rfl,
    ⟨_, rfl, rfl⟩, rfl⟩

/-! ## When aliasactivate draws its key -/

/-- C30: aliasactivate draws a key from the key pool after it has resolved the
reservation transaction in the wallet and before it looks for the RESERVE
output and compares the commitment. So a call that fails with the
not-a-reservation error (either wording) or the different-random-value error
ends in the state with one key drawn, and a call that fails on pending
operations, on an already active name, on a reservation it cannot find or on
one the wallet does not hold ends in the state it started in, with no key
drawn. -/
theorem key_drawn_before_scan (env : Env) (s : State) (vchName strRand vchValue : Bytes)
    (txParam : Option uint256) (o : SendOracle) :
    (((aliasactivate env s vchName strRand txParam vchValue o).1 =
          Except.error (RpcError.runtime "previous transaction wasn't a aliasnew") ∨
        (aliasactivate env s vchName strRand txParam vchValue o).1 =
          Except.error (RpcError.runtime "previous tx on alias name is not an alias tx") ∨
        (aliasactivate env s vchName strRand txParam vchValue o).1 =
          Except.error (RpcError.runtime "previous tx used a different random value")) →
      (aliasactivate env s vchName strRand txParam vchValue o).2 = (GetKeyFromPool s).2 ∧
      (aliasactivate env s vchName strRand txParam vchValue o).2.nKeyPool = s.nKeyPool + 1) ∧
    (((aliasactivate env s vchName strRand txParam vchValue o).1 =
          Except.error (RpcError.runtime "there are pending operations on that alias") ∨
        (aliasactivate env s vchName strRand txParam vchValue o).1 =
          Except.error (RpcError.runtime "this alias is already active") ∨
        (aliasactivate env s vchName strRand txParam vchValue o).1 =
          Except.error (RpcError.runtime
            "could not find a coin with this alias, try specifying the aliasnew transaction id") ∨
        (aliasactivate env s vchName strRand txParam vchValue o).1 =
          Except.error (RpcError.runtime "previous transaction is not in the wallet")) →
      (aliasactivate env s vchName strRand txParam vchValue o).2 = s ∧
      (aliasactivate env s vchName strRand txParam vchValue o).2.nKeyPool = s.nKeyPool) := by
  rw [aliasactivate_eq]
  cases activateCheck env s vchName (ParseHex strRand) txParam with
  | pass wtxIn =>
    constructor
    · rintro (h | h | h) <;> exact absurd h (sendOutcome_not_runtime _ _)
    · rintro (h | h | h | h) <;> exact absurd h (sendOutcome_not_runtime _ _)
  | pending => exact ⟨fun h => by simp at h, fun _ => ⟨rfl, rfl⟩⟩
  | alreadyActive => exact ⟨fun h => by simp at h, fun _ => ⟨rfl, rfl⟩⟩
  | locked => exact ⟨fun h => by simp at h, fun h => by simp at h⟩
  | noReservation => exact ⟨fun h => by simp at h, fun _ => ⟨rfl, rfl⟩⟩
  | notInWallet => exact ⟨fun h => by simp at h, fun _ => ⟨rfl, rfl⟩⟩
  | notNew => exact ⟨fun _ => ⟨rfl, rfl⟩, fun h => by simp at h⟩
  | notAlias => exact ⟨fun _ => ⟨rfl, rfl⟩, fun h => by simp at h⟩
  | mismatch => exact ⟨fun _ => ⟨rfl, rfl⟩, fun h => by simp at h⟩

/-- C30 on the example wallets, whose key pool stands at 1: the failures after
the draw leave it at 2, the failures before the draw leave it at 1. -/
theorem key_drawn_before_scan_witness :
    (aliasactivate exEnv exNotNewState exName exRandHex none [1] exSendOk).2.nKeyPool = 2 ∧
    (aliasactivate exEnv exPlainState exName exRandHex none [1] exSendOk).2.nKeyPool = 2 ∧
    (aliasactivate exEnv exReserved exName exOtherHex none [1] exSendOk).2.nKeyPool = 2 ∧
    (aliasactivate exEnv exPendingClaimed exName exRandHex none [1] exSendOk).2.nKeyPool = 1 ∧
    (aliasactivate exEnv exClaimed exName exRandHex none [1] exSendOk).2.nKeyPool = 1 ∧
    (aliasactivate exEnv exNoRecord exName exRandHex none [1] exSendOk).2.nKeyPool = 1 ∧
    (aliasactivate exEnv exNotHeld exName exRandHex none [1] exSendOk).2.nKeyPool = 1 :=
  ⟨((key_drawn_before_scan exEnv exNotNewState exName exRandHex [1] none exSendOk).1
      (Or.inl rfl)).2,
   ((key_drawn_before_scan exEnv exPlainState exName exRandHex [1] none exSendOk).1
      (Or.inr (Or.inl rfl))).2,
   ((key_drawn_before_scan exEnv exReserved exName exOtherHex [1] none exSendOk).1
      (Or.inr (Or.inr rfl))).2,
   ((key_drawn_before_scan exEnv exPendingClaimed exName exRandHex [1] none exSendOk).2
      (Or.inl rfl)).2,
   ((key_drawn_before_scan exEnv exClaimed exName exRandHex [1] none exSendOk).2
      (Or.inr (Or.inl rfl))).2,
   ((key_drawn_before_scan exEnv exNoRecord exName exRandHex [1] none exSendOk).2
      (Or.inr (Or.inr (Or.inl rfl)))).2,
   ((key_drawn_before_scan exEnv exNotHeld exName exRandHex [1] none exSendOk).2
      (Or.inr (Or.inr (Or.inr rfl)))).2⟩

end Syscoin
